import Mathlib

/-!
GfxPluginQuadroSync: dispatch and context-validation layer.

A shallow embedding of `GfxPluginQuadroSync/Sources/GfxQuadroSync.cpp` (the unified
D3D11/D3D12 plugin).  The file-level statics become the fields of `PluginState`; every
function of the translation unit becomes a function on that state.  The D3D11-only plugin
`GfxPluginQuadroSyncD3D11/GfxQuadroSync.cpp` is embedded the same way in the namespace
`D3D11Only`.

* Pointers and opaque handles are natural numbers, `0` being `nullptr`.
* What the host engine answers when one of its interfaces is called is read from a `Host`
  record that is supplied to every call, so the host may answer differently from one call
  to the next.
* `PluginCSwapGroupClient` (declared in `QuadroSync.h`, which is not among the sources) is a
  parameter: a record of operations over an arbitrary client state `κ`.  Where a property
  depends on what the client does (the barrier toggle and the frame-count throttle), the
  client is `specClient`, modelled from the specification.
* Dereferencing a null pointer and a failing `assert` are faults: functions that can reach
  one return `Except Fault _`.
* Two ghost traces are kept: `clientCalls`, the operations invoked on the swap-group client,
  and `providerCalls`, the handle queries made to the host's D3D interfaces.  `stores` is the
  sequence of writes made through caller-supplied out-pointers.
* Log statements (`CLUSTER_LOG...`) have no effect on the state and are left out.
-/

namespace GfxQuadroSync

/-- Pointer to a host interface or caller buffer; `0` is `nullptr`. -/
abbrev Ptr := Nat

/-- Opaque device, swap-chain or command-queue handle; `0` is `nullptr`. -/
abbrev Handle := Nat

/-- Ways in which a call can fail to complete. -/
inductive Fault
  | NullDereference
  | AssertionFailed
  deriving DecidableEq, Repr

/-- Modelled from the spec: the host's `UnityGfxRenderer` enumeration (`IUnityGraphics.h` is
not among the sources).  The plugin distinguishes only the two supported kinds; `Null` is the
value its comments mention, every other kind is `kUnityGfxRendererOther`. -/
inductive UnityGfxRenderer
  | kUnityGfxRendererD3D11
  | kUnityGfxRendererD3D12
  | kUnityGfxRendererNull
  | kUnityGfxRendererOther (code : Nat)
  deriving DecidableEq, Repr

/-- Modelled from the spec: the host's `UnityGfxDeviceEventType` (`IUnityGraphics.h` is not
among the sources); the plugin reacts to `Initialize` and `Shutdown` only. -/
inductive UnityGfxDeviceEventType
  | kUnityGfxDeviceEventInitialize
  | kUnityGfxDeviceEventShutdown
  | kUnityGfxDeviceEventBeforeReset
  | kUnityGfxDeviceEventAfterReset
  deriving DecidableEq, Repr

/-- Modelled from the spec: the host's `UnityRenderingExtQueryType`
(`IUnityRenderingExtensions.h` is not among the sources); the plugin tests for
`kUnityRenderingExtQueryOverridePresentFrame` only. -/
inductive UnityRenderingExtQueryType
  | kUnityRenderingExtQueryOverrideViewport
  | kUnityRenderingExtQueryOverrideScissor
  | kUnityRenderingExtQueryOverrideVROcclussionMesh
  | kUnityRenderingExtQueryOverrideVRSinglePass
  | kUnityRenderingExtQueryKeepOriginalDoubleWideWidth_DEPRECATED
  | kUnityRenderingExtQueryRequestVRFlushCallback
  | kUnityRenderingExtQueryOverridePresentFrame
  deriving DecidableEq, Repr

/-- The status enumeration of `GfxQuadroSync.cpp`, lines 26-43. -/
inductive QuadroSyncInitializationStatus
  | NotInitialized
  | Initialized
  | FailedUnityInterfacesNull
  | UnsupportedGraphicApi
  | MissingDevice
  | MissingSwapChain
  | SwapChainOrBarrierGenericFailure
  | NoSwapGroupDetected
  | QuerySwapGroupFailed
  | FailedToJoinSwapGroup
  | SwapGroupMismatch
  | FailedToBindSwapBarrier
  | SwapBarrierIdMismatch
  deriving DecidableEq, Repr

/-- The `uint32_t` enumerator values of `QuadroSyncInitializationStatus`. -/
def QuadroSyncInitializationStatus.toUInt32 : QuadroSyncInitializationStatus → Nat
  | .NotInitialized => 0
  | .Initialized => 1
  | .FailedUnityInterfacesNull => 2
  | .UnsupportedGraphicApi => 3
  | .MissingDevice => 4
  | .MissingSwapChain => 5
  | .SwapChainOrBarrierGenericFailure => 6
  | .NoSwapGroupDetected => 7
  | .QuerySwapGroupFailed => 8
  | .FailedToJoinSwapGroup => 9
  | .SwapGroupMismatch => 10
  | .FailedToBindSwapBarrier => 11
  | .SwapBarrierIdMismatch => 12

/-- Modelled from the spec: `PluginCSwapGroupClient::InitializeStatus` (`QuadroSync.h` is not
among the sources).  These are the eight enumerators `GfxQuadroSync.cpp` names: `Success` and
the seven failure values mirrored by codes 6..12 of `QuadroSyncInitializationStatus`. -/
inductive InitializeStatus
  | Success
  | Failed
  | NoSwapGroupDetected
  | QuerySwapGroupFailed
  | FailedToJoinSwapGroup
  | SwapGroupMismatch
  | FailedToBindSwapBarrier
  | SwapBarrierIdMismatch
  deriving DecidableEq, Repr

/-- The enumeration `EQuadroSyncRenderEvent` of `GfxQuadroSync.h`, lines 8-19. -/
inductive EQuadroSyncRenderEvent
  | QuadroSyncInitialize
  | QuadroSyncQueryFrameCount
  | QuadroSyncResetFrameCount
  | QuadroSyncDispose
  | QuadroSyncEnableSystem
  | QuadroSyncEnableSwapGroup
  | QuadroSyncEnableSwapBarrier
  | QuadroSyncEnableSyncCounter
  | QuadroSyncSkipSyncForNextFrame
  deriving DecidableEq, Repr

/-- The enumerator values: the first is `0`, each following one is the previous plus one. -/
def EQuadroSyncRenderEvent.toInt : EQuadroSyncRenderEvent → Int
  | .QuadroSyncInitialize => 0
  | .QuadroSyncQueryFrameCount => 1
  | .QuadroSyncResetFrameCount => 2
  | .QuadroSyncDispose => 3
  | .QuadroSyncEnableSystem => 4
  | .QuadroSyncEnableSwapGroup => 5
  | .QuadroSyncEnableSwapBarrier => 6
  | .QuadroSyncEnableSyncCounter => 7
  | .QuadroSyncSkipSyncForNextFrame => 8

/-- Which concrete `IGraphicsDevice` was constructed. -/
inductive GraphicsBackend
  | D3D11
  | D3D12
  deriving DecidableEq, Repr

/-- Modelled from the spec: the `IGraphicsDevice` object (`D3D11GraphicsDevice.h` and
`D3D12GraphicsDevice.h` are not among the sources): a record of the borrowed device and
swap-chain handles and the present parameters given to its constructor; `GetDevice`,
`GetSwapChain`, `SetDevice` and `SetSwapChain` read and overwrite the two handle fields. -/
structure IGraphicsDevice where
  backend : GraphicsBackend
  device : Handle
  swapChain : Handle
  commandQueue : Handle
  syncInterval : Nat
  presentFlags : Nat
  deriving DecidableEq, Repr

/-- What the host engine answers when its interfaces are called during one plugin call. -/
structure Host where
  /-- Result of `unityInterfaces->Get<IUnityGraphics>()`. -/
  unityGraphics : Ptr
  /-- Result of `s_UnityInterfaces->Get<IUnityGraphicsD3D11>()`. -/
  unityGraphicsD3D11 : Ptr
  /-- Result of `s_UnityInterfaces->Get<IUnityGraphicsD3D12v7>()`. -/
  unityGraphicsD3D12 : Ptr
  /-- Result of `s_UnityGraphics->GetRenderer()`. -/
  renderer : UnityGfxRenderer
  d3d11Device : Handle
  d3d11SwapChain : Handle
  d3d11SyncInterval : Nat
  d3d11PresentFlags : Nat
  d3d12Device : Handle
  d3d12SwapChain : Handle
  d3d12CommandQueue : Handle
  d3d12SyncInterval : Nat
  d3d12PresentFlags : Nat
  /-- The frequency written by `QueryPerformanceFrequency`, `none` when that call fails. -/
  performanceFrequency : Option Nat
  deriving DecidableEq, Repr

/-- Operations invoked on `s_SwapGroupClient`, with their arguments. -/
inductive ClientCall
  | SetBarrierWarmupCallback (callback : Ptr)
  | SetupWorkStation
  | DisposeWorkStation
  | Initialize (device swapChain : Handle)
  | Dispose (device swapChain : Handle)
  | QueryFrameCount (device : Handle)
  | ResetFrameCount (device : Handle)
  | EnableSystem (device swapChain : Handle) (value : Bool)
  | EnableSwapGroup (device swapChain : Handle) (value : Bool)
  | EnableSwapBarrier (device : Handle) (value : Bool)
  | EnableSyncCounter (value : Bool)
  | SkipSynchronizedPresentOfNextFrame
  | Render (graphicsDevice : IGraphicsDevice)
  deriving DecidableEq, Repr

/-- Handle queries made to the host's D3D interfaces. -/
inductive ProviderCall
  | D3D11GetDevice
  | D3D11GetSwapChain
  | D3D12GetDevice
  | D3D12GetSwapChain
  | D3D12GetCommandQueue
  deriving DecidableEq, Repr

/-- Modelled from the spec: the operations of `PluginCSwapGroupClient` (`QuadroSync.h` and
its implementation are not among the sources), over an arbitrary client state `κ`.  Each
operation maps the client state to the new client state and, where the C++ member returns a
value, to that value. -/
structure PluginCSwapGroupClient (κ : Type) where
  SetBarrierWarmupCallback : κ → Ptr → κ
  SetupWorkStation : κ → κ
  DisposeWorkStation : κ → κ
  Initialize : κ → Handle → Handle → InitializeStatus × κ
  Dispose : κ → Handle → Handle → κ
  QueryFrameCount : κ → Handle → Nat × κ
  ResetFrameCount : κ → Handle → κ
  EnableSystem : κ → Handle → Handle → Bool → κ
  EnableSwapGroup : κ → Handle → Handle → Bool → κ
  EnableSwapBarrier : κ → Handle → Bool → κ
  EnableSyncCounter : κ → Bool → κ
  SkipSynchronizedPresentOfNextFrame : κ → κ
  Render : κ → IGraphicsDevice → Bool × κ
  GetSwapGroupId : κ → Nat
  GetSwapBarrierId : κ → Nat
  GetPresentSuccessCount : κ → Nat
  GetPresentFailureCount : κ → Nat

/-- The file-level statics of `GfxQuadroSync.cpp` (lines 15-22, 44-45) and the ghost traces. -/
structure PluginState (κ : Type) where
  s_UnityInterfaces : Ptr
  s_UnityGraphics : Ptr
  s_UnityGraphicsD3D11 : Ptr
  s_UnityGraphicsD3D12 : Ptr
  s_GraphicsDevice : Option IGraphicsDevice
  s_SwapGroupClient : κ
  s_Initialized : Bool
  s_InitializationStatus : QuadroSyncInitializationStatus
  s_PerformanceCounterFrequency : Nat
  clientCalls : List ClientCall
  providerCalls : List ProviderCall
  stores : List (Ptr × Int)
  deriving DecidableEq, Repr

/-- The state the static initialisers establish, around a freshly constructed client. -/
def initialState {κ : Type} (client : κ) : PluginState κ :=
  { s_UnityInterfaces := 0
    s_UnityGraphics := 0
    s_UnityGraphicsD3D11 := 0
    s_UnityGraphicsD3D12 := 0
    s_GraphicsDevice := none
    s_SwapGroupClient := client
    s_Initialized := false
    s_InitializationStatus := .NotInitialized
    s_PerformanceCounterFrequency := 0
    clientCalls := []
    providerCalls := []
    stores := [] }

/-- The constant `NBR_CAN_GET_FRAME_COUNT_BEFORE_THROTTLE` (line 46). -/
def NBR_CAN_GET_FRAME_COUNT_BEFORE_THROTTLE : Nat := 60

/-- The constant `NBR_SECONDS_BETWEEN_CAN_GET_FRAME_COUNT` (line 47). -/
def NBR_SECONDS_BETWEEN_CAN_GET_FRAME_COUNT : Nat := 1

/-- Dereference of `s_GraphicsDevice`: a fault when the pointer is null. -/
def derefGraphicsDevice {κ : Type} (s : PluginState κ) : Except Fault IGraphicsDevice :=
  match s.s_GraphicsDevice with
  | none => .error .NullDereference
  | some g => .ok g

/-- The conversion `(int)frameCount` of a `uint64_t` to a 32-bit two's-complement `int`. -/
def toInt32 (n : Nat) : Int :=
  if n % 2 ^ 32 < 2 ^ 31 then (n % 2 ^ 32 : Nat) else ((n % 2 ^ 32 : Nat) : Int) - 2 ^ 32

/-- The conversion `static_cast<bool>(data)` of a pointer-sized payload. -/
def ptrToBool (data : Ptr) : Bool := data != 0

/-- `OnGraphicsDeviceEvent` (lines 183-199). -/
def OnGraphicsDeviceEvent {κ : Type} (eventType : UnityGfxDeviceEventType)
    (s : PluginState κ) : PluginState κ :=
  if eventType = .kUnityGfxDeviceEventInitialize ∧ s.s_Initialized = false then
    { s with s_Initialized := true }
  else if eventType = .kUnityGfxDeviceEventShutdown then
    { s with
      s_Initialized := false
      s_UnityInterfaces := 0
      s_UnityGraphics := 0
      s_UnityGraphicsD3D11 := 0
      s_UnityGraphicsD3D12 := 0
      s_GraphicsDevice := none }
  else s

/-- `UnityPluginLoad` (lines 64-93). -/
def UnityPluginLoad {κ : Type} (h : Host) (unityInterfaces : Ptr)
    (s : PluginState κ) : PluginState κ :=
  if unityInterfaces ≠ 0 then
    let s1 := { s with s_UnityInterfaces := unityInterfaces, s_UnityGraphics := h.unityGraphics }
    let s2 := if s1.s_UnityGraphics ≠ 0 then
        OnGraphicsDeviceEvent .kUnityGfxDeviceEventInitialize s1
      else s1
    match h.performanceFrequency with
    | some f => { s2 with s_PerformanceCounterFrequency := f }
    | none => s2
  else
    { s with s_InitializationStatus := .FailedUnityInterfacesNull }

/-- `SetBarrierWarmupCallback` (lines 109-113). -/
def SetBarrierWarmupCallback {κ : Type} (c : PluginCSwapGroupClient κ) (callback : Ptr)
    (s : PluginState κ) : PluginState κ :=
  { s with
    s_SwapGroupClient := c.SetBarrierWarmupCallback s.s_SwapGroupClient callback
    clientCalls := s.clientCalls ++ [.SetBarrierWarmupCallback callback] }

/-- `GetRenderDeviceInterface` (lines 164-180); `s_UnityInterfaces` is dereferenced in the
two supported cases. -/
def GetRenderDeviceInterface {κ : Type} (h : Host) (renderer : UnityGfxRenderer)
    (s : PluginState κ) : Except Fault (PluginState κ) :=
  match renderer with
  | .kUnityGfxRendererD3D11 =>
    if s.s_UnityInterfaces = 0 then .error .NullDereference
    else .ok { s with s_UnityGraphicsD3D11 := h.unityGraphicsD3D11 }
  | .kUnityGfxRendererD3D12 =>
    if s.s_UnityInterfaces = 0 then .error .NullDereference
    else .ok { s with s_UnityGraphicsD3D12 := h.unityGraphicsD3D12 }
  | _ => .ok s

/-- `SetDevice` (lines 239-251). -/
def SetDevice {κ : Type} (h : Host) (s : PluginState κ) : Except Fault (PluginState κ) :=
  if s.s_UnityGraphicsD3D11 ≠ 0 then
    match s.s_GraphicsDevice with
    | none => .error .NullDereference
    | some g =>
      .ok { s with
            s_GraphicsDevice := some { g with device := h.d3d11Device }
            providerCalls := s.providerCalls ++ [.D3D11GetDevice] }
  else if s.s_UnityGraphicsD3D12 ≠ 0 then
    match s.s_GraphicsDevice with
    | none => .error .NullDereference
    | some g =>
      .ok { s with
            s_GraphicsDevice := some { g with device := h.d3d12Device }
            providerCalls := s.providerCalls ++ [.D3D12GetDevice] }
  else .ok s

/-- `SetSwapChain` (lines 253-265). -/
def SetSwapChain {κ : Type} (h : Host) (s : PluginState κ) : Except Fault (PluginState κ) :=
  if s.s_UnityGraphicsD3D11 ≠ 0 then
    match s.s_GraphicsDevice with
    | none => .error .NullDereference
    | some g =>
      .ok { s with
            s_GraphicsDevice := some { g with swapChain := h.d3d11SwapChain }
            providerCalls := s.providerCalls ++ [.D3D11GetSwapChain] }
  else if s.s_UnityGraphicsD3D12 ≠ 0 then
    match s.s_GraphicsDevice with
    | none => .error .NullDereference
    | some g =>
      .ok { s with
            s_GraphicsDevice := some { g with swapChain := h.d3d12SwapChain }
            providerCalls := s.providerCalls ++ [.D3D12GetSwapChain] }
  else .ok s

/-- `IsContextValid` (lines 269-313): the returned boolean and the state it leaves. -/
def IsContextValid {κ : Type} (h : Host) (s : PluginState κ) :
    Except Fault (Bool × PluginState κ) :=
  if s.s_UnityGraphics = 0 then .ok (false, s)
  else if s.s_GraphicsDevice = none then .ok (false, s)
  else if h.renderer ≠ .kUnityGfxRendererD3D11 ∧ h.renderer ≠ .kUnityGfxRendererD3D12 then
    .ok (false, s)
  else do
    let g0 ← derefGraphicsDevice s
    let s1 ← if g0.device = 0 then SetDevice h s else pure s
    let g1 ← derefGraphicsDevice s1
    let s2 ← if g1.swapChain = 0 then SetSwapChain h s1 else pure s1
    let g2 ← derefGraphicsDevice s2
    if g2.device = 0 then
      pure (false, { s2 with s_InitializationStatus := .MissingDevice })
    else if g2.swapChain = 0 then
      pure (false, { s2 with s_InitializationStatus := .MissingSwapChain })
    else
      pure (true, s2)

/-- `InitializeGraphicsDevice` (lines 315-354).  `s_UnityGraphics` is dereferenced without a
null check on line 319. -/
def InitializeGraphicsDevice {κ : Type} (h : Host) (s : PluginState κ) :
    Except Fault (Bool × PluginState κ) :=
  if s.s_UnityGraphics = 0 then .error .NullDereference
  else
    match GetRenderDeviceInterface h h.renderer s with
    | .error e => .error e
    | .ok s1 =>
      if s1.s_GraphicsDevice = none then
        if s1.s_UnityGraphicsD3D11 ≠ 0 then
          .ok (true,
            { s1 with
              s_GraphicsDevice := some
                { backend := .D3D11
                  device := h.d3d11Device
                  swapChain := h.d3d11SwapChain
                  commandQueue := 0
                  syncInterval := h.d3d11SyncInterval
                  presentFlags := h.d3d11PresentFlags }
              providerCalls := s1.providerCalls ++ [.D3D11GetDevice, .D3D11GetSwapChain] })
        else if s1.s_UnityGraphicsD3D12 ≠ 0 then
          .ok (true,
            { s1 with
              s_GraphicsDevice := some
                { backend := .D3D12
                  device := h.d3d12Device
                  swapChain := h.d3d12SwapChain
                  commandQueue := h.d3d12CommandQueue
                  syncInterval := h.d3d12SyncInterval
                  presentFlags := h.d3d12PresentFlags }
              providerCalls := s1.providerCalls ++
                [.D3D12GetDevice, .D3D12GetSwapChain, .D3D12GetCommandQueue] })
        else
          .ok (false, { s1 with s_InitializationStatus := .UnsupportedGraphicApi })
      else .ok (true, s1)

/-- `ConvertToQuadroSyncInitializationStatus` (lines 357-379).  The `default:` label asserts
and, when the assertion is compiled out (`ndebug`), falls through to the `Failed` case; of the
enumerators only `Success` reaches it. -/
def ConvertToQuadroSyncInitializationStatus (ndebug : Bool) :
    InitializeStatus → Except Fault QuadroSyncInitializationStatus
  | .Failed => .ok .SwapChainOrBarrierGenericFailure
  | .NoSwapGroupDetected => .ok .NoSwapGroupDetected
  | .QuerySwapGroupFailed => .ok .QuerySwapGroupFailed
  | .FailedToJoinSwapGroup => .ok .FailedToJoinSwapGroup
  | .SwapGroupMismatch => .ok .SwapGroupMismatch
  | .FailedToBindSwapBarrier => .ok .FailedToBindSwapBarrier
  | .SwapBarrierIdMismatch => .ok .SwapBarrierIdMismatch
  | .Success =>
    if ndebug then .ok .SwapChainOrBarrierGenericFailure else .error .AssertionFailed

/-- `QuadroSyncInitialize` (lines 382-405). -/
def QuadroSyncInitialize {κ : Type} (c : PluginCSwapGroupClient κ) (ndebug : Bool) (h : Host)
    (s : PluginState κ) : Except Fault (PluginState κ) :=
  match InitializeGraphicsDevice h s with
  | .error e => .error e
  | .ok (created, s1) =>
    if created = false then .ok s1
    else
      match IsContextValid h s1 with
      | .error e => .error e
      | .ok (valid, s2) =>
        if valid = false then .ok s2
        else
          match derefGraphicsDevice s2 with
          | .error e => .error e
          | .ok g =>
            let k1 := c.SetupWorkStation s2.s_SwapGroupClient
            let r := c.Initialize k1 g.device g.swapChain
            let s3 : PluginState κ :=
              { s2 with
                s_SwapGroupClient := r.2
                clientCalls := s2.clientCalls ++
                  [.SetupWorkStation, .Initialize g.device g.swapChain] }
            if r.1 = .Success then
              .ok { s3 with s_InitializationStatus := .Initialized }
            else
              match ConvertToQuadroSyncInitializationStatus ndebug r.1 with
              | .error e => .error e
              | .ok q => .ok { s3 with s_InitializationStatus := q }

/-- `QuadroSyncQueryFrameCount` (lines 408-415); `value` is the out-pointer. -/
def QuadroSyncQueryFrameCount {κ : Type} (c : PluginCSwapGroupClient κ) (h : Host)
    (value : Ptr) (s : PluginState κ) : Except Fault (PluginState κ) :=
  match IsContextValid h s with
  | .error e => .error e
  | .ok (valid, s1) =>
    if valid = false ∨ value = 0 then .ok s1
    else
      match derefGraphicsDevice s1 with
      | .error e => .error e
      | .ok g =>
        let r := c.QueryFrameCount s1.s_SwapGroupClient g.device
        .ok { s1 with
              s_SwapGroupClient := r.2
              clientCalls := s1.clientCalls ++ [.QueryFrameCount g.device]
              stores := s1.stores ++ [(value, toInt32 r.1)] }

/-- `QuadroSyncResetFrameCount` (lines 418-424). -/
def QuadroSyncResetFrameCount {κ : Type} (c : PluginCSwapGroupClient κ) (h : Host)
    (s : PluginState κ) : Except Fault (PluginState κ) :=
  match IsContextValid h s with
  | .error e => .error e
  | .ok (valid, s1) =>
    if valid = false then .ok s1
    else
      match derefGraphicsDevice s1 with
      | .error e => .error e
      | .ok g =>
        .ok { s1 with
              s_SwapGroupClient := c.ResetFrameCount s1.s_SwapGroupClient g.device
              clientCalls := s1.clientCalls ++ [.ResetFrameCount g.device] }

/-- `QuadroSyncDispose` (lines 427-439). -/
def QuadroSyncDispose {κ : Type} (c : PluginCSwapGroupClient κ) (h : Host)
    (s : PluginState κ) : Except Fault (PluginState κ) :=
  match IsContextValid h s with
  | .error e => .error e
  | .ok (valid, s1) =>
    if valid = false then .ok s1
    else
      match derefGraphicsDevice s1 with
      | .error e => .error e
      | .ok g =>
        let k1 := c.Dispose s1.s_SwapGroupClient g.device g.swapChain
        .ok { s1 with
              s_SwapGroupClient := c.DisposeWorkStation k1
              clientCalls := s1.clientCalls ++
                [.Dispose g.device g.swapChain, .DisposeWorkStation]
              s_InitializationStatus := .NotInitialized }

/-- `QuadroSyncEnableSystem` (lines 442-450). -/
def QuadroSyncEnableSystem {κ : Type} (c : PluginCSwapGroupClient κ) (h : Host)
    (value : Bool) (s : PluginState κ) : Except Fault (PluginState κ) :=
  match IsContextValid h s with
  | .error e => .error e
  | .ok (valid, s1) =>
    if valid = false then .ok s1
    else
      match derefGraphicsDevice s1 with
      | .error e => .error e
      | .ok g =>
        .ok { s1 with
              s_SwapGroupClient :=
                c.EnableSystem s1.s_SwapGroupClient g.device g.swapChain value
              clientCalls := s1.clientCalls ++ [.EnableSystem g.device g.swapChain value] }

/-- `QuadroSyncEnableSwapGroup` (lines 453-462). -/
def QuadroSyncEnableSwapGroup {κ : Type} (c : PluginCSwapGroupClient κ) (h : Host)
    (value : Bool) (s : PluginState κ) : Except Fault (PluginState κ) :=
  match IsContextValid h s with
  | .error e => .error e
  | .ok (valid, s1) =>
    if valid = false then .ok s1
    else
      match derefGraphicsDevice s1 with
      | .error e => .error e
      | .ok g =>
        .ok { s1 with
              s_SwapGroupClient :=
                c.EnableSwapGroup s1.s_SwapGroupClient g.device g.swapChain value
              clientCalls := s1.clientCalls ++ [.EnableSwapGroup g.device g.swapChain value] }

/-- `QuadroSyncEnableSwapBarrier` (lines 465-473). -/
def QuadroSyncEnableSwapBarrier {κ : Type} (c : PluginCSwapGroupClient κ) (h : Host)
    (value : Bool) (s : PluginState κ) : Except Fault (PluginState κ) :=
  match IsContextValid h s with
  | .error e => .error e
  | .ok (valid, s1) =>
    if valid = false then .ok s1
    else
      match derefGraphicsDevice s1 with
      | .error e => .error e
      | .ok g =>
        .ok { s1 with
              s_SwapGroupClient := c.EnableSwapBarrier s1.s_SwapGroupClient g.device value
              clientCalls := s1.clientCalls ++ [.EnableSwapBarrier g.device value] }

/-- `QuadroSyncEnableSyncCounter` (lines 476-482). -/
def QuadroSyncEnableSyncCounter {κ : Type} (c : PluginCSwapGroupClient κ) (h : Host)
    (value : Bool) (s : PluginState κ) : Except Fault (PluginState κ) :=
  match IsContextValid h s with
  | .error e => .error e
  | .ok (valid, s1) =>
    if valid = false then .ok s1
    else
      .ok { s1 with
            s_SwapGroupClient := c.EnableSyncCounter s1.s_SwapGroupClient value
            clientCalls := s1.clientCalls ++ [.EnableSyncCounter value] }

/-- `QuadroSyncSkipSyncForNextFrame` (lines 485-491). -/
def QuadroSyncSkipSyncForNextFrame {κ : Type} (c : PluginCSwapGroupClient κ) (h : Host)
    (s : PluginState κ) : Except Fault (PluginState κ) :=
  match IsContextValid h s with
  | .error e => .error e
  | .ok (valid, s1) =>
    if valid = false then .ok s1
    else
      .ok { s1 with
            s_SwapGroupClient := c.SkipSynchronizedPresentOfNextFrame s1.s_SwapGroupClient
            clientCalls := s1.clientCalls ++ [.SkipSynchronizedPresentOfNextFrame] }

/-- The enumerators of `EQuadroSyncRenderEvent`, in declaration order. -/
def EQuadroSyncRenderEvent.all : List EQuadroSyncRenderEvent :=
  [.QuadroSyncInitialize, .QuadroSyncQueryFrameCount, .QuadroSyncResetFrameCount,
   .QuadroSyncDispose, .QuadroSyncEnableSystem, .QuadroSyncEnableSwapGroup,
   .QuadroSyncEnableSwapBarrier, .QuadroSyncEnableSyncCounter,
   .QuadroSyncSkipSyncForNextFrame]

/-- The enumerator a `case` label of the `switch` on
`static_cast<EQuadroSyncRenderEvent>(eventID)` matches: the one whose value is `eventID`,
`none` when the `default:` label is taken. -/
def EQuadroSyncRenderEvent.ofInt (eventID : Int) : Option EQuadroSyncRenderEvent :=
  EQuadroSyncRenderEvent.all.find? (fun e => e.toInt == eventID)

/-- `OnRenderEvent` (lines 202-237); `data` is the pointer-sized payload. -/
def OnRenderEvent {κ : Type} (c : PluginCSwapGroupClient κ) (ndebug : Bool) (h : Host)
    (eventID : Int) (data : Ptr) (s : PluginState κ) : Except Fault (PluginState κ) :=
  match EQuadroSyncRenderEvent.ofInt eventID with
  | some .QuadroSyncInitialize => QuadroSyncInitialize c ndebug h s
  | some .QuadroSyncQueryFrameCount => QuadroSyncQueryFrameCount c h data s
  | some .QuadroSyncResetFrameCount => QuadroSyncResetFrameCount c h s
  | some .QuadroSyncDispose => QuadroSyncDispose c h s
  | some .QuadroSyncEnableSystem => QuadroSyncEnableSystem c h (ptrToBool data) s
  | some .QuadroSyncEnableSwapGroup => QuadroSyncEnableSwapGroup c h (ptrToBool data) s
  | some .QuadroSyncEnableSwapBarrier => QuadroSyncEnableSwapBarrier c h (ptrToBool data) s
  | some .QuadroSyncEnableSyncCounter => QuadroSyncEnableSyncCounter c h (ptrToBool data) s
  | some .QuadroSyncSkipSyncForNextFrame => QuadroSyncSkipSyncForNextFrame c h s
  | none => .ok s

/-- The snapshot structure `QuadroSyncState` (lines 122-135). -/
structure QuadroSyncState where
  initializationState : Nat
  swapGroupId : Nat
  swapBarrierId : Nat
  presentedFramesSuccess : Nat
  presentedFramesFailed : Nat
  deriving DecidableEq, Repr

/-- `GetState` (lines 140-147): the snapshot written through `state`, which is dereferenced
without a null check, and the plugin state the call leaves.  The client's getters return
values of the fields' declared types. -/
def GetState {κ : Type} (c : PluginCSwapGroupClient κ) (state : Ptr) (s : PluginState κ) :
    Except Fault (QuadroSyncState × PluginState κ) :=
  if state = 0 then .error .NullDereference
  else
    .ok ({ initializationState := s.s_InitializationStatus.toUInt32
           swapGroupId := c.GetSwapGroupId s.s_SwapGroupClient
           swapBarrierId := c.GetSwapBarrierId s.s_SwapGroupClient
           presentedFramesSuccess := c.GetPresentSuccessCount s.s_SwapGroupClient
           presentedFramesFailed := c.GetPresentFailureCount s.s_SwapGroupClient }, s)

/-- `GetCurrentPerformanceCounterTick` (lines 49-61); `counter` is what
`QueryPerformanceCounter` writes, `none` when that call fails. -/
def GetCurrentPerformanceCounterTick (counter : Option Nat) : Nat :=
  match counter with
  | some ticks => ticks
  | none => 0

/-- `UnityRenderingExtQuery` (lines 151-162): the returned boolean and the state it leaves. -/
def UnityRenderingExtQuery {κ : Type} (c : PluginCSwapGroupClient κ) (h : Host)
    (query : UnityRenderingExtQueryType) (s : PluginState κ) :
    Except Fault (Bool × PluginState κ) :=
  if query = .kUnityRenderingExtQueryOverridePresentFrame then
    match IsContextValid h s with
    | .error e => .error e
    | .ok (valid, s1) =>
      if valid = false then .ok (false, s1)
      else
        match derefGraphicsDevice s1 with
        | .error e => .error e
        | .ok g =>
          let r := c.Render s1.s_SwapGroupClient g
          .ok (r.1,
            { s1 with
              s_SwapGroupClient := r.2
              clientCalls := s1.clientCalls ++ [.Render g] })
  else .ok (false, s)

/-- A swap-group client whose answers are fixed in advance and whose state counts the
operations invoked on it; used to evaluate the plugin on concrete inputs. -/
def fixedClient (init : InitializeStatus) (frameCount : Nat) (rendered : Bool) :
    PluginCSwapGroupClient Nat :=
  { SetBarrierWarmupCallback := fun k _ => k + 1
    SetupWorkStation := fun k => k + 1
    DisposeWorkStation := fun k => k + 1
    Initialize := fun k _ _ => (init, k + 1)
    Dispose := fun k _ _ => k + 1
    QueryFrameCount := fun k _ => (frameCount, k + 1)
    ResetFrameCount := fun k _ => k + 1
    EnableSystem := fun k _ _ _ => k + 1
    EnableSwapGroup := fun k _ _ _ => k + 1
    EnableSwapBarrier := fun k _ _ => k + 1
    EnableSyncCounter := fun k _ => k + 1
    SkipSynchronizedPresentOfNextFrame := fun k => k + 1
    Render := fun k _ => (rendered, k + 1)
    GetSwapGroupId := fun _ => 0
    GetSwapBarrierId := fun _ => 0
    GetPresentSuccessCount := fun _ => 0
    GetPresentFailureCount := fun _ => 0 }

/-- A host running D3D11 whose interfaces, device and swap chain are all available. -/
def hostD3D11 : Host :=
  { unityGraphics := 100
    unityGraphicsD3D11 := 111
    unityGraphicsD3D12 := 0
    renderer := .kUnityGfxRendererD3D11
    d3d11Device := 7
    d3d11SwapChain := 9
    d3d11SyncInterval := 1
    d3d11PresentFlags := 0
    d3d12Device := 0
    d3d12SwapChain := 0
    d3d12CommandQueue := 0
    d3d12SyncInterval := 0
    d3d12PresentFlags := 0
    performanceFrequency := some 10000000 }

/-- The renderer kinds `IsContextValid` accepts. -/
def supportedRenderer (r : UnityGfxRenderer) : Prop :=
  r = .kUnityGfxRendererD3D11 ∨ r = .kUnityGfxRendererD3D12

instance (r : UnityGfxRenderer) : Decidable (supportedRenderer r) := by
  unfold supportedRenderer; exact inferInstance

/-- The device handle held after the lazy re-fetch: a non-null stored handle is kept, a null
one is replaced by what the context provider answers (the D3D11 interface when it is cached,
else the D3D12 interface when it is cached, else nothing is fetched). -/
def deviceAfterRefetch {κ : Type} (h : Host) (s : PluginState κ) (g : IGraphicsDevice) :
    Handle :=
  if g.device ≠ 0 then g.device
  else if s.s_UnityGraphicsD3D11 ≠ 0 then h.d3d11Device
  else if s.s_UnityGraphicsD3D12 ≠ 0 then h.d3d12Device
  else 0

/-- The swap-chain handle held after the lazy re-fetch, as `deviceAfterRefetch`. -/
def swapChainAfterRefetch {κ : Type} (h : Host) (s : PluginState κ) (g : IGraphicsDevice) :
    Handle :=
  if g.swapChain ≠ 0 then g.swapChain
  else if s.s_UnityGraphicsD3D11 ≠ 0 then h.d3d11SwapChain
  else if s.s_UnityGraphicsD3D12 ≠ 0 then h.d3d12SwapChain
  else 0

/-- The provider queries the re-fetch of the device handle makes. -/
def deviceFetches {κ : Type} (s : PluginState κ) (g : IGraphicsDevice) : List ProviderCall :=
  if g.device ≠ 0 then []
  else if s.s_UnityGraphicsD3D11 ≠ 0 then [.D3D11GetDevice]
  else if s.s_UnityGraphicsD3D12 ≠ 0 then [.D3D12GetDevice]
  else []

/-- The provider queries the re-fetch of the swap-chain handle makes. -/
def swapChainFetches {κ : Type} (s : PluginState κ) (g : IGraphicsDevice) :
    List ProviderCall :=
  if g.swapChain ≠ 0 then []
  else if s.s_UnityGraphicsD3D11 ≠ 0 then [.D3D11GetSwapChain]
  else if s.s_UnityGraphicsD3D12 ≠ 0 then [.D3D12GetSwapChain]
  else []

/-- The state after the lazy re-fetch of both handles. -/
def afterRefetch {κ : Type} (h : Host) (s : PluginState κ) (g : IGraphicsDevice) :
    PluginState κ :=
  { s with
    s_GraphicsDevice := some
      { g with
        device := deviceAfterRefetch h s g
        swapChain := swapChainAfterRefetch h s g }
    providerCalls := s.providerCalls ++ (deviceFetches s g ++ swapChainFetches s g) }

/-- A D3D11 host whose context provider hands out null device and swap-chain handles. -/
def hostNoHandles : Host := { hostD3D11 with d3d11Device := 0, d3d11SwapChain := 0 }

/-- A D3D11 host whose swap chain is not yet available. -/
def hostNoSwapChain : Host := { hostD3D11 with d3d11SwapChain := 0 }

/-- A host whose renderer is reported as `kUnityGfxRendererNull`. -/
def hostNullRenderer : Host := { hostD3D11 with renderer := .kUnityGfxRendererNull }

/-- The plugin state after `UnityPluginLoad` with a non-null interface table. -/
def loadedState : PluginState Nat := UnityPluginLoad hostD3D11 1 (initialState 0)

/-- The graphics device `InitializeGraphicsDevice` constructs on `hostNoHandles`. -/
def nullHandlesDevice : IGraphicsDevice :=
  { backend := .D3D11, device := 0, swapChain := 0, commandQueue := 0,
    syncInterval := 1, presentFlags := 0 }

/-- The plugin state after `UnityPluginLoad` once `InitializeGraphicsDevice` has run on
`hostNoHandles`: the graphics device exists and both of its handles are null. -/
def nullHandlesState : PluginState Nat :=
  { loadedState with
    s_UnityGraphicsD3D11 := 111
    s_GraphicsDevice := some nullHandlesDevice
    providerCalls := [.D3D11GetDevice, .D3D11GetSwapChain] }

/-- The plugin state after `UnityPluginLoad` and a successful `QuadroSyncInitialize` on
`hostD3D11` with the client `fixedClient .Success 0 true`. -/
def initializedState : PluginState Nat :=
  { loadedState with
    s_UnityGraphicsD3D11 := 111
    s_GraphicsDevice := some
      { backend := .D3D11, device := 7, swapChain := 9, commandQueue := 0,
        syncInterval := 1, presentFlags := 0 }
    s_SwapGroupClient := 2
    s_InitializationStatus := .Initialized
    clientCalls := [.SetupWorkStation, .Initialize 7 9]
    providerCalls := [.D3D11GetDevice, .D3D11GetSwapChain] }

/-- The state `IsContextValid` leaves on `hostNoHandles` from `nullHandlesState`: both
handles were fetched again, both are still null, and `MissingDevice` is recorded. -/
def missingDeviceState : PluginState Nat :=
  { nullHandlesState with
    s_InitializationStatus := .MissingDevice
    providerCalls := [.D3D11GetDevice, .D3D11GetSwapChain, .D3D11GetDevice,
      .D3D11GetSwapChain] }

/-- The state `InitializeGraphicsDevice` leaves on `hostNullRenderer` from `loadedState`. -/
def unsupportedState : PluginState Nat :=
  { loadedState with s_InitializationStatus := .UnsupportedGraphicApi }

/-- The plugin state after `UnityPluginLoad` and a `QuadroSyncInitialize` on `hostD3D11` in
which the client failed to join the swap group. -/
def failedJoinState : PluginState Nat :=
  { initializedState with s_InitializationStatus := .FailedToJoinSwapGroup }

/-- The state a later `QuadroSyncInitialize` leaves from `failedJoinState` when the client's
`Initialize` succeeds. -/
def retriedState : PluginState Nat :=
  { initializedState with
    s_SwapGroupClient := 4
    clientCalls := [.SetupWorkStation, .Initialize 7 9, .SetupWorkStation, .Initialize 7 9] }

/-- The plugin state after `UnityPluginLoad` was given a null interface table. -/
def nullTableState : PluginState Nat := UnityPluginLoad hostD3D11 0 (initialState 0)

/-! ## The D3D11-only plugin

A shallow embedding of `GfxPluginQuadroSyncD3D11/GfxQuadroSync.cpp`, which keeps the device
and swap-chain handles in two statics of its own and has no graphics-device object. -/

namespace D3D11Only

/-- Operations invoked on the `s_SwapGroupClient` of the D3D11-only plugin. -/
inductive ClientCall
  | Prepare
  | Render (device swapChain : Handle) (syncInterval presentFlags : Nat)
  | SetupWorkStation
  | DisposeWorkStation
  | Initialize (device swapChain : Handle)
  | Dispose (device swapChain : Handle)
  | QueryFrameCount (device : Handle)
  | ResetFrameCount (device : Handle)
  | EnableSystem (device swapChain : Handle) (value : Bool)
  | EnableSwapGroup (device swapChain : Handle) (value : Bool)
  | EnableSwapBarrier (device : Handle) (value : Bool)
  | EnableSyncCounter (value : Bool)
  deriving DecidableEq, Repr

/-- Modelled from the spec: the operations of the `PluginCSwapGroupClient` of
`D3D11QuadroSync.h` (not among the sources), over an arbitrary client state `κ`.  The
D3D11-only plugin discards what `Initialize` returns. -/
structure PluginCSwapGroupClient (κ : Type) where
  Prepare : κ → κ
  Render : κ → Handle → Handle → Nat → Nat → Bool × κ
  SetupWorkStation : κ → κ
  DisposeWorkStation : κ → κ
  Initialize : κ → Handle → Handle → κ
  Dispose : κ → Handle → Handle → κ
  QueryFrameCount : κ → Handle → Nat × κ
  ResetFrameCount : κ → Handle → κ
  EnableSystem : κ → Handle → Handle → Bool → κ
  EnableSwapGroup : κ → Handle → Handle → Bool → κ
  EnableSwapBarrier : κ → Handle → Bool → κ
  EnableSyncCounter : κ → Bool → κ

/-- The file-level statics of the D3D11-only `GfxQuadroSync.cpp` (lines 12-18) and the ghost
traces. -/
structure PluginState (κ : Type) where
  s_SwapGroupClient : κ
  s_UnityInterfaces : Ptr
  s_UnityGraphicsD3D11 : Ptr
  s_UnityGraphics : Ptr
  s_D3D11Device : Handle
  s_D3D11SwapChain : Handle
  s_Initialized : Bool
  clientCalls : List ClientCall
  providerCalls : List ProviderCall
  stores : List (Ptr × Int)
  deriving DecidableEq, Repr

/-- The state the static initialisers establish, around a freshly constructed client. -/
def initialState {κ : Type} (client : κ) : PluginState κ :=
  { s_SwapGroupClient := client
    s_UnityInterfaces := 0
    s_UnityGraphicsD3D11 := 0
    s_UnityGraphics := 0
    s_D3D11Device := 0
    s_D3D11SwapChain := 0
    s_Initialized := false
    clientCalls := []
    providerCalls := []
    stores := [] }

/-- `UnityPluginLoad` of the D3D11-only plugin (lines 21-36); `s_UnityGraphicsD3D11` is
dereferenced right after it is fetched. -/
def UnityPluginLoad {κ : Type} (h : Host) (unityInterfaces : Ptr) (s : PluginState κ) :
    Except Fault (PluginState κ) :=
  if unityInterfaces ≠ 0 then
    let s1 := { s with s_UnityInterfaces := unityInterfaces, s_UnityGraphics := h.unityGraphics }
    if s1.s_UnityGraphics ≠ 0 then
      if h.unityGraphicsD3D11 = 0 then .error .NullDereference
      else
        .ok { s1 with
              s_UnityGraphicsD3D11 := h.unityGraphicsD3D11
              s_D3D11Device := h.d3d11Device
              s_D3D11SwapChain := h.d3d11SwapChain
              providerCalls := s1.providerCalls ++ [.D3D11GetDevice, .D3D11GetSwapChain] }
    else .ok s1
  else .ok s

/-- `OnGraphicsDeviceEvent` of the D3D11-only plugin (lines 62-73). -/
def OnGraphicsDeviceEvent {κ : Type} (c : PluginCSwapGroupClient κ)
    (eventType : UnityGfxDeviceEventType) (s : PluginState κ) : PluginState κ :=
  if eventType = .kUnityGfxDeviceEventInitialize ∧ s.s_Initialized = false then
    { s with
      s_Initialized := true
      s_SwapGroupClient := c.Prepare s.s_SwapGroupClient
      clientCalls := s.clientCalls ++ [.Prepare] }
  else if eventType = .kUnityGfxDeviceEventShutdown then
    { s with s_Initialized := false }
  else s

/-- `IsContextValid` of the D3D11-only plugin (lines 111-123): `s_UnityGraphics` is
dereferenced without a null check, and so is `s_UnityGraphicsD3D11` when a handle is
fetched again. -/
def IsContextValid {κ : Type} (h : Host) (s : PluginState κ) :
    Except Fault (Bool × PluginState κ) :=
  if s.s_UnityGraphics = 0 then .error .NullDereference
  else if h.renderer ≠ .kUnityGfxRendererD3D11 then .ok (false, s)
  else
    let fetchDevice : Except Fault (PluginState κ) :=
      if s.s_D3D11Device = 0 then
        if s.s_UnityGraphicsD3D11 = 0 then .error .NullDereference
        else
          .ok { s with
                s_D3D11Device := h.d3d11Device
                providerCalls := s.providerCalls ++ [.D3D11GetDevice] }
      else .ok s
    match fetchDevice with
    | .error e => .error e
    | .ok s1 =>
      let fetchSwapChain : Except Fault (PluginState κ) :=
        if s1.s_D3D11SwapChain = 0 then
          if s1.s_UnityGraphicsD3D11 = 0 then .error .NullDereference
          else
            .ok { s1 with
                  s_D3D11SwapChain := h.d3d11SwapChain
                  providerCalls := s1.providerCalls ++ [.D3D11GetSwapChain] }
        else .ok s1
      match fetchSwapChain with
      | .error e => .error e
      | .ok s2 => .ok (decide (s2.s_D3D11Device ≠ 0 ∧ s2.s_D3D11SwapChain ≠ 0), s2)

/-- `UnityRenderingExtQuery` of the D3D11-only plugin (lines 47-59): the validation runs
before the query type is looked at. -/
def UnityRenderingExtQuery {κ : Type} (c : PluginCSwapGroupClient κ) (h : Host)
    (query : UnityRenderingExtQueryType) (s : PluginState κ) :
    Except Fault (Bool × PluginState κ) :=
  match IsContextValid h s with
  | .error e => .error e
  | .ok (valid, s1) =>
    if valid = false then .ok (false, s1)
    else if query = .kUnityRenderingExtQueryOverridePresentFrame then
      if s1.s_UnityGraphicsD3D11 = 0 then .error .NullDereference
      else
        let r := c.Render s1.s_SwapGroupClient s1.s_D3D11Device s1.s_D3D11SwapChain
          h.d3d11SyncInterval h.d3d11PresentFlags
        .ok (r.1,
          { s1 with
            s_SwapGroupClient := r.2
            clientCalls := s1.clientCalls ++
              [.Render s1.s_D3D11Device s1.s_D3D11SwapChain h.d3d11SyncInterval
                h.d3d11PresentFlags] })
    else .ok (false, s1)

/-- `QuadroSyncInitialize` of the D3D11-only plugin (lines 126-133). -/
def QuadroSyncInitialize {κ : Type} (c : PluginCSwapGroupClient κ) (h : Host)
    (s : PluginState κ) : Except Fault (PluginState κ) :=
  match IsContextValid h s with
  | .error e => .error e
  | .ok (valid, s1) =>
    if valid = false then .ok s1
    else
      .ok { s1 with
            s_SwapGroupClient :=
              c.Initialize (c.SetupWorkStation s1.s_SwapGroupClient) s1.s_D3D11Device
                s1.s_D3D11SwapChain
            clientCalls := s1.clientCalls ++
              [.SetupWorkStation, .Initialize s1.s_D3D11Device s1.s_D3D11SwapChain] }

/-- `QuadroSyncQueryFrameCount` of the D3D11-only plugin (lines 136-143). -/
def QuadroSyncQueryFrameCount {κ : Type} (c : PluginCSwapGroupClient κ) (h : Host)
    (value : Ptr) (s : PluginState κ) : Except Fault (PluginState κ) :=
  match IsContextValid h s with
  | .error e => .error e
  | .ok (valid, s1) =>
    if valid = false ∨ value = 0 then .ok s1
    else
      let r := c.QueryFrameCount s1.s_SwapGroupClient s1.s_D3D11Device
      .ok { s1 with
            s_SwapGroupClient := r.2
            clientCalls := s1.clientCalls ++ [.QueryFrameCount s1.s_D3D11Device]
            stores := s1.stores ++ [(value, toInt32 r.1)] }

/-- `QuadroSyncResetFrameCount` of the D3D11-only plugin (lines 146-152). -/
def QuadroSyncResetFrameCount {κ : Type} (c : PluginCSwapGroupClient κ) (h : Host)
    (s : PluginState κ) : Except Fault (PluginState κ) :=
  match IsContextValid h s with
  | .error e => .error e
  | .ok (valid, s1) =>
    if valid = false then .ok s1
    else
      .ok { s1 with
            s_SwapGroupClient := c.ResetFrameCount s1.s_SwapGroupClient s1.s_D3D11Device
            clientCalls := s1.clientCalls ++ [.ResetFrameCount s1.s_D3D11Device] }

/-- `QuadroSyncDispose` of the D3D11-only plugin (lines 155-162). -/
def QuadroSyncDispose {κ : Type} (c : PluginCSwapGroupClient κ) (h : Host)
    (s : PluginState κ) : Except Fault (PluginState κ) :=
  match IsContextValid h s with
  | .error e => .error e
  | .ok (valid, s1) =>
    if valid = false then .ok s1
    else
      .ok { s1 with
            s_SwapGroupClient :=
              c.DisposeWorkStation
                (c.Dispose s1.s_SwapGroupClient s1.s_D3D11Device s1.s_D3D11SwapChain)
            clientCalls := s1.clientCalls ++
              [.Dispose s1.s_D3D11Device s1.s_D3D11SwapChain, .DisposeWorkStation] }

/-- `QuadroSyncEnableSystem` of the D3D11-only plugin (lines 165-171). -/
def QuadroSyncEnableSystem {κ : Type} (c : PluginCSwapGroupClient κ) (h : Host)
    (value : Bool) (s : PluginState κ) : Except Fault (PluginState κ) :=
  match IsContextValid h s with
  | .error e => .error e
  | .ok (valid, s1) =>
    if valid = false then .ok s1
    else
      .ok { s1 with
            s_SwapGroupClient :=
              c.EnableSystem s1.s_SwapGroupClient s1.s_D3D11Device s1.s_D3D11SwapChain value
            clientCalls := s1.clientCalls ++
              [.EnableSystem s1.s_D3D11Device s1.s_D3D11SwapChain value] }

/-- `QuadroSyncEnableSwapGroup` of the D3D11-only plugin (lines 174-180). -/
def QuadroSyncEnableSwapGroup {κ : Type} (c : PluginCSwapGroupClient κ) (h : Host)
    (value : Bool) (s : PluginState κ) : Except Fault (PluginState κ) :=
  match IsContextValid h s with
  | .error e => .error e
  | .ok (valid, s1) =>
    if valid = false then .ok s1
    else
      .ok { s1 with
            s_SwapGroupClient :=
              c.EnableSwapGroup s1.s_SwapGroupClient s1.s_D3D11Device s1.s_D3D11SwapChain
                value
            clientCalls := s1.clientCalls ++
              [.EnableSwapGroup s1.s_D3D11Device s1.s_D3D11SwapChain value] }

/-- `QuadroSyncEnableSwapBarrier` of the D3D11-only plugin (lines 183-189). -/
def QuadroSyncEnableSwapBarrier {κ : Type} (c : PluginCSwapGroupClient κ) (h : Host)
    (value : Bool) (s : PluginState κ) : Except Fault (PluginState κ) :=
  match IsContextValid h s with
  | .error e => .error e
  | .ok (valid, s1) =>
    if valid = false then .ok s1
    else
      .ok { s1 with
            s_SwapGroupClient :=
              c.EnableSwapBarrier s1.s_SwapGroupClient s1.s_D3D11Device value
            clientCalls := s1.clientCalls ++ [.EnableSwapBarrier s1.s_D3D11Device value] }

/-- `QuadroSyncEnableSyncCounter` of the D3D11-only plugin (lines 192-198). -/
def QuadroSyncEnableSyncCounter {κ : Type} (c : PluginCSwapGroupClient κ) (h : Host)
    (value : Bool) (s : PluginState κ) : Except Fault (PluginState κ) :=
  match IsContextValid h s with
  | .error e => .error e
  | .ok (valid, s1) =>
    if valid = false then .ok s1
    else
      .ok { s1 with
            s_SwapGroupClient := c.EnableSyncCounter s1.s_SwapGroupClient value
            clientCalls := s1.clientCalls ++ [.EnableSyncCounter value] }

/-- `OnRenderEvent` of the D3D11-only plugin (lines 76-108): a `switch` on the integer
`eventID` whose labels are the first eight enumerators cast to `int`. -/
def OnRenderEvent {κ : Type} (c : PluginCSwapGroupClient κ) (h : Host) (eventID : Int)
    (data : Ptr) (s : PluginState κ) : Except Fault (PluginState κ) :=
  if eventID = EQuadroSyncRenderEvent.QuadroSyncInitialize.toInt then
    QuadroSyncInitialize c h s
  else if eventID = EQuadroSyncRenderEvent.QuadroSyncQueryFrameCount.toInt then
    QuadroSyncQueryFrameCount c h data s
  else if eventID = EQuadroSyncRenderEvent.QuadroSyncResetFrameCount.toInt then
    QuadroSyncResetFrameCount c h s
  else if eventID = EQuadroSyncRenderEvent.QuadroSyncDispose.toInt then
    QuadroSyncDispose c h s
  else if eventID = EQuadroSyncRenderEvent.QuadroSyncEnableSystem.toInt then
    QuadroSyncEnableSystem c h (ptrToBool data) s
  else if eventID = EQuadroSyncRenderEvent.QuadroSyncEnableSwapGroup.toInt then
    QuadroSyncEnableSwapGroup c h (ptrToBool data) s
  else if eventID = EQuadroSyncRenderEvent.QuadroSyncEnableSwapBarrier.toInt then
    QuadroSyncEnableSwapBarrier c h (ptrToBool data) s
  else if eventID = EQuadroSyncRenderEvent.QuadroSyncEnableSyncCounter.toInt then
    QuadroSyncEnableSyncCounter c h (ptrToBool data) s
  else .ok s

/-- A client of the D3D11-only plugin whose answers are fixed in advance and whose state
counts the operations invoked on it. -/
def fixedClient (frameCount : Nat) (rendered : Bool) : PluginCSwapGroupClient Nat :=
  { Prepare := fun k => k + 1
    Render := fun k _ _ _ _ => (rendered, k + 1)
    SetupWorkStation := fun k => k + 1
    DisposeWorkStation := fun k => k + 1
    Initialize := fun k _ _ => k + 1
    Dispose := fun k _ _ => k + 1
    QueryFrameCount := fun k _ => (frameCount, k + 1)
    ResetFrameCount := fun k _ => k + 1
    EnableSystem := fun k _ _ _ => k + 1
    EnableSwapGroup := fun k _ _ _ => k + 1
    EnableSwapBarrier := fun k _ _ => k + 1
    EnableSyncCounter := fun k _ => k + 1 }

end D3D11Only

/-- The state of the D3D11-only plugin after `UnityPluginLoad` on `hostD3D11`. -/
def D3D11Only.loadedState : D3D11Only.PluginState Nat :=
  { D3D11Only.initialState 0 with
    s_UnityInterfaces := 1
    s_UnityGraphics := 100
    s_UnityGraphicsD3D11 := 111
    s_D3D11Device := 7
    s_D3D11SwapChain := 9
    providerCalls := [.D3D11GetDevice, .D3D11GetSwapChain] }

/-- Whether a provider query asks for the device handle. -/
def isDeviceQuery : ProviderCall → Bool
  | .D3D11GetDevice => true
  | .D3D12GetDevice => true
  | _ => false

/-- Whether a provider query asks for the swap-chain handle. -/
def isSwapChainQuery : ProviderCall → Bool
  | .D3D11GetSwapChain => true
  | .D3D12GetSwapChain => true
  | _ => false

/-! ## The swap-group client as the specification describes it -/

/-- Modelled from the spec: the state of the swap-group client (`QuadroSync.h` and its
implementation are not among the sources).  The first seven fields are the "SyncClient
state" of the data model, the next two its "Throttle state"; `queriesSinceReset` and
`cachedFrameCount` are the number of frame-count queries issued since the burst window was
last re-armed and the last frame count obtained (frame-count throttle); `lastResult` is the
result of the last join or bind attempt.  `performanceCounter` and `hardwareFrameCount` are
what `QueryPerformanceCounter` and the authoritative frame counter answer at the moment of a
call, and `hardwareQueries` counts the frame-counter queries issued. -/
structure SyncClient where
  workstationReady : Bool
  groupId : Nat
  barrierId : Nat
  syncCounterEnabled : Bool
  skipNextFramePresent : Bool
  presentedFramesSuccess : Nat
  presentedFramesFailed : Nat
  lastQueryTick : Nat
  performanceCounterFrequency : Nat
  queriesSinceReset : Nat
  cachedFrameCount : Nat
  lastResult : Option InitializeStatus
  performanceCounter : Option Nat
  hardwareFrameCount : Nat
  hardwareQueries : Nat
  deriving DecidableEq, Repr

/-- Modelled from the spec: `EnableSwapBarrier` of the absent swap-group client.  Enabling
the barrier while not in a group fails, is surfaced as `FailedToBindSwapBarrier`, and does not
join a group on the caller's behalf; in every other case the bind or unbind is the
hardware's, taken as the parameter `bind`. -/
def SyncClient.EnableSwapBarrier (bind : SyncClient → Handle → Bool → SyncClient)
    (k : SyncClient) (device : Handle) (enabled : Bool) : SyncClient :=
  if enabled = true ∧ k.groupId = 0 then
    { k with lastResult := some .FailedToBindSwapBarrier }
  else bind k device enabled

/-- Modelled from the spec: `QueryFrameCount` of the absent swap-group client with its
throttle.  With a zero frequency every query is allowed; otherwise up to
`NBR_CAN_GET_FRAME_COUNT_BEFORE_THROTTLE` queries are issued unthrottled, after which a query
is issued only when `NBR_SECONDS_BETWEEN_CAN_GET_FRAME_COUNT` seconds of the performance
counter have passed since the last one, and the cached frame count is returned otherwise. -/
def SyncClient.QueryFrameCount (k : SyncClient) (_device : Handle) : Nat × SyncClient :=
  let now := GetCurrentPerformanceCounterTick k.performanceCounter
  let issued : SyncClient :=
    { k with
      cachedFrameCount := k.hardwareFrameCount
      lastQueryTick := now
      hardwareQueries := k.hardwareQueries + 1 }
  if k.performanceCounterFrequency = 0 then (k.hardwareFrameCount, issued)
  else if k.queriesSinceReset < NBR_CAN_GET_FRAME_COUNT_BEFORE_THROTTLE then
    (k.hardwareFrameCount, { issued with queriesSinceReset := k.queriesSinceReset + 1 })
  else if k.lastQueryTick +
      NBR_SECONDS_BETWEEN_CAN_GET_FRAME_COUNT * k.performanceCounterFrequency ≤ now then
    (k.hardwareFrameCount, issued)
  else (k.cachedFrameCount, k)

/-- Modelled from the spec: `ResetFrameCount` of the absent swap-group client: it resets the
authoritative counter and re-arms the unthrottled burst window. -/
def SyncClient.ResetFrameCount (k : SyncClient) (_device : Handle) : SyncClient :=
  { k with hardwareFrameCount := 0, cachedFrameCount := 0, queriesSinceReset := 0 }

/-- Modelled from the spec: the swap-group client whose barrier toggle, frame-count query,
frame-count reset and getters are the ones the specification describes; its other operations,
whose outcome is the hardware's, are those of the parameter `hardware`. -/
def specClient (hardware : PluginCSwapGroupClient SyncClient) :
    PluginCSwapGroupClient SyncClient :=
  { hardware with
    EnableSwapBarrier := SyncClient.EnableSwapBarrier hardware.EnableSwapBarrier
    QueryFrameCount := SyncClient.QueryFrameCount
    ResetFrameCount := SyncClient.ResetFrameCount
    GetSwapGroupId := fun k => k.groupId
    GetSwapBarrierId := fun k => k.barrierId
    GetPresentSuccessCount := fun k => k.presentedFramesSuccess
    GetPresentFailureCount := fun k => k.presentedFramesFailed }

/-- A sequence of `QuadroSyncEnableSwapBarrier(true)` calls, one for each host answer. -/
def enableSwapBarrierCalls {κ : Type} (c : PluginCSwapGroupClient κ) :
    List Host → PluginState κ → Except Fault (PluginState κ)
  | [], s => .ok s
  | h :: hs, s =>
    match QuadroSyncEnableSwapBarrier c h true s with
    | .error e => .error e
    | .ok s1 => enableSwapBarrierCalls c hs s1

/-- What the performance counter and the frame counter answer at one call. -/
structure Reading where
  performanceCounter : Option Nat
  hardwareFrameCount : Nat
  deriving DecidableEq, Repr

/-- The tick `GetCurrentPerformanceCounterTick` returns for a reading. -/
def Reading.tick (r : Reading) : Nat := GetCurrentPerformanceCounterTick r.performanceCounter

/-- One `QuadroSyncQueryFrameCount` call made while the counters answer `r`. -/
def queryFrameCountAt (c : PluginCSwapGroupClient SyncClient) (h : Host) (value : Ptr)
    (r : Reading) (s : PluginState SyncClient) : Except Fault (PluginState SyncClient) :=
  QuadroSyncQueryFrameCount c h value
    { s with
      s_SwapGroupClient :=
        { s.s_SwapGroupClient with
          performanceCounter := r.performanceCounter
          hardwareFrameCount := r.hardwareFrameCount } }

/-- A sequence of `QuadroSyncQueryFrameCount` calls, one for each reading. -/
def queryFrameCounts (c : PluginCSwapGroupClient SyncClient) (h : Host) (value : Ptr) :
    List Reading → PluginState SyncClient → Except Fault (PluginState SyncClient)
  | [], s => .ok s
  | r :: rs, s =>
    match queryFrameCountAt c h value r s with
    | .error e => .error e
    | .ok s1 => queryFrameCounts c h value rs s1

/-- A freshly constructed swap-group client whose throttle was given the frequency. -/
def freshSyncClient (frequency : Nat) : SyncClient :=
  { workstationReady := false
    groupId := 0
    barrierId := 0
    syncCounterEnabled := false
    skipNextFramePresent := false
    presentedFramesSuccess := 0
    presentedFramesFailed := 0
    lastQueryTick := 0
    performanceCounterFrequency := frequency
    queriesSinceReset := 0
    cachedFrameCount := 0
    lastResult := none
    performanceCounter := none
    hardwareFrameCount := 0
    hardwareQueries := 0 }

/-- Hardware on which no swap group is present: `Initialize` sets up the workstation and
reports `NoSwapGroupDetected`, presents fail, and nothing is ever joined or bound. -/
def noSwapGroupHardware : PluginCSwapGroupClient SyncClient :=
  { SetBarrierWarmupCallback := fun k _ => k
    SetupWorkStation := fun k => { k with workstationReady := true }
    DisposeWorkStation := fun k => { k with workstationReady := false }
    Initialize := fun k _ _ =>
      (.NoSwapGroupDetected, { k with lastResult := some .NoSwapGroupDetected })
    Dispose := fun k _ _ => k
    QueryFrameCount := fun k _ => (0, k)
    ResetFrameCount := fun k _ => k
    EnableSystem := fun k _ _ _ => k
    EnableSwapGroup := fun k _ _ _ => k
    EnableSwapBarrier := fun k _ _ => k
    EnableSyncCounter := fun k v => { k with syncCounterEnabled := v }
    SkipSynchronizedPresentOfNextFrame := fun k => { k with skipNextFramePresent := true }
    Render := fun k _ => (false, { k with presentedFramesFailed := k.presentedFramesFailed + 1 })
    GetSwapGroupId := fun k => k.groupId
    GetSwapBarrierId := fun k => k.barrierId
    GetPresentSuccessCount := fun k => k.presentedFramesSuccess
    GetPresentFailureCount := fun k => k.presentedFramesFailed }

/-- The plugin state after `UnityPluginLoad` and `QuadroSyncInitialize` on `hostD3D11` with
the client `specClient noSwapGroupHardware`: the context is valid, no group is joined, and
the status is `NoSwapGroupDetected`. -/
def noGroupState : PluginState SyncClient :=
  { s_UnityInterfaces := 1
    s_UnityGraphics := 100
    s_UnityGraphicsD3D11 := 111
    s_UnityGraphicsD3D12 := 0
    s_GraphicsDevice := some
      { backend := .D3D11, device := 7, swapChain := 9, commandQueue := 0,
        syncInterval := 1, presentFlags := 0 }
    s_SwapGroupClient :=
      { freshSyncClient 10000000 with
        workstationReady := true
        lastResult := some .NoSwapGroupDetected }
    s_Initialized := true
    s_InitializationStatus := .NoSwapGroupDetected
    s_PerformanceCounterFrequency := 10000000
    clientCalls := [.SetupWorkStation, .Initialize 7 9]
    providerCalls := [.D3D11GetDevice, .D3D11GetSwapChain]
    stores := [] }

/-- Sixty readings taken at tick 1000 while the frame counter shows 42. -/
def burstReadings : List Reading :=
  List.replicate 60 { performanceCounter := some 1000, hardwareFrameCount := 42 }

/-- A reading taken 1000 ticks later, when the frame counter shows 43. -/
def lateReading : Reading := { performanceCounter := some 2000, hardwareFrameCount := 43 }

/-- The graphics device of `noGroupState`. -/
def noGroupDevice : IGraphicsDevice :=
  { backend := .D3D11, device := 7, swapChain := 9, commandQueue := 0,
    syncInterval := 1, presentFlags := 0 }

/-! ## What the two dispatchers select -/

/-- An exported operation of the unified plugin together with the argument it is given. -/
inductive DispatchedCall
  | QuadroSyncInitialize
  | QuadroSyncQueryFrameCount (value : Ptr)
  | QuadroSyncResetFrameCount
  | QuadroSyncDispose
  | QuadroSyncEnableSystem (value : Bool)
  | QuadroSyncEnableSwapGroup (value : Bool)
  | QuadroSyncEnableSwapBarrier (value : Bool)
  | QuadroSyncEnableSyncCounter (value : Bool)
  | QuadroSyncSkipSyncForNextFrame
  deriving DecidableEq, Repr

/-- The operation of the unified plugin a `DispatchedCall` names. -/
def DispatchedCall.run {κ : Type} (c : PluginCSwapGroupClient κ) (ndebug : Bool) (h : Host) :
    DispatchedCall → PluginState κ → Except Fault (PluginState κ)
  | .QuadroSyncInitialize => GfxQuadroSync.QuadroSyncInitialize c ndebug h
  | .QuadroSyncQueryFrameCount value => GfxQuadroSync.QuadroSyncQueryFrameCount c h value
  | .QuadroSyncResetFrameCount => GfxQuadroSync.QuadroSyncResetFrameCount c h
  | .QuadroSyncDispose => GfxQuadroSync.QuadroSyncDispose c h
  | .QuadroSyncEnableSystem value => GfxQuadroSync.QuadroSyncEnableSystem c h value
  | .QuadroSyncEnableSwapGroup value => GfxQuadroSync.QuadroSyncEnableSwapGroup c h value
  | .QuadroSyncEnableSwapBarrier value => GfxQuadroSync.QuadroSyncEnableSwapBarrier c h value
  | .QuadroSyncEnableSyncCounter value => GfxQuadroSync.QuadroSyncEnableSyncCounter c h value
  | .QuadroSyncSkipSyncForNextFrame => GfxQuadroSync.QuadroSyncSkipSyncForNextFrame c h

/-- The call the `switch` of the unified `OnRenderEvent` selects for an event code and a
payload: the operation of the matching enumerator with the payload as that operation receives
it, and nothing for the `default:` label. -/
def selectedCall (eventID : Int) (data : Ptr) : Option DispatchedCall :=
  match EQuadroSyncRenderEvent.ofInt eventID with
  | some .QuadroSyncInitialize => some .QuadroSyncInitialize
  | some .QuadroSyncQueryFrameCount => some (.QuadroSyncQueryFrameCount data)
  | some .QuadroSyncResetFrameCount => some .QuadroSyncResetFrameCount
  | some .QuadroSyncDispose => some .QuadroSyncDispose
  | some .QuadroSyncEnableSystem => some (.QuadroSyncEnableSystem (ptrToBool data))
  | some .QuadroSyncEnableSwapGroup => some (.QuadroSyncEnableSwapGroup (ptrToBool data))
  | some .QuadroSyncEnableSwapBarrier => some (.QuadroSyncEnableSwapBarrier (ptrToBool data))
  | some .QuadroSyncEnableSyncCounter => some (.QuadroSyncEnableSyncCounter (ptrToBool data))
  | some .QuadroSyncSkipSyncForNextFrame => some .QuadroSyncSkipSyncForNextFrame
  | none => none

/-- An exported operation of the D3D11-only plugin, which defines no
`QuadroSyncSkipSyncForNextFrame`, together with the argument it is given. -/
inductive D3D11Only.DispatchedCall
  | QuadroSyncInitialize
  | QuadroSyncQueryFrameCount (value : Ptr)
  | QuadroSyncResetFrameCount
  | QuadroSyncDispose
  | QuadroSyncEnableSystem (value : Bool)
  | QuadroSyncEnableSwapGroup (value : Bool)
  | QuadroSyncEnableSwapBarrier (value : Bool)
  | QuadroSyncEnableSyncCounter (value : Bool)
  deriving DecidableEq, Repr

/-- The operation of the unified plugin that has the same name and argument. -/
def D3D11Only.DispatchedCall.toUnified :
    D3D11Only.DispatchedCall → GfxQuadroSync.DispatchedCall
  | .QuadroSyncInitialize => .QuadroSyncInitialize
  | .QuadroSyncQueryFrameCount value => .QuadroSyncQueryFrameCount value
  | .QuadroSyncResetFrameCount => .QuadroSyncResetFrameCount
  | .QuadroSyncDispose => .QuadroSyncDispose
  | .QuadroSyncEnableSystem value => .QuadroSyncEnableSystem value
  | .QuadroSyncEnableSwapGroup value => .QuadroSyncEnableSwapGroup value
  | .QuadroSyncEnableSwapBarrier value => .QuadroSyncEnableSwapBarrier value
  | .QuadroSyncEnableSyncCounter value => .QuadroSyncEnableSyncCounter value

/-- The operation of the D3D11-only plugin a `DispatchedCall` names. -/
def D3D11Only.DispatchedCall.run {κ : Type} (c : D3D11Only.PluginCSwapGroupClient κ)
    (h : Host) :
    D3D11Only.DispatchedCall → D3D11Only.PluginState κ →
      Except Fault (D3D11Only.PluginState κ)
  | .QuadroSyncInitialize => D3D11Only.QuadroSyncInitialize c h
  | .QuadroSyncQueryFrameCount value => D3D11Only.QuadroSyncQueryFrameCount c h value
  | .QuadroSyncResetFrameCount => D3D11Only.QuadroSyncResetFrameCount c h
  | .QuadroSyncDispose => D3D11Only.QuadroSyncDispose c h
  | .QuadroSyncEnableSystem value => D3D11Only.QuadroSyncEnableSystem c h value
  | .QuadroSyncEnableSwapGroup value => D3D11Only.QuadroSyncEnableSwapGroup c h value
  | .QuadroSyncEnableSwapBarrier value => D3D11Only.QuadroSyncEnableSwapBarrier c h value
  | .QuadroSyncEnableSyncCounter value => D3D11Only.QuadroSyncEnableSyncCounter c h value

/-- The call the `switch` of the D3D11-only `OnRenderEvent` selects for an event code and a
payload, and nothing for the `default:` label. -/
def D3D11Only.selectedCall (eventID : Int) (data : Ptr) : Option D3D11Only.DispatchedCall :=
  if eventID = EQuadroSyncRenderEvent.QuadroSyncInitialize.toInt then
    some .QuadroSyncInitialize
  else if eventID = EQuadroSyncRenderEvent.QuadroSyncQueryFrameCount.toInt then
    some (.QuadroSyncQueryFrameCount data)
  else if eventID = EQuadroSyncRenderEvent.QuadroSyncResetFrameCount.toInt then
    some .QuadroSyncResetFrameCount
  else if eventID = EQuadroSyncRenderEvent.QuadroSyncDispose.toInt then
    some .QuadroSyncDispose
  else if eventID = EQuadroSyncRenderEvent.QuadroSyncEnableSystem.toInt then
    some (.QuadroSyncEnableSystem (ptrToBool data))
  else if eventID = EQuadroSyncRenderEvent.QuadroSyncEnableSwapGroup.toInt then
    some (.QuadroSyncEnableSwapGroup (ptrToBool data))
  else if eventID = EQuadroSyncRenderEvent.QuadroSyncEnableSwapBarrier.toInt then
    some (.QuadroSyncEnableSwapBarrier (ptrToBool data))
  else if eventID = EQuadroSyncRenderEvent.QuadroSyncEnableSyncCounter.toInt then
    some (.QuadroSyncEnableSyncCounter (ptrToBool data))
  else none

/-! ## Context validation -/

theorem IsContextValid_of_no_graphics {κ : Type} (h : Host) (s : PluginState κ)
    (hg : s.s_UnityGraphics = 0) : IsContextValid h s = .ok (false, s) := by
  simp [IsContextValid, hg]

theorem IsContextValid_of_no_device {κ : Type} (h : Host) (s : PluginState κ)
    (hd : s.s_GraphicsDevice = none) : IsContextValid h s = .ok (false, s) := by
  simp [IsContextValid, hd]

theorem IsContextValid_of_unsupported {κ : Type} (h : Host) (s : PluginState κ)
    (hr : ¬ supportedRenderer h.renderer) : IsContextValid h s = .ok (false, s) := by
  simp only [supportedRenderer, not_or] at hr
  simp [IsContextValid, hr]

theorem IsContextValid_of_checks {κ : Type} (h : Host) (s : PluginState κ)
    (g : IGraphicsDevice) (hg : s.s_UnityGraphics ≠ 0) (hd : s.s_GraphicsDevice = some g)
    (hr : supportedRenderer h.renderer) :
    IsContextValid h s = .ok
      (if deviceAfterRefetch h s g = 0 then
        (false, { afterRefetch h s g with s_InitializationStatus := .MissingDevice })
      else if swapChainAfterRefetch h s g = 0 then
        (false, { afterRefetch h s g with s_InitializationStatus := .MissingSwapChain })
      else (true, afterRefetch h s g)) := by
  have hr' : ¬ (h.renderer ≠ .kUnityGfxRendererD3D11 ∧ h.renderer ≠ .kUnityGfxRendererD3D12) := by
    unfold supportedRenderer at hr; tauto
  obtain ⟨b, dev, sc, cq, si, pf⟩ := g
  obtain ⟨ui, ug, u11, u12, gd, k, ini, st, pc, cc, pcs, sts⟩ := s
  simp only at hg hd
  subst hd
  unfold IsContextValid
  simp only [hg, hr', if_false]
  by_cases h1 : dev = 0 <;> by_cases h2 : sc = 0 <;> by_cases h3 : u11 = 0 <;>
    by_cases h4 : u12 = 0 <;>
    simp [derefGraphicsDevice, SetDevice, SetSwapChain, deviceAfterRefetch,
      swapChainAfterRefetch, deviceFetches, swapChainFetches, afterRefetch, h1, h2, h3, h4,
      bind, Except.bind, pure, Except.pure] <;>
    split_ifs <;> simp_all

/-- Every call of `IsContextValid` completes. -/
theorem IsContextValid_total {κ : Type} (h : Host) (s : PluginState κ) :
    ∃ b s', IsContextValid h s = .ok (b, s') := by
  by_cases hg : s.s_UnityGraphics = 0
  · exact ⟨_, _, IsContextValid_of_no_graphics h s hg⟩
  · cases hd : s.s_GraphicsDevice with
    | none => exact ⟨_, _, IsContextValid_of_no_device h s hd⟩
    | some g =>
      by_cases hr : supportedRenderer h.renderer
      · rw [IsContextValid_of_checks h s g hg hd hr]
        split_ifs <;> exact ⟨_, _, rfl⟩
      · exact ⟨_, _, IsContextValid_of_unsupported h s hr⟩

/-- C1: `IsContextValid` always completes, and it returns true if and only if the host
graphics interface is present, the graphics-device object is present, the reported renderer is
D3D11 or D3D12, and both the device handle and the swap-chain handle are non-null after the
lazy re-fetch of any null handle from the context provider.  The handles after the re-fetch
are the ones stored in the graphics device when the call returns. -/
theorem IsContextValid_true_iff {κ : Type} (h : Host) (s : PluginState κ) :
    ∃ b s', IsContextValid h s = .ok (b, s') ∧
      (b = true ↔
        s.s_UnityGraphics ≠ 0 ∧ supportedRenderer h.renderer ∧
          ∃ g, s.s_GraphicsDevice = some g ∧
            deviceAfterRefetch h s g ≠ 0 ∧ swapChainAfterRefetch h s g ≠ 0) ∧
      (b = true ↔
        s.s_UnityGraphics ≠ 0 ∧ supportedRenderer h.renderer ∧ s.s_GraphicsDevice ≠ none ∧
          ∃ g', s'.s_GraphicsDevice = some g' ∧ g'.device ≠ 0 ∧ g'.swapChain ≠ 0) := by
  by_cases hg : s.s_UnityGraphics = 0
  · exact ⟨_, _, IsContextValid_of_no_graphics h s hg, by simp [hg], by simp [hg]⟩
  · cases hd : s.s_GraphicsDevice with
    | none => exact ⟨_, _, IsContextValid_of_no_device h s hd, by simp, by simp⟩
    | some g =>
      by_cases hr : supportedRenderer h.renderer
      · rw [IsContextValid_of_checks h s g hg hd hr]
        by_cases h1 : deviceAfterRefetch h s g = 0
        · exact ⟨_, _, by rw [if_pos h1], by simp [h1], by simp [afterRefetch, h1]⟩
        · by_cases h2 : swapChainAfterRefetch h s g = 0
          · exact ⟨_, _, by rw [if_neg h1, if_pos h2], by simp [h2],
              by simp [afterRefetch, h2]⟩
          · exact ⟨_, _, by rw [if_neg h1, if_neg h2], by simp [hg, hr, h1, h2],
              by simp [afterRefetch, hg, hr, h1, h2]⟩
      · exact ⟨_, _, IsContextValid_of_unsupported h s hr, by simp [hr], by simp [hr]⟩

/-- C2: in a state that passes the provider and backend checks, when the device handle is
still null after the re-fetch (in particular when device and swap chain are both null)
`IsContextValid` returns false and sets `MissingDevice`; it sets `MissingSwapChain` exactly
when the device handle is non-null and the swap-chain handle is null; otherwise it returns
true and leaves the status as it was. -/
theorem IsContextValid_missing_device_first {κ : Type} (h : Host) (s : PluginState κ)
    (g : IGraphicsDevice) (hg : s.s_UnityGraphics ≠ 0) (hd : s.s_GraphicsDevice = some g)
    (hr : supportedRenderer h.renderer) :
    ∃ b s' g', IsContextValid h s = .ok (b, s') ∧ s'.s_GraphicsDevice = some g' ∧
      g'.device = deviceAfterRefetch h s g ∧ g'.swapChain = swapChainAfterRefetch h s g ∧
      (g'.device = 0 ∧ g'.swapChain = 0 →
        b = false ∧ s'.s_InitializationStatus = .MissingDevice) ∧
      (g'.device = 0 → b = false ∧ s'.s_InitializationStatus = .MissingDevice) ∧
      (g'.device ≠ 0 ∧ g'.swapChain = 0 →
        b = false ∧ s'.s_InitializationStatus = .MissingSwapChain) ∧
      (g'.device ≠ 0 ∧ g'.swapChain ≠ 0 →
        b = true ∧ s'.s_InitializationStatus = s.s_InitializationStatus) := by
  rw [IsContextValid_of_checks h s g hg hd hr]
  by_cases h1 : deviceAfterRefetch h s g = 0
  · exact ⟨_, _, _, by rw [if_pos h1], rfl, rfl, rfl, by simp [h1]⟩
  · by_cases h2 : swapChainAfterRefetch h s g = 0
    · exact ⟨_, _, _, by rw [if_neg h1, if_pos h2], rfl, rfl, rfl, by simp [h1, h2]⟩
    · exact ⟨_, _, _, by rw [if_neg h1, if_neg h2], rfl, rfl, rfl,
        by simp [h1, h2, afterRefetch]⟩

/-- Witness of C2: the re-fetch on `hostNoHandles` leaves both handles null. -/
theorem IsContextValid_missing_device_first_witness :
    nullHandlesState.s_UnityGraphics ≠ 0 ∧
    nullHandlesState.s_GraphicsDevice = some nullHandlesDevice ∧
    supportedRenderer hostNoHandles.renderer ∧
    ∃ b s' g', IsContextValid hostNoHandles nullHandlesState = .ok (b, s') ∧
      s'.s_GraphicsDevice = some g' ∧
      g'.device = deviceAfterRefetch hostNoHandles nullHandlesState nullHandlesDevice ∧
      g'.swapChain = swapChainAfterRefetch hostNoHandles nullHandlesState nullHandlesDevice ∧
      (g'.device = 0 ∧ g'.swapChain = 0 →
        b = false ∧ s'.s_InitializationStatus = .MissingDevice) ∧
      (g'.device = 0 → b = false ∧ s'.s_InitializationStatus = .MissingDevice) ∧
      (g'.device ≠ 0 ∧ g'.swapChain = 0 →
        b = false ∧ s'.s_InitializationStatus = .MissingSwapChain) ∧
      (g'.device ≠ 0 ∧ g'.swapChain ≠ 0 →
        b = true ∧
          s'.s_InitializationStatus = nullHandlesState.s_InitializationStatus) :=
  ⟨by decide, rfl, Or.inl rfl,
    IsContextValid_missing_device_first hostNoHandles nullHandlesState nullHandlesDevice
      (by decide) rfl (Or.inl rfl)⟩

/-- The states used as concrete inputs are reached from the initial state by exported
calls. -/
theorem concrete_states_reachable :
    QuadroSyncInitialize (fixedClient .Success 0 true) true hostD3D11 loadedState =
      .ok initializedState ∧
    InitializeGraphicsDevice hostNoHandles loadedState = .ok (true, nullHandlesState) ∧
    QuadroSyncInitialize (fixedClient .FailedToJoinSwapGroup 0 true) true hostD3D11
      loadedState = .ok failedJoinState := by
  refine ⟨rfl, rfl, rfl⟩

/-- Counterexample to C3 as stated: before `UnityPluginLoad` the validation returns false and
the status is still `NotInitialized`; and when an initialised plugin is told by the host that
the renderer is `kUnityGfxRendererNull`, the validation returns false and the status is still
`Initialized`.  In neither case is it one of the three failure values. -/
theorem IsContextValid_false_status_counterexample :
    IsContextValid hostD3D11 (initialState (0 : Nat)) = .ok (false, initialState 0) ∧
    (initialState (0 : Nat)).s_InitializationStatus = .NotInitialized ∧
    IsContextValid hostNullRenderer initializedState = .ok (false, initializedState) ∧
    initializedState.s_InitializationStatus = .Initialized := by
  refine ⟨rfl, rfl, rfl, rfl⟩

/-- C3 (amended): when `IsContextValid` returns false, either it stopped at the provider,
graphics-device or backend check and left the whole state, the status included, unchanged, or
it passed those checks and recorded `MissingDevice` or `MissingSwapChain`. -/
theorem IsContextValid_false_status {κ : Type} (h : Host) (s s' : PluginState κ)
    (hres : IsContextValid h s = .ok (false, s')) :
    ((s.s_UnityGraphics = 0 ∨ s.s_GraphicsDevice = none ∨ ¬ supportedRenderer h.renderer) ∧
        s' = s) ∨
    ((s.s_UnityGraphics ≠ 0 ∧ s.s_GraphicsDevice ≠ none ∧ supportedRenderer h.renderer) ∧
        (s'.s_InitializationStatus = .MissingDevice ∨
          s'.s_InitializationStatus = .MissingSwapChain)) := by
  by_cases hg : s.s_UnityGraphics = 0
  · rw [IsContextValid_of_no_graphics h s hg] at hres
    simp only [Except.ok.injEq, Prod.mk.injEq, true_and] at hres
    exact Or.inl ⟨Or.inl hg, hres.symm⟩
  · cases hd : s.s_GraphicsDevice with
    | none =>
      rw [IsContextValid_of_no_device h s hd] at hres
      simp only [Except.ok.injEq, Prod.mk.injEq, true_and] at hres
      exact Or.inl ⟨Or.inr (Or.inl rfl), hres.symm⟩
    | some g =>
      by_cases hr : supportedRenderer h.renderer
      · right
        refine ⟨⟨hg, by simp, hr⟩, ?_⟩
        rw [IsContextValid_of_checks h s g hg hd hr] at hres
        split_ifs at hres <;>
          simp only [Except.ok.injEq, Prod.mk.injEq, true_and, Bool.true_eq_false,
            false_and] at hres
        · left; rw [← hres]
        · right; rw [← hres]
      · rw [IsContextValid_of_unsupported h s hr] at hres
        simp only [Except.ok.injEq, Prod.mk.injEq, true_and] at hres
        exact Or.inl ⟨Or.inr (Or.inr hr), hres.symm⟩

/-- Witness of C3 (amended): on `hostNoHandles` the validation records `MissingDevice`. -/
theorem IsContextValid_false_status_witness :
    IsContextValid hostNoHandles nullHandlesState = .ok (false, missingDeviceState) ∧
    (((nullHandlesState.s_UnityGraphics = 0 ∨ nullHandlesState.s_GraphicsDevice = none ∨
          ¬ supportedRenderer hostNoHandles.renderer) ∧
        missingDeviceState = nullHandlesState) ∨
      ((nullHandlesState.s_UnityGraphics ≠ 0 ∧ nullHandlesState.s_GraphicsDevice ≠ none ∧
          supportedRenderer hostNoHandles.renderer) ∧
        (missingDeviceState.s_InitializationStatus = .MissingDevice ∨
          missingDeviceState.s_InitializationStatus = .MissingSwapChain))) :=
  ⟨rfl, IsContextValid_false_status hostNoHandles nullHandlesState missingDeviceState rfl⟩

/-! ## The exported operations when validation fails -/

/-- `IsContextValid` never touches the swap-group client, the out-pointer stores, or the
cached interface pointers. -/
theorem IsContextValid_frame {κ : Type} (h : Host) (s s' : PluginState κ) (b : Bool)
    (hres : IsContextValid h s = .ok (b, s')) :
    s'.clientCalls = s.clientCalls ∧ s'.s_SwapGroupClient = s.s_SwapGroupClient ∧
      s'.stores = s.stores ∧ s'.s_UnityGraphics = s.s_UnityGraphics ∧
      s'.s_UnityGraphicsD3D11 = s.s_UnityGraphicsD3D11 ∧
      s'.s_UnityGraphicsD3D12 = s.s_UnityGraphicsD3D12 := by
  by_cases hg : s.s_UnityGraphics = 0
  · rw [IsContextValid_of_no_graphics h s hg] at hres
    simp only [Except.ok.injEq, Prod.mk.injEq] at hres
    simp [← hres.2]
  · cases hd : s.s_GraphicsDevice with
    | none =>
      rw [IsContextValid_of_no_device h s hd] at hres
      simp only [Except.ok.injEq, Prod.mk.injEq] at hres
      simp [← hres.2]
    | some g =>
      by_cases hr : supportedRenderer h.renderer
      · rw [IsContextValid_of_checks h s g hg hd hr] at hres
        split_ifs at hres <;> simp only [Except.ok.injEq, Prod.mk.injEq] at hres <;>
          simp [← hres.2, afterRefetch]
      · rw [IsContextValid_of_unsupported h s hr] at hres
        simp only [Except.ok.injEq, Prod.mk.injEq] at hres
        simp [← hres.2]

/-- A successful validation leaves a graphics device whose two handles are non-null. -/
theorem IsContextValid_true_device {κ : Type} (h : Host) (s s' : PluginState κ)
    (hres : IsContextValid h s = .ok (true, s')) :
    ∃ g, s'.s_GraphicsDevice = some g ∧ g.device ≠ 0 ∧ g.swapChain ≠ 0 ∧
      s'.s_InitializationStatus = s.s_InitializationStatus := by
  by_cases hg : s.s_UnityGraphics = 0
  · rw [IsContextValid_of_no_graphics h s hg] at hres
    simp at hres
  · cases hd : s.s_GraphicsDevice with
    | none =>
      rw [IsContextValid_of_no_device h s hd] at hres
      simp at hres
    | some g =>
      by_cases hr : supportedRenderer h.renderer
      · rw [IsContextValid_of_checks h s g hg hd hr] at hres
        split_ifs at hres with h1 h2 <;> simp only [Except.ok.injEq, Prod.mk.injEq] at hres
        · simp at hres
        · simp at hres
        · exact ⟨_, by rw [← hres.2]; rfl, h1, h2, by rw [← hres.2]; rfl⟩
      · rw [IsContextValid_of_unsupported h s hr] at hres
        simp at hres

/-- `GetRenderDeviceInterface` changes the two cached D3D interface pointers only. -/
theorem GetRenderDeviceInterface_frame {κ : Type} (h : Host) (r : UnityGfxRenderer)
    (s s1 : PluginState κ) (hres : GetRenderDeviceInterface h r s = .ok s1) :
    s1.clientCalls = s.clientCalls ∧ s1.s_SwapGroupClient = s.s_SwapGroupClient ∧
      s1.stores = s.stores ∧ s1.s_GraphicsDevice = s.s_GraphicsDevice ∧
      s1.s_InitializationStatus = s.s_InitializationStatus ∧
      s1.s_UnityGraphics = s.s_UnityGraphics ∧ s1.providerCalls = s.providerCalls := by
  unfold GetRenderDeviceInterface at hres
  cases r <;> simp only at hres
  · split_ifs at hres; simp only [Except.ok.injEq] at hres; simp [← hres]
  · split_ifs at hres; simp only [Except.ok.injEq] at hres; simp [← hres]
  · simp only [Except.ok.injEq] at hres; simp [← hres]
  · simp only [Except.ok.injEq] at hres; simp [← hres]

/-- `InitializeGraphicsDevice` never touches the swap-group client or the out-pointer
stores. -/
theorem InitializeGraphicsDevice_frame {κ : Type} (h : Host) (s s' : PluginState κ) (b : Bool)
    (hres : InitializeGraphicsDevice h s = .ok (b, s')) :
    s'.clientCalls = s.clientCalls ∧ s'.s_SwapGroupClient = s.s_SwapGroupClient ∧
      s'.stores = s.stores := by
  unfold InitializeGraphicsDevice at hres
  split_ifs at hres
  cases hgr : GetRenderDeviceInterface h h.renderer s with
  | error e => rw [hgr] at hres; simp at hres
  | ok s1 =>
    rw [hgr] at hres
    have hs1 := GetRenderDeviceInterface_frame h h.renderer s s1 hgr
    simp only at hres
    split_ifs at hres <;> simp only [Except.ok.injEq, Prod.mk.injEq] at hres <;>
      simp [← hres.2, hs1]

/-- C4: each of the nine exported operations is a no-op on the swap-group client when the
context validation it runs fails.  When `IsContextValid` returns false, the eight operations
that validate first return exactly the state the validation left, in which the client and the
trace of client calls are as before.  `QuadroSyncInitialize` does likewise when
`InitializeGraphicsDevice` returns false and when the validation of the state that
`InitializeGraphicsDevice` left returns false. -/
theorem exported_operations_noop_when_validation_fails {κ : Type}
    (c : PluginCSwapGroupClient κ) (ndebug : Bool) (h : Host) (s : PluginState κ) :
    (∀ s', IsContextValid h s = .ok (false, s') →
      (s'.clientCalls = s.clientCalls ∧ s'.s_SwapGroupClient = s.s_SwapGroupClient) ∧
      (∀ value, QuadroSyncQueryFrameCount c h value s = .ok s') ∧
      QuadroSyncResetFrameCount c h s = .ok s' ∧
      QuadroSyncDispose c h s = .ok s' ∧
      (∀ value, QuadroSyncEnableSystem c h value s = .ok s') ∧
      (∀ value, QuadroSyncEnableSwapGroup c h value s = .ok s') ∧
      (∀ value, QuadroSyncEnableSwapBarrier c h value s = .ok s') ∧
      (∀ value, QuadroSyncEnableSyncCounter c h value s = .ok s') ∧
      QuadroSyncSkipSyncForNextFrame c h s = .ok s') ∧
    (∀ s1, InitializeGraphicsDevice h s = .ok (false, s1) →
      QuadroSyncInitialize c ndebug h s = .ok s1 ∧
      s1.clientCalls = s.clientCalls ∧ s1.s_SwapGroupClient = s.s_SwapGroupClient) ∧
    (∀ s1 s2, InitializeGraphicsDevice h s = .ok (true, s1) →
      IsContextValid h s1 = .ok (false, s2) →
      QuadroSyncInitialize c ndebug h s = .ok s2 ∧
      s2.clientCalls = s.clientCalls ∧ s2.s_SwapGroupClient = s.s_SwapGroupClient) := by
  refine ⟨?_, ?_, ?_⟩
  · intro s' hres
    have hf := IsContextValid_frame h s s' false hres
    refine ⟨⟨hf.1, hf.2.1⟩, ?_, ?_, ?_, ?_, ?_, ?_, ?_, ?_⟩
    · intro value; simp [QuadroSyncQueryFrameCount, hres]
    · simp [QuadroSyncResetFrameCount, hres]
    · simp [QuadroSyncDispose, hres]
    · intro value; simp [QuadroSyncEnableSystem, hres]
    · intro value; simp [QuadroSyncEnableSwapGroup, hres]
    · intro value; simp [QuadroSyncEnableSwapBarrier, hres]
    · intro value; simp [QuadroSyncEnableSyncCounter, hres]
    · simp [QuadroSyncSkipSyncForNextFrame, hres]
  · intro s1 hdev
    have hf := InitializeGraphicsDevice_frame h s s1 false hdev
    exact ⟨by simp [QuadroSyncInitialize, hdev], hf.1, hf.2.1⟩
  · intro s1 s2 hdev hres
    have hf1 := InitializeGraphicsDevice_frame h s s1 true hdev
    have hf2 := IsContextValid_frame h s1 s2 false hres
    exact ⟨by simp [QuadroSyncInitialize, hdev, hres], hf2.1.trans hf1.1,
      hf2.2.1.trans hf1.2.1⟩

/-- Witness of C4: `QuadroSyncDispose` when the validation records `MissingDevice`, and
`QuadroSyncInitialize` when device creation fails and when the validation after it fails. -/
theorem exported_operations_noop_when_validation_fails_witness :
    (QuadroSyncDispose (fixedClient .Success 0 true) hostNoHandles nullHandlesState =
        .ok missingDeviceState ∧
      missingDeviceState.clientCalls = nullHandlesState.clientCalls ∧
      missingDeviceState.s_SwapGroupClient = nullHandlesState.s_SwapGroupClient) ∧
    (QuadroSyncInitialize (fixedClient .Success 0 true) true hostNullRenderer loadedState =
        .ok unsupportedState ∧
      unsupportedState.clientCalls = loadedState.clientCalls ∧
      unsupportedState.s_SwapGroupClient = loadedState.s_SwapGroupClient) ∧
    (QuadroSyncInitialize (fixedClient .Success 0 true) true hostNoHandles loadedState =
        .ok missingDeviceState ∧
      missingDeviceState.clientCalls = loadedState.clientCalls ∧
      missingDeviceState.s_SwapGroupClient = loadedState.s_SwapGroupClient) :=
  have h1 := (exported_operations_noop_when_validation_fails (fixedClient .Success 0 true)
    true hostNoHandles nullHandlesState).1 missingDeviceState rfl
  ⟨⟨h1.2.2.2.1, h1.1.1, h1.1.2⟩,
    (exported_operations_noop_when_validation_fails (fixedClient .Success 0 true) true
      hostNullRenderer loadedState).2.1 unsupportedState rfl,
    (exported_operations_noop_when_validation_fails (fixedClient .Success 0 true) true
      hostNoHandles loadedState).2.2 nullHandlesState missingDeviceState rfl rfl⟩

/-! ## `QuadroSyncInitialize` -/

/-- `GetRenderDeviceInterface` does not read or write the status. -/
theorem GetRenderDeviceInterface_status {κ : Type} (h : Host) (r : UnityGfxRenderer)
    (s : PluginState κ) (q : QuadroSyncInitializationStatus) :
    GetRenderDeviceInterface h r { s with s_InitializationStatus := q } =
      (GetRenderDeviceInterface h r s).map (fun s1 => { s1 with s_InitializationStatus := q }) := by
  unfold GetRenderDeviceInterface
  cases r <;> simp only <;> (try split_ifs) <;> rfl

/-- A successful `InitializeGraphicsDevice` does not read or write the status. -/
theorem InitializeGraphicsDevice_true_status {κ : Type} (h : Host) (s s1 : PluginState κ)
    (q : QuadroSyncInitializationStatus)
    (hres : InitializeGraphicsDevice h s = .ok (true, s1)) :
    InitializeGraphicsDevice h { s with s_InitializationStatus := q } =
      .ok (true, { s1 with s_InitializationStatus := q }) ∧
    s1.s_InitializationStatus = s.s_InitializationStatus := by
  unfold InitializeGraphicsDevice at hres ⊢
  rw [GetRenderDeviceInterface_status]
  split_ifs at hres with h0
  rw [if_neg h0]
  cases hgr : GetRenderDeviceInterface h h.renderer s with
  | error e => rw [hgr] at hres; simp at hres
  | ok s0 =>
    rw [hgr] at hres
    have hs0 := GetRenderDeviceInterface_frame h h.renderer s s0 hgr
    simp only [Except.map] at hres ⊢
    split_ifs at hres ⊢ <;> simp only [Except.ok.injEq, Prod.mk.injEq] at hres
    · exact ⟨by rw [← hres.2], by rw [← hres.2]; exact hs0.2.2.2.2.1⟩
    · exact ⟨by rw [← hres.2], by rw [← hres.2]; exact hs0.2.2.2.2.1⟩
    · simp at hres
    · exact ⟨by rw [← hres.2], by rw [← hres.2]; exact hs0.2.2.2.2.1⟩

/-- A successful `IsContextValid` does not read or write the status. -/
theorem IsContextValid_true_status {κ : Type} (h : Host) (s s' : PluginState κ)
    (q : QuadroSyncInitializationStatus) (hres : IsContextValid h s = .ok (true, s')) :
    IsContextValid h { s with s_InitializationStatus := q } =
      .ok (true, { s' with s_InitializationStatus := q }) := by
  by_cases hg : s.s_UnityGraphics = 0
  · rw [IsContextValid_of_no_graphics h s hg] at hres
    simp at hres
  · by_cases hd : s.s_GraphicsDevice = none
    · rw [IsContextValid_of_no_device h s hd] at hres
      simp at hres
    · obtain ⟨g, hd⟩ := Option.ne_none_iff_exists'.mp hd
      by_cases hr : supportedRenderer h.renderer
      · rw [IsContextValid_of_checks h s g hg hd hr] at hres
        rw [IsContextValid_of_checks h { s with s_InitializationStatus := q } g hg hd hr]
        have e1 : deviceAfterRefetch h { s with s_InitializationStatus := q } g =
            deviceAfterRefetch h s g := rfl
        have e2 : swapChainAfterRefetch h { s with s_InitializationStatus := q } g =
            swapChainAfterRefetch h s g := rfl
        rw [e1, e2]
        split_ifs at hres ⊢ with h1 h2 <;>
          simp only [Except.ok.injEq, Prod.mk.injEq] at hres
        · simp at hres
        · simp at hres
        · rw [← hres.2]; rfl
      · rw [IsContextValid_of_unsupported h s hr] at hres
        simp at hres

/-- C5: whatever the prior status, when device creation succeeds and the context is valid
`QuadroSyncInitialize` completes, leaves the status equal to `Initialized` if and only if the
client's `Initialize` returned `Success`, and otherwise leaves the converted value of the
client's failure status; the state it leaves is the same from every prior status. -/
theorem QuadroSyncInitialize_status {κ : Type} (c : PluginCSwapGroupClient κ) (ndebug : Bool)
    (h : Host) (s s1 s2 : PluginState κ)
    (hdev : InitializeGraphicsDevice h s = .ok (true, s1))
    (hval : IsContextValid h s1 = .ok (true, s2)) :
    ∃ g s3, s2.s_GraphicsDevice = some g ∧
      QuadroSyncInitialize c ndebug h s = .ok s3 ∧
      (s3.s_InitializationStatus = .Initialized ↔
        (c.Initialize (c.SetupWorkStation s2.s_SwapGroupClient) g.device g.swapChain).1 =
          .Success) ∧
      ((c.Initialize (c.SetupWorkStation s2.s_SwapGroupClient) g.device g.swapChain).1 ≠
          .Success →
        ConvertToQuadroSyncInitializationStatus ndebug
          (c.Initialize (c.SetupWorkStation s2.s_SwapGroupClient) g.device g.swapChain).1 =
            .ok s3.s_InitializationStatus) ∧
      (∀ q, QuadroSyncInitialize c ndebug h { s with s_InitializationStatus := q } =
        .ok s3) := by
  obtain ⟨g, hg, -, -, -⟩ := IsContextValid_true_device h s1 s2 hval
  have key : ∀ q, QuadroSyncInitialize c ndebug h { s with s_InitializationStatus := q } =
      QuadroSyncInitialize c ndebug h s := by
    intro q
    have e1 := (InitializeGraphicsDevice_true_status h s s1 q hdev).1
    have e2 := IsContextValid_true_status h s1 s2 q hval
    simp only [QuadroSyncInitialize, e1, e2, hdev, hval, derefGraphicsDevice, hg]
    rfl
  simp only [key]
  simp only [QuadroSyncInitialize, hdev, hval, derefGraphicsDevice, hg]
  cases hr : (c.Initialize (c.SetupWorkStation s2.s_SwapGroupClient) g.device g.swapChain).1 <;>
    simp [ConvertToQuadroSyncInitializationStatus, hr]

/-- Witness of C5: after an attempt that failed to join the swap group, a later
`QuadroSyncInitialize` whose client call succeeds reaches `Initialized`. -/
theorem QuadroSyncInitialize_status_witness :
    InitializeGraphicsDevice hostD3D11 failedJoinState = .ok (true, failedJoinState) ∧
    IsContextValid hostD3D11 failedJoinState = .ok (true, failedJoinState) ∧
    QuadroSyncInitialize (fixedClient .Success 0 true) true hostD3D11 failedJoinState =
      .ok retriedState ∧
    retriedState.s_InitializationStatus = .Initialized ∧
    ∃ g s3, failedJoinState.s_GraphicsDevice = some g ∧
      QuadroSyncInitialize (fixedClient .Success 0 true) true hostD3D11 failedJoinState =
        .ok s3 ∧
      (s3.s_InitializationStatus = .Initialized ↔
        ((fixedClient .Success 0 true).Initialize
          ((fixedClient .Success 0 true).SetupWorkStation failedJoinState.s_SwapGroupClient)
          g.device g.swapChain).1 = .Success) ∧
      (((fixedClient .Success 0 true).Initialize
          ((fixedClient .Success 0 true).SetupWorkStation failedJoinState.s_SwapGroupClient)
          g.device g.swapChain).1 ≠ .Success →
        ConvertToQuadroSyncInitializationStatus true
          ((fixedClient .Success 0 true).Initialize
            ((fixedClient .Success 0 true).SetupWorkStation
              failedJoinState.s_SwapGroupClient)
            g.device g.swapChain).1 = .ok s3.s_InitializationStatus) ∧
      (∀ q, QuadroSyncInitialize (fixedClient .Success 0 true) true hostD3D11
        { failedJoinState with s_InitializationStatus := q } = .ok s3) :=
  ⟨rfl, rfl, rfl, rfl,
    QuadroSyncInitialize_status (fixedClient .Success 0 true) true hostD3D11 failedJoinState
      failedJoinState failedJoinState rfl rfl⟩

/-- C6: `ConvertToQuadroSyncInitializationStatus` sends each of the seven failure values of
the client to its counterpart (`Failed` to `SwapChainOrBarrierGenericFailure`, every other one
to the status of the same name), whose numeric codes are 6..12 in this order; it is injective
on the seven failure values; and whatever the input, a value it returns has a code in 6..12,
so it is none of `NotInitialized`, `Initialized` and the four context statuses. -/
theorem ConvertToQuadroSyncInitializationStatus_one_to_one :
    (∀ ndebug,
      ConvertToQuadroSyncInitializationStatus ndebug .Failed =
        .ok .SwapChainOrBarrierGenericFailure ∧
      ConvertToQuadroSyncInitializationStatus ndebug .NoSwapGroupDetected =
        .ok .NoSwapGroupDetected ∧
      ConvertToQuadroSyncInitializationStatus ndebug .QuerySwapGroupFailed =
        .ok .QuerySwapGroupFailed ∧
      ConvertToQuadroSyncInitializationStatus ndebug .FailedToJoinSwapGroup =
        .ok .FailedToJoinSwapGroup ∧
      ConvertToQuadroSyncInitializationStatus ndebug .SwapGroupMismatch =
        .ok .SwapGroupMismatch ∧
      ConvertToQuadroSyncInitializationStatus ndebug .FailedToBindSwapBarrier =
        .ok .FailedToBindSwapBarrier ∧
      ConvertToQuadroSyncInitializationStatus ndebug .SwapBarrierIdMismatch =
        .ok .SwapBarrierIdMismatch) ∧
    (QuadroSyncInitializationStatus.SwapChainOrBarrierGenericFailure.toUInt32 = 6 ∧
      QuadroSyncInitializationStatus.NoSwapGroupDetected.toUInt32 = 7 ∧
      QuadroSyncInitializationStatus.QuerySwapGroupFailed.toUInt32 = 8 ∧
      QuadroSyncInitializationStatus.FailedToJoinSwapGroup.toUInt32 = 9 ∧
      QuadroSyncInitializationStatus.SwapGroupMismatch.toUInt32 = 10 ∧
      QuadroSyncInitializationStatus.FailedToBindSwapBarrier.toUInt32 = 11 ∧
      QuadroSyncInitializationStatus.SwapBarrierIdMismatch.toUInt32 = 12) ∧
    (∀ ndebug a b, a ≠ .Success → b ≠ .Success →
      ConvertToQuadroSyncInitializationStatus ndebug a =
        ConvertToQuadroSyncInitializationStatus ndebug b → a = b) ∧
    (∀ ndebug x q, ConvertToQuadroSyncInitializationStatus ndebug x = .ok q →
      (6 ≤ q.toUInt32 ∧ q.toUInt32 ≤ 12) ∧
      q ≠ .NotInitialized ∧ q ≠ .Initialized ∧ q ≠ .FailedUnityInterfacesNull ∧
      q ≠ .UnsupportedGraphicApi ∧ q ≠ .MissingDevice ∧ q ≠ .MissingSwapChain) := by
  refine ⟨fun ndebug => ⟨rfl, rfl, rfl, rfl, rfl, rfl, rfl⟩,
    ⟨rfl, rfl, rfl, rfl, rfl, rfl, rfl⟩, ?_, ?_⟩
  · intro ndebug a b ha hb hab
    cases a <;> cases b <;>
      simp_all [ConvertToQuadroSyncInitializationStatus]
  · intro ndebug x q hq
    cases x <;> cases ndebug <;>
      simp only [ConvertToQuadroSyncInitializationStatus, Except.ok.injEq, if_true,
        Bool.false_eq_true, if_false, reduceCtorEq] at hq <;>
      subst hq <;>
      simp [QuadroSyncInitializationStatus.toUInt32]

/-- `GetRenderDeviceInterface` does nothing for an unsupported renderer. -/
theorem GetRenderDeviceInterface_unsupported {κ : Type} (h : Host) (r : UnityGfxRenderer)
    (s : PluginState κ) (hr : ¬ supportedRenderer r) :
    GetRenderDeviceInterface h r s = .ok s := by
  unfold supportedRenderer at hr
  cases r <;> simp_all [GetRenderDeviceInterface]

/-- For an unsupported renderer `InitializeGraphicsDevice` completes; it fails exactly when
no graphics device exists and no D3D interface is cached, and then records
`UnsupportedGraphicApi`. -/
theorem InitializeGraphicsDevice_unsupported {κ : Type} (h : Host) (s : PluginState κ)
    (hg : s.s_UnityGraphics ≠ 0) (hr : ¬ supportedRenderer h.renderer) :
    ∃ b s1, InitializeGraphicsDevice h s = .ok (b, s1) ∧
      (b = false ↔
        (s.s_GraphicsDevice = none ∧ s.s_UnityGraphicsD3D11 = 0 ∧
          s.s_UnityGraphicsD3D12 = 0)) ∧
      (b = false → s1.s_InitializationStatus = .UnsupportedGraphicApi) := by
  have hgr := GetRenderDeviceInterface_unsupported h h.renderer s hr
  unfold InitializeGraphicsDevice
  rw [if_neg hg, hgr]
  simp only
  split_ifs with hd h11 h12
  · exact ⟨true, _, rfl, by simp [h11], by simp⟩
  · exact ⟨true, _, rfl, by simp [h12], by simp⟩
  · exact ⟨false, _, rfl, by simp_all, fun _ => rfl⟩
  · exact ⟨true, _, rfl, by simp [hd], by simp⟩

/-- Counterexample to C7 as stated: the host reports `kUnityGfxRendererNull` to a plugin that
was initialised while the renderer was D3D11; `QuadroSyncInitialize` finds the graphics device
already created, stops at the context validation, and the status stays `Initialized`. -/
theorem QuadroSyncInitialize_unsupported_backend_counterexample :
    hostNullRenderer.renderer ≠ .kUnityGfxRendererD3D11 ∧
    hostNullRenderer.renderer ≠ .kUnityGfxRendererD3D12 ∧
    QuadroSyncInitialize (fixedClient .Success 0 true) true hostNullRenderer initializedState =
      .ok initializedState ∧
    initializedState.s_InitializationStatus = .Initialized ∧
    initializedState.s_InitializationStatus ≠ .UnsupportedGraphicApi := by
  refine ⟨by decide, by decide, rfl, rfl, by decide⟩

/-- C7 (amended): when the host graphics interface is present and the host reports a backend
kind that is neither D3D11 nor D3D12, `QuadroSyncInitialize` completes without invoking any
client operation; it leaves the status equal to `UnsupportedGraphicApi` when no graphics
device exists and no D3D11 or D3D12 interface is cached, and leaves the status unchanged
otherwise. -/
theorem QuadroSyncInitialize_unsupported_backend {κ : Type} (c : PluginCSwapGroupClient κ)
    (ndebug : Bool) (h : Host) (s : PluginState κ) (hg : s.s_UnityGraphics ≠ 0)
    (hr : ¬ supportedRenderer h.renderer) :
    ∃ s', QuadroSyncInitialize c ndebug h s = .ok s' ∧
      s'.clientCalls = s.clientCalls ∧ s'.s_SwapGroupClient = s.s_SwapGroupClient ∧
      (s.s_GraphicsDevice = none ∧ s.s_UnityGraphicsD3D11 = 0 ∧ s.s_UnityGraphicsD3D12 = 0 →
        s'.s_InitializationStatus = .UnsupportedGraphicApi) ∧
      (¬ (s.s_GraphicsDevice = none ∧ s.s_UnityGraphicsD3D11 = 0 ∧
          s.s_UnityGraphicsD3D12 = 0) →
        s'.s_InitializationStatus = s.s_InitializationStatus) := by
  obtain ⟨b, s1, hinit, hb, hst⟩ := InitializeGraphicsDevice_unsupported h s hg hr
  have hf := InitializeGraphicsDevice_frame h s s1 b hinit
  cases b
  · exact ⟨s1, by simp [QuadroSyncInitialize, hinit], hf.1, hf.2.1, fun _ => hst rfl,
      fun hn => absurd (hb.mp rfl) hn⟩
  · have hv := IsContextValid_of_unsupported h s1 hr
    refine ⟨s1, by simp [QuadroSyncInitialize, hinit, hv], hf.1, hf.2.1, fun hp => ?_,
      fun _ => (InitializeGraphicsDevice_true_status h s s1 .NotInitialized hinit).2⟩
    have := hb.mpr hp
    simp at this

/-- Witness of C7 (amended): `QuadroSyncInitialize` right after `UnityPluginLoad` on a host
that reports `kUnityGfxRendererNull`. -/
theorem QuadroSyncInitialize_unsupported_backend_witness :
    loadedState.s_UnityGraphics ≠ 0 ∧ ¬ supportedRenderer hostNullRenderer.renderer ∧
    QuadroSyncInitialize (fixedClient .Success 0 true) true hostNullRenderer loadedState =
      .ok unsupportedState ∧
    ∃ s', QuadroSyncInitialize (fixedClient .Success 0 true) true hostNullRenderer
        loadedState = .ok s' ∧
      s'.clientCalls = loadedState.clientCalls ∧
      s'.s_SwapGroupClient = loadedState.s_SwapGroupClient ∧
      (loadedState.s_GraphicsDevice = none ∧ loadedState.s_UnityGraphicsD3D11 = 0 ∧
          loadedState.s_UnityGraphicsD3D12 = 0 →
        s'.s_InitializationStatus = .UnsupportedGraphicApi) ∧
      (¬ (loadedState.s_GraphicsDevice = none ∧ loadedState.s_UnityGraphicsD3D11 = 0 ∧
          loadedState.s_UnityGraphicsD3D12 = 0) →
        s'.s_InitializationStatus = loadedState.s_InitializationStatus) :=
  ⟨by decide, by decide, rfl,
    QuadroSyncInitialize_unsupported_backend (fixedClient .Success 0 true) true
      hostNullRenderer loadedState (by decide) (by decide)⟩

/-! ## `QuadroSyncDispose` -/

/-- A successful validation passed the provider and backend checks. -/
theorem IsContextValid_true_checks {κ : Type} (h : Host) (s s' : PluginState κ)
    (hres : IsContextValid h s = .ok (true, s')) :
    s.s_UnityGraphics ≠ 0 ∧ supportedRenderer h.renderer := by
  refine ⟨fun hg => ?_, ?_⟩
  · rw [IsContextValid_of_no_graphics h s hg] at hres
    simp at hres
  · by_contra hr
    rw [IsContextValid_of_unsupported h s hr] at hres
    simp at hres

/-- When both stored handles are non-null the re-fetch changes nothing. -/
theorem afterRefetch_of_handles {κ : Type} (h : Host) (s : PluginState κ)
    (g : IGraphicsDevice) (hd : s.s_GraphicsDevice = some g) (h1 : g.device ≠ 0)
    (h2 : g.swapChain ≠ 0) :
    deviceAfterRefetch h s g = g.device ∧ swapChainAfterRefetch h s g = g.swapChain ∧
      afterRefetch h s g = s := by
  obtain ⟨ui, ug, u11, u12, gd, k, ini, st, pc, cc, pcs, sts⟩ := s
  simp only at hd
  subst hd
  simp [deviceAfterRefetch, swapChainAfterRefetch, afterRefetch, deviceFetches,
    swapChainFetches, h1, h2]

/-- With both handles already stored, validation succeeds and leaves the state as it is. -/
theorem IsContextValid_of_handles {κ : Type} (h : Host) (s : PluginState κ)
    (g : IGraphicsDevice) (hg : s.s_UnityGraphics ≠ 0) (hd : s.s_GraphicsDevice = some g)
    (hr : supportedRenderer h.renderer) (h1 : g.device ≠ 0) (h2 : g.swapChain ≠ 0) :
    IsContextValid h s = .ok (true, s) := by
  obtain ⟨e1, e2, e3⟩ := afterRefetch_of_handles h s g hd h1 h2
  rw [IsContextValid_of_checks h s g hg hd hr, e1, e2, e3, if_neg h1, if_neg h2]

/-- Running the validation again on the state it left, under the same host, returns the same
boolean and leaves the same status. -/
theorem IsContextValid_again {κ : Type} (h : Host) (s s1 : PluginState κ) (b : Bool)
    (hres : IsContextValid h s = .ok (b, s1)) :
    ∃ s2, IsContextValid h s1 = .ok (b, s2) ∧
      s2.s_InitializationStatus = s1.s_InitializationStatus := by
  by_cases hg : s.s_UnityGraphics = 0
  · rw [IsContextValid_of_no_graphics h s hg] at hres
    simp only [Except.ok.injEq, Prod.mk.injEq] at hres
    obtain ⟨rfl, rfl⟩ := hres
    exact ⟨s, IsContextValid_of_no_graphics h s hg, rfl⟩
  · by_cases hd : s.s_GraphicsDevice = none
    · rw [IsContextValid_of_no_device h s hd] at hres
      simp only [Except.ok.injEq, Prod.mk.injEq] at hres
      obtain ⟨rfl, rfl⟩ := hres
      exact ⟨s, IsContextValid_of_no_device h s hd, rfl⟩
    · obtain ⟨g, hd⟩ := Option.ne_none_iff_exists'.mp hd
      by_cases hr : supportedRenderer h.renderer
      · rw [IsContextValid_of_checks h s g hg hd hr] at hres
        have hd1 : ∀ st, ({ afterRefetch h s g with s_InitializationStatus := st } :
            PluginState κ).s_GraphicsDevice = some
              { g with
                device := deviceAfterRefetch h s g
                swapChain := swapChainAfterRefetch h s g } := fun _ => rfl
        have e1 : ∀ st, deviceAfterRefetch h
            ({ afterRefetch h s g with s_InitializationStatus := st } : PluginState κ)
            { g with
              device := deviceAfterRefetch h s g
              swapChain := swapChainAfterRefetch h s g } = deviceAfterRefetch h s g := by
          intro st
          simp only [deviceAfterRefetch, afterRefetch]
          split_ifs <;> simp_all
        have e2 : ∀ st, swapChainAfterRefetch h
            ({ afterRefetch h s g with s_InitializationStatus := st } : PluginState κ)
            { g with
              device := deviceAfterRefetch h s g
              swapChain := swapChainAfterRefetch h s g } = swapChainAfterRefetch h s g := by
          intro st
          simp only [swapChainAfterRefetch, afterRefetch]
          split_ifs <;> simp_all
        have hcv : ∀ st, IsContextValid h
            ({ afterRefetch h s g with s_InitializationStatus := st } : PluginState κ) =
            .ok
              (if deviceAfterRefetch h s g = 0 then
                (false,
                  { afterRefetch h
                      ({ afterRefetch h s g with s_InitializationStatus := st } :
                        PluginState κ)
                      { g with
                        device := deviceAfterRefetch h s g
                        swapChain := swapChainAfterRefetch h s g } with
                    s_InitializationStatus := .MissingDevice })
              else if swapChainAfterRefetch h s g = 0 then
                (false,
                  { afterRefetch h
                      ({ afterRefetch h s g with s_InitializationStatus := st } :
                        PluginState κ)
                      { g with
                        device := deviceAfterRefetch h s g
                        swapChain := swapChainAfterRefetch h s g } with
                    s_InitializationStatus := .MissingSwapChain })
              else
                (true,
                  afterRefetch h
                    ({ afterRefetch h s g with s_InitializationStatus := st } :
                      PluginState κ)
                    { g with
                      device := deviceAfterRefetch h s g
                      swapChain := swapChainAfterRefetch h s g })) := by
          intro st
          have := IsContextValid_of_checks h
            ({ afterRefetch h s g with s_InitializationStatus := st } : PluginState κ)
            { g with
              device := deviceAfterRefetch h s g
              swapChain := swapChainAfterRefetch h s g } hg (hd1 st) hr
          rw [e1, e2] at this
          exact this
        split_ifs at hres with h1 h2 <;>
          simp only [Except.ok.injEq, Prod.mk.injEq] at hres <;>
          obtain ⟨rfl, rfl⟩ := hres
        · have := hcv .MissingDevice
          rw [if_pos h1] at this
          exact ⟨_, this, rfl⟩
        · have := hcv .MissingSwapChain
          rw [if_neg h1, if_pos h2] at this
          exact ⟨_, this, rfl⟩
        · have := hcv s.s_InitializationStatus
          rw [if_neg h1, if_neg h2] at this
          exact ⟨_, this, rfl⟩
      · rw [IsContextValid_of_unsupported h s hr] at hres
        simp only [Except.ok.injEq, Prod.mk.injEq] at hres
        obtain ⟨rfl, rfl⟩ := hres
        exact ⟨s, IsContextValid_of_unsupported h s hr, rfl⟩

/-- `QuadroSyncDispose` when the validation succeeds. -/
theorem QuadroSyncDispose_of_valid {κ : Type} (c : PluginCSwapGroupClient κ) (h : Host)
    (s s1 : PluginState κ) (g : IGraphicsDevice)
    (hres : IsContextValid h s = .ok (true, s1)) (hg : s1.s_GraphicsDevice = some g) :
    QuadroSyncDispose c h s = .ok
      { s1 with
        s_SwapGroupClient :=
          c.DisposeWorkStation (c.Dispose s1.s_SwapGroupClient g.device g.swapChain)
        clientCalls := s1.clientCalls ++ [.Dispose g.device g.swapChain, .DisposeWorkStation]
        s_InitializationStatus := .NotInitialized } := by
  simp [QuadroSyncDispose, hres, derefGraphicsDevice, hg]

/-- `QuadroSyncDispose` when the validation fails. -/
theorem QuadroSyncDispose_of_invalid {κ : Type} (c : PluginCSwapGroupClient κ) (h : Host)
    (s s1 : PluginState κ) (hres : IsContextValid h s = .ok (false, s1)) :
    QuadroSyncDispose c h s = .ok s1 := by
  simp [QuadroSyncDispose, hres]

/-- Counterexample to C8 as stated: after `UnityPluginLoad` was given a null interface table,
and after a `QuadroSyncInitialize` that stopped at an unsupported renderer, two calls of
`QuadroSyncDispose` leave the failure status in place; and on a host whose provider hands out
null handles `QuadroSyncDispose` itself records `MissingDevice`. -/
theorem QuadroSyncDispose_twice_counterexample :
    (QuadroSyncDispose (fixedClient .Success 0 true) hostD3D11 nullTableState >>=
        QuadroSyncDispose (fixedClient .Success 0 true) hostD3D11) = .ok nullTableState ∧
    nullTableState.s_InitializationStatus = .FailedUnityInterfacesNull ∧
    (QuadroSyncDispose (fixedClient .Success 0 true) hostNullRenderer unsupportedState >>=
        QuadroSyncDispose (fixedClient .Success 0 true) hostNullRenderer) =
      .ok unsupportedState ∧
    unsupportedState.s_InitializationStatus = .UnsupportedGraphicApi ∧
    nullHandlesState.s_InitializationStatus = .NotInitialized ∧
    (QuadroSyncDispose (fixedClient .Success 0 true) hostNoHandles nullHandlesState >>=
        QuadroSyncDispose (fixedClient .Success 0 true) hostNoHandles).map
      (fun s => s.s_InitializationStatus) = .ok .MissingDevice := by
  refine ⟨rfl, rfl, rfl, rfl, rfl, rfl⟩

/-- C8 (amended): when the context is valid, `QuadroSyncDispose` leaves the status equal to
`NotInitialized` whatever it was before, and a second `QuadroSyncDispose`, under any host,
leaves it `NotInitialized` again; when the context is invalid, `QuadroSyncDispose` returns the
state the validation left and does not reset the status; and in every state, under an
unchanged host, both calls complete and the second leaves the status exactly as the first
left it. -/
theorem QuadroSyncDispose_twice {κ : Type} (c : PluginCSwapGroupClient κ) (h : Host)
    (s : PluginState κ) :
    (∀ s1, IsContextValid h s = .ok (true, s1) →
      ∃ s2, QuadroSyncDispose c h s = .ok s2 ∧ s2.s_InitializationStatus = .NotInitialized ∧
        ∀ h', ∃ s3, QuadroSyncDispose c h' s2 = .ok s3 ∧
          s3.s_InitializationStatus = .NotInitialized) ∧
    (∀ s1, IsContextValid h s = .ok (false, s1) → QuadroSyncDispose c h s = .ok s1) ∧
    (∃ s2 s3, QuadroSyncDispose c h s = .ok s2 ∧ QuadroSyncDispose c h s2 = .ok s3 ∧
      s3.s_InitializationStatus = s2.s_InitializationStatus) := by
  have part1 : ∀ s1, IsContextValid h s = .ok (true, s1) →
      ∃ s2, QuadroSyncDispose c h s = .ok s2 ∧ s2.s_InitializationStatus = .NotInitialized ∧
        ∀ h', ∃ s3, QuadroSyncDispose c h' s2 = .ok s3 ∧
          s3.s_InitializationStatus = .NotInitialized := by
    intro s1 hres
    obtain ⟨g, hg1, hdv, hsc, -⟩ := IsContextValid_true_device h s s1 hres
    obtain ⟨hug, -⟩ := IsContextValid_true_checks h s s1 hres
    have hfr := IsContextValid_frame h s s1 true hres
    refine ⟨_, QuadroSyncDispose_of_valid c h s s1 g hres hg1, rfl, ?_⟩
    intro h'
    by_cases hr' : supportedRenderer h'.renderer
    · have hv := IsContextValid_of_handles h'
        ({ s1 with
          s_SwapGroupClient :=
            c.DisposeWorkStation (c.Dispose s1.s_SwapGroupClient g.device g.swapChain)
          clientCalls := s1.clientCalls ++
            [.Dispose g.device g.swapChain, .DisposeWorkStation]
          s_InitializationStatus := .NotInitialized } : PluginState κ) g
        (by rw [← hfr.2.2.2.1] at hug; exact hug) hg1 hr' hdv hsc
      exact ⟨_, QuadroSyncDispose_of_valid c h' _ _ g hv hg1, rfl⟩
    · exact ⟨_, QuadroSyncDispose_of_invalid c h' _ _
        (IsContextValid_of_unsupported h' _ hr'), rfl⟩
  refine ⟨part1, fun s1 hres => QuadroSyncDispose_of_invalid c h s s1 hres, ?_⟩
  obtain ⟨b, s1, hres⟩ := IsContextValid_total h s
  cases b
  · obtain ⟨s2, hres2, hst⟩ := IsContextValid_again h s s1 false hres
    exact ⟨s1, s2, QuadroSyncDispose_of_invalid c h s s1 hres,
      QuadroSyncDispose_of_invalid c h s1 s2 hres2, hst⟩
  · obtain ⟨s2, h2, hn, hnext⟩ := part1 s1 hres
    obtain ⟨s3, h3, hn3⟩ := hnext h
    exact ⟨s2, s3, h2, h3, hn3.trans hn.symm⟩

/-- Witness of C8 (amended): two calls of `QuadroSyncDispose` on an initialised plugin. -/
theorem QuadroSyncDispose_twice_witness :
    IsContextValid hostD3D11 initializedState = .ok (true, initializedState) ∧
    (QuadroSyncDispose (fixedClient .Success 0 true) hostD3D11 initializedState >>=
        QuadroSyncDispose (fixedClient .Success 0 true) hostD3D11).map
      (fun s => s.s_InitializationStatus) = .ok .NotInitialized ∧
    ∃ s2, QuadroSyncDispose (fixedClient .Success 0 true) hostD3D11 initializedState =
        .ok s2 ∧
      s2.s_InitializationStatus = .NotInitialized ∧
      ∀ h', ∃ s3, QuadroSyncDispose (fixedClient .Success 0 true) h' s2 = .ok s3 ∧
        s3.s_InitializationStatus = .NotInitialized :=
  ⟨rfl, rfl,
    (QuadroSyncDispose_twice (fixedClient .Success 0 true) hostD3D11 initializedState).1
      initializedState rfl⟩

/-! ## `QuadroSyncQueryFrameCount` -/

/-- The conversion to `int` yields the 32-bit two's-complement value congruent to its
argument. -/
theorem toInt32_spec (n : Nat) :
    -(2 : Int) ^ 31 ≤ toInt32 n ∧ toInt32 n < (2 : Int) ^ 31 ∧
      toInt32 n % (2 : Int) ^ 32 = (n : Int) % (2 : Int) ^ 32 := by
  unfold toInt32
  split_ifs <;> omega

/-- C9: `QuadroSyncQueryFrameCount` always completes.  When the context is valid and the
out-pointer is non-null it invokes the client's `QueryFrameCount` once and stores its result,
converted to a 32-bit `int`, through the out-pointer; in every other case it makes no store
and does not invoke the client. -/
theorem QuadroSyncQueryFrameCount_out_parameter {κ : Type} (c : PluginCSwapGroupClient κ)
    (h : Host) (value : Ptr) (s : PluginState κ) :
    ∃ b s1 s', IsContextValid h s = .ok (b, s1) ∧
      QuadroSyncQueryFrameCount c h value s = .ok s' ∧
      (b = true ∧ value ≠ 0 →
        ∃ g, s1.s_GraphicsDevice = some g ∧
          s'.stores = s.stores ++
            [(value, toInt32 (c.QueryFrameCount s.s_SwapGroupClient g.device).1)] ∧
          s'.clientCalls = s.clientCalls ++ [.QueryFrameCount g.device] ∧
          s'.s_SwapGroupClient = (c.QueryFrameCount s.s_SwapGroupClient g.device).2 ∧
          -(2 : Int) ^ 31 ≤ toInt32 (c.QueryFrameCount s.s_SwapGroupClient g.device).1 ∧
          toInt32 (c.QueryFrameCount s.s_SwapGroupClient g.device).1 < (2 : Int) ^ 31 ∧
          toInt32 (c.QueryFrameCount s.s_SwapGroupClient g.device).1 % (2 : Int) ^ 32 =
            ((c.QueryFrameCount s.s_SwapGroupClient g.device).1 : Int) % (2 : Int) ^ 32) ∧
      (¬ (b = true ∧ value ≠ 0) →
        s' = s1 ∧ s'.stores = s.stores ∧ s'.clientCalls = s.clientCalls ∧
          s'.s_SwapGroupClient = s.s_SwapGroupClient) ∧
      (s'.stores ≠ s.stores ↔ (b = true ∧ value ≠ 0)) := by
  obtain ⟨b, s1, hres⟩ := IsContextValid_total h s
  have hf := IsContextValid_frame h s s1 b hres
  cases b
  · refine ⟨false, s1, s1, hres, by simp [QuadroSyncQueryFrameCount, hres], by simp,
      fun _ => ⟨rfl, hf.2.2.1, hf.1, hf.2.1⟩, by simp [hf.2.2.1]⟩
  · obtain ⟨g, hg, -, -, -⟩ := IsContextValid_true_device h s s1 hres
    by_cases hv : value = 0
    · refine ⟨true, s1, s1, hres, by simp [QuadroSyncQueryFrameCount, hres, hv],
        by simp [hv], fun _ => ⟨rfl, hf.2.2.1, hf.1, hf.2.1⟩, by simp [hf.2.2.1, hv]⟩
    · refine ⟨true, s1,
        { s1 with
          s_SwapGroupClient := (c.QueryFrameCount s1.s_SwapGroupClient g.device).2
          clientCalls := s1.clientCalls ++ [.QueryFrameCount g.device]
          stores := s1.stores ++
            [(value, toInt32 (c.QueryFrameCount s1.s_SwapGroupClient g.device).1)] },
        hres, by simp [QuadroSyncQueryFrameCount, hres, hv, derefGraphicsDevice, hg],
        fun _ => ⟨g, hg, ?_, ?_, ?_, toInt32_spec _⟩, by simp [hv], by simp [hv, hf.2.2.1]⟩
      · simp [hf.2.2.1, hf.2.1]
      · simp [hf.1]
      · simp [hf.2.1]

/-! ## `OnRenderEvent` -/

/-- An event code outside 0..8 matches no `case` label. -/
theorem EQuadroSyncRenderEvent.ofInt_none (eventID : Int) (hout : eventID < 0 ∨ 8 < eventID) :
    EQuadroSyncRenderEvent.ofInt eventID = none := by
  have h0 : ((0 : Int) == eventID) = false := by simp; omega
  have h1 : ((1 : Int) == eventID) = false := by simp; omega
  have h2 : ((2 : Int) == eventID) = false := by simp; omega
  have h3 : ((3 : Int) == eventID) = false := by simp; omega
  have h4 : ((4 : Int) == eventID) = false := by simp; omega
  have h5 : ((5 : Int) == eventID) = false := by simp; omega
  have h6 : ((6 : Int) == eventID) = false := by simp; omega
  have h7 : ((7 : Int) == eventID) = false := by simp; omega
  have h8 : ((8 : Int) == eventID) = false := by simp; omega
  simp only [EQuadroSyncRenderEvent.ofInt, EQuadroSyncRenderEvent.all, List.find?,
    EQuadroSyncRenderEvent.toInt, h0, h1, h2, h3, h4, h5, h6, h7, h8]

/-- C10: `OnRenderEvent` dispatches event code 0 to `QuadroSyncInitialize`, 1 to
`QuadroSyncQueryFrameCount` with the payload as out-pointer, 2 to `QuadroSyncResetFrameCount`,
3 to `QuadroSyncDispose`, 4..7 to `QuadroSyncEnableSystem`, `QuadroSyncEnableSwapGroup`,
`QuadroSyncEnableSwapBarrier` and `QuadroSyncEnableSyncCounter` with the boolean argument true
exactly when the payload is non-zero, and 8 to `QuadroSyncSkipSyncForNextFrame`; for every
other event code it invokes nothing and leaves the state unchanged. -/
theorem OnRenderEvent_dispatch {κ : Type} (c : PluginCSwapGroupClient κ) (ndebug : Bool)
    (h : Host) (data : Ptr) (s : PluginState κ) :
    OnRenderEvent c ndebug h 0 data s = QuadroSyncInitialize c ndebug h s ∧
    OnRenderEvent c ndebug h 1 data s = QuadroSyncQueryFrameCount c h data s ∧
    OnRenderEvent c ndebug h 2 data s = QuadroSyncResetFrameCount c h s ∧
    OnRenderEvent c ndebug h 3 data s = QuadroSyncDispose c h s ∧
    OnRenderEvent c ndebug h 4 data s = QuadroSyncEnableSystem c h (decide (data ≠ 0)) s ∧
    OnRenderEvent c ndebug h 5 data s = QuadroSyncEnableSwapGroup c h (decide (data ≠ 0)) s ∧
    OnRenderEvent c ndebug h 6 data s =
      QuadroSyncEnableSwapBarrier c h (decide (data ≠ 0)) s ∧
    OnRenderEvent c ndebug h 7 data s =
      QuadroSyncEnableSyncCounter c h (decide (data ≠ 0)) s ∧
    OnRenderEvent c ndebug h 8 data s = QuadroSyncSkipSyncForNextFrame c h s ∧
    (∀ eventID : Int, eventID < 0 ∨ 8 < eventID →
      OnRenderEvent c ndebug h eventID data s = .ok s) := by
  have hb : ptrToBool data = decide (data ≠ 0) := by
    unfold ptrToBool
    by_cases hd : data = 0 <;> simp [hd]
  refine ⟨rfl, rfl, rfl, rfl, ?_, ?_, ?_, ?_, rfl, ?_⟩
  · rw [← hb]; rfl
  · rw [← hb]; rfl
  · rw [← hb]; rfl
  · rw [← hb]; rfl
  · intro eventID hout
    simp only [OnRenderEvent, EQuadroSyncRenderEvent.ofInt_none eventID hout]

/-- Witness of C10: event codes 9 and -1 with a non-null payload on an initialised plugin, and
event code 7 with payload 1. -/
theorem OnRenderEvent_dispatch_witness :
    OnRenderEvent (fixedClient .Success 0 true) true hostD3D11 9 55 initializedState =
      .ok initializedState ∧
    OnRenderEvent (fixedClient .Success 0 true) true hostD3D11 (-1) 55 initializedState =
      .ok initializedState ∧
    OnRenderEvent (fixedClient .Success 0 true) true hostD3D11 7 1 initializedState =
      QuadroSyncEnableSyncCounter (fixedClient .Success 0 true) hostD3D11 true
        initializedState :=
  have hd := OnRenderEvent_dispatch (fixedClient .Success 0 true) true hostD3D11 55
    initializedState
  ⟨hd.2.2.2.2.2.2.2.2.2 9 (Or.inr (by decide)),
    hd.2.2.2.2.2.2.2.2.2 (-1) (Or.inl (by decide)),
    (OnRenderEvent_dispatch (fixedClient .Success 0 true) true hostD3D11 1
      initializedState).2.2.2.2.2.2.2.1⟩

/-- `QuadroSyncQueryFrameCount` evaluated: on an initialised plugin a frame count of
`2 ^ 32 - 1` is stored as `-1` through the out-pointer `55`; with a null out-pointer, and
before `UnityPluginLoad`, nothing is stored and the client is not invoked. -/
theorem QuadroSyncQueryFrameCount_evaluated :
    QuadroSyncQueryFrameCount (fixedClient .Success (2 ^ 32 - 1) true) hostD3D11 55
        initializedState =
      .ok { initializedState with
            s_SwapGroupClient := 3
            clientCalls := [.SetupWorkStation, .Initialize 7 9, .QueryFrameCount 7]
            stores := [(55, -1)] } ∧
    QuadroSyncQueryFrameCount (fixedClient .Success (2 ^ 32 - 1) true) hostD3D11 0
        initializedState = .ok initializedState ∧
    QuadroSyncQueryFrameCount (fixedClient .Success (2 ^ 32 - 1) true) hostD3D11 55
        (initialState 0) = .ok (initialState 0) := by
  refine ⟨rfl, rfl, rfl⟩

/-! ## `GetState` -/

/-- C11: given a snapshot buffer, `GetState` completes, leaves the plugin state exactly as it
was, and writes the numeric code of the current status and the client's swap-group id,
swap-barrier id and present success and failure counts.  The thirteen statuses carry the
codes 0..12 in declaration order, and distinct statuses carry distinct codes. -/
theorem GetState_snapshot {κ : Type} (c : PluginCSwapGroupClient κ) (state : Ptr)
    (s : PluginState κ) (hstate : state ≠ 0) :
    ∃ snapshot s', GetState c state s = .ok (snapshot, s') ∧ s' = s ∧
      snapshot.initializationState = s.s_InitializationStatus.toUInt32 ∧
      snapshot.swapGroupId = c.GetSwapGroupId s.s_SwapGroupClient ∧
      snapshot.swapBarrierId = c.GetSwapBarrierId s.s_SwapGroupClient ∧
      snapshot.presentedFramesSuccess = c.GetPresentSuccessCount s.s_SwapGroupClient ∧
      snapshot.presentedFramesFailed = c.GetPresentFailureCount s.s_SwapGroupClient ∧
      ([QuadroSyncInitializationStatus.NotInitialized, .Initialized,
          .FailedUnityInterfacesNull, .UnsupportedGraphicApi, .MissingDevice,
          .MissingSwapChain, .SwapChainOrBarrierGenericFailure, .NoSwapGroupDetected,
          .QuerySwapGroupFailed, .FailedToJoinSwapGroup, .SwapGroupMismatch,
          .FailedToBindSwapBarrier, .SwapBarrierIdMismatch].map
          QuadroSyncInitializationStatus.toUInt32 = List.range 13) ∧
      (∀ q : QuadroSyncInitializationStatus, q.toUInt32 ≤ 12) ∧
      (∀ q q' : QuadroSyncInitializationStatus, q.toUInt32 = q'.toUInt32 → q = q') := by
  refine ⟨{ initializationState := s.s_InitializationStatus.toUInt32
            swapGroupId := c.GetSwapGroupId s.s_SwapGroupClient
            swapBarrierId := c.GetSwapBarrierId s.s_SwapGroupClient
            presentedFramesSuccess := c.GetPresentSuccessCount s.s_SwapGroupClient
            presentedFramesFailed := c.GetPresentFailureCount s.s_SwapGroupClient }, s,
    by simp [GetState, hstate], rfl, rfl, rfl, rfl, rfl, rfl, by decide, ?_, ?_⟩
  · intro q; cases q <;> simp [QuadroSyncInitializationStatus.toUInt32]
  · intro q q' hq
    cases q <;> cases q' <;> simp_all [QuadroSyncInitializationStatus.toUInt32]

/-- Witness of C11: the snapshot of a plugin whose last `QuadroSyncInitialize` failed to
join the swap group carries the code 9. -/
theorem GetState_snapshot_witness :
    (55 : Ptr) ≠ 0 ∧
    GetState (fixedClient .Success 0 true) 55 failedJoinState =
      .ok ({ initializationState := 9, swapGroupId := 0, swapBarrierId := 0,
             presentedFramesSuccess := 0, presentedFramesFailed := 0 }, failedJoinState) ∧
    ∃ snapshot s', GetState (fixedClient .Success 0 true) 55 failedJoinState =
        .ok (snapshot, s') ∧ s' = failedJoinState ∧
      snapshot.initializationState = failedJoinState.s_InitializationStatus.toUInt32 ∧
      snapshot.swapGroupId =
        (fixedClient .Success 0 true).GetSwapGroupId failedJoinState.s_SwapGroupClient ∧
      snapshot.swapBarrierId =
        (fixedClient .Success 0 true).GetSwapBarrierId failedJoinState.s_SwapGroupClient ∧
      snapshot.presentedFramesSuccess =
        (fixedClient .Success 0 true).GetPresentSuccessCount
          failedJoinState.s_SwapGroupClient ∧
      snapshot.presentedFramesFailed =
        (fixedClient .Success 0 true).GetPresentFailureCount
          failedJoinState.s_SwapGroupClient ∧
      ([QuadroSyncInitializationStatus.NotInitialized, .Initialized,
          .FailedUnityInterfacesNull, .UnsupportedGraphicApi, .MissingDevice,
          .MissingSwapChain, .SwapChainOrBarrierGenericFailure, .NoSwapGroupDetected,
          .QuerySwapGroupFailed, .FailedToJoinSwapGroup, .SwapGroupMismatch,
          .FailedToBindSwapBarrier, .SwapBarrierIdMismatch].map
          QuadroSyncInitializationStatus.toUInt32 = List.range 13) ∧
      (∀ q : QuadroSyncInitializationStatus, q.toUInt32 ≤ 12) ∧
      (∀ q q' : QuadroSyncInitializationStatus, q.toUInt32 = q'.toUInt32 → q = q') :=
  ⟨by decide, rfl,
    GetState_snapshot (fixedClient .Success 0 true) 55 failedJoinState (by decide)⟩

/-! ## `UnityRenderingExtQuery` -/

/-- With both interface pointers present, `IsContextValid` of the D3D11-only plugin
completes; it touches neither the client nor the interface pointers, and it returns false
when the renderer is not D3D11. -/
theorem D3D11Only.IsContextValid_of_pointers {κ : Type} (h : Host)
    (s : D3D11Only.PluginState κ) (hg : s.s_UnityGraphics ≠ 0)
    (h11 : s.s_UnityGraphicsD3D11 ≠ 0) :
    ∃ valid s1, D3D11Only.IsContextValid h s = .ok (valid, s1) ∧
      s1.clientCalls = s.clientCalls ∧ s1.s_SwapGroupClient = s.s_SwapGroupClient ∧
      s1.stores = s.stores ∧ s1.s_UnityGraphicsD3D11 = s.s_UnityGraphicsD3D11 ∧
      s1.s_UnityGraphics = s.s_UnityGraphics ∧
      (h.renderer ≠ .kUnityGfxRendererD3D11 → valid = false ∧ s1 = s) ∧
      (valid = true ↔ h.renderer = .kUnityGfxRendererD3D11 ∧ s1.s_D3D11Device ≠ 0 ∧
        s1.s_D3D11SwapChain ≠ 0) := by
  unfold D3D11Only.IsContextValid
  rw [if_neg hg]
  by_cases hr : h.renderer = .kUnityGfxRendererD3D11
  · by_cases hd : s.s_D3D11Device = 0 <;> by_cases hs : s.s_D3D11SwapChain = 0 <;>
      simp only [hr, hd, hs, h11, ne_eq, not_true_eq_false, if_false, if_true,
        not_false_eq_true] <;>
      exact ⟨_, _, rfl, rfl, rfl, rfl, rfl, rfl, by simp, by simp_all⟩
  · rw [if_pos hr]
    exact ⟨false, s, rfl, rfl, rfl, rfl, rfl, rfl, fun _ => ⟨rfl, rfl⟩, by simp [hr]⟩

/-- C12: the present-override hook of the unified plugin always completes; it returns false
for every query type other than override-present-frame (leaving the state untouched), when
the context validation fails, and when the renderer is unsupported; for
override-present-frame with a valid context it invokes the client's `Render` once and returns
exactly what `Render` returned.  `Render` is not invoked in any other case, so a true result
means that `Render` was invoked and returned true.  The hook of the D3D11-only plugin, which
validates before it looks at the query type, returns the same booleans whenever its two
interface pointers are present. -/
theorem UnityRenderingExtQuery_result {κ κd : Type} (c : PluginCSwapGroupClient κ)
    (cd : D3D11Only.PluginCSwapGroupClient κd) (h : Host) (query : UnityRenderingExtQueryType)
    (s : PluginState κ) (sd : D3D11Only.PluginState κd) (hg : sd.s_UnityGraphics ≠ 0)
    (h11 : sd.s_UnityGraphicsD3D11 ≠ 0) :
    (∃ valid s1 b s', IsContextValid h s = .ok (valid, s1) ∧
      UnityRenderingExtQuery c h query s = .ok (b, s') ∧
      (query ≠ .kUnityRenderingExtQueryOverridePresentFrame → b = false ∧ s' = s) ∧
      (valid = false → b = false) ∧
      (¬ supportedRenderer h.renderer → b = false) ∧
      (query = .kUnityRenderingExtQueryOverridePresentFrame → valid = true →
        ∃ g, s1.s_GraphicsDevice = some g ∧ b = (c.Render s.s_SwapGroupClient g).1 ∧
          s'.clientCalls = s.clientCalls ++ [.Render g]) ∧
      (¬ (query = .kUnityRenderingExtQueryOverridePresentFrame ∧ valid = true) →
        s'.clientCalls = s.clientCalls ∧ s'.s_SwapGroupClient = s.s_SwapGroupClient) ∧
      (b = true → query = .kUnityRenderingExtQueryOverridePresentFrame ∧ valid = true)) ∧
    (∃ valid s1 b s', D3D11Only.IsContextValid h sd = .ok (valid, s1) ∧
      D3D11Only.UnityRenderingExtQuery cd h query sd = .ok (b, s') ∧
      (query ≠ .kUnityRenderingExtQueryOverridePresentFrame → b = false) ∧
      (valid = false → b = false) ∧
      (h.renderer ≠ .kUnityGfxRendererD3D11 → b = false) ∧
      (query = .kUnityRenderingExtQueryOverridePresentFrame → valid = true →
        b = (cd.Render sd.s_SwapGroupClient s1.s_D3D11Device s1.s_D3D11SwapChain
          h.d3d11SyncInterval h.d3d11PresentFlags).1 ∧
        s'.clientCalls = sd.clientCalls ++
          [.Render s1.s_D3D11Device s1.s_D3D11SwapChain h.d3d11SyncInterval
            h.d3d11PresentFlags]) ∧
      (¬ (query = .kUnityRenderingExtQueryOverridePresentFrame ∧ valid = true) →
        s'.clientCalls = sd.clientCalls ∧ s'.s_SwapGroupClient = sd.s_SwapGroupClient) ∧
      (b = true → query = .kUnityRenderingExtQueryOverridePresentFrame ∧ valid = true)) := by
  constructor
  · obtain ⟨valid, s1, hres⟩ := IsContextValid_total h s
    have hf := IsContextValid_frame h s s1 valid hres
    by_cases hq : query = .kUnityRenderingExtQueryOverridePresentFrame
    · cases valid
      · refine ⟨false, s1, false, s1, hres, by simp [UnityRenderingExtQuery, hq, hres],
          by simp [hq], by simp, by simp, by simp, fun _ => ⟨hf.1, hf.2.1⟩, by simp⟩
      · obtain ⟨g, hgd, -, -, -⟩ := IsContextValid_true_device h s s1 hres
        obtain ⟨-, hsup⟩ := IsContextValid_true_checks h s s1 hres
        refine ⟨true, s1, (c.Render s1.s_SwapGroupClient g).1,
          { s1 with
            s_SwapGroupClient := (c.Render s1.s_SwapGroupClient g).2
            clientCalls := s1.clientCalls ++ [.Render g] },
          hres, by simp [UnityRenderingExtQuery, hq, hres, derefGraphicsDevice, hgd],
          by simp [hq], by simp, fun hn => absurd hsup hn,
          fun _ _ => ⟨g, hgd, by rw [hf.2.1], by simp [hf.1]⟩, by simp [hq],
          fun _ => ⟨hq, rfl⟩⟩
    · refine ⟨valid, s1, false, s, hres, by simp [UnityRenderingExtQuery, hq],
        fun _ => ⟨rfl, rfl⟩, by simp, by simp, fun hq' => absurd hq' hq,
        fun _ => ⟨rfl, rfl⟩, by simp⟩
  · obtain ⟨valid, s1, hres, hcc, hcl, -, hp11, -, hren, -⟩ :=
      D3D11Only.IsContextValid_of_pointers h sd hg h11
    have h11' : s1.s_UnityGraphicsD3D11 ≠ 0 := by rw [hp11]; exact h11
    cases valid
    · refine ⟨false, s1, false, s1, hres,
        by simp [D3D11Only.UnityRenderingExtQuery, hres], by simp, by simp, by simp,
        by simp, fun _ => ⟨hcc, hcl⟩, by simp⟩
    · have hr : h.renderer = .kUnityGfxRendererD3D11 := by
        by_contra hne
        have := (hren hne).1
        simp at this
      by_cases hq : query = .kUnityRenderingExtQueryOverridePresentFrame
      · refine ⟨true, s1,
          (cd.Render s1.s_SwapGroupClient s1.s_D3D11Device s1.s_D3D11SwapChain
            h.d3d11SyncInterval h.d3d11PresentFlags).1,
          { s1 with
            s_SwapGroupClient :=
              (cd.Render s1.s_SwapGroupClient s1.s_D3D11Device s1.s_D3D11SwapChain
                h.d3d11SyncInterval h.d3d11PresentFlags).2
            clientCalls := s1.clientCalls ++
              [.Render s1.s_D3D11Device s1.s_D3D11SwapChain h.d3d11SyncInterval
                h.d3d11PresentFlags] },
          hres, by simp [D3D11Only.UnityRenderingExtQuery, hres, hq, h11'],
          by simp [hq], by simp, fun hn => absurd hr hn,
          fun _ _ => ⟨by rw [hcl], by simp [hcc]⟩, by simp [hq], fun _ => ⟨hq, rfl⟩⟩
      · refine ⟨true, s1, false, s1, hres,
          by simp [D3D11Only.UnityRenderingExtQuery, hres, hq], by simp, by simp, by simp,
          fun hq' => absurd hq' hq, fun _ => ⟨hcc, hcl⟩, by simp⟩

/-- Witness of C12: the hooks of both plugins on an initialised plugin whose client presents
successfully, and the unified hook for another query type. -/
theorem UnityRenderingExtQuery_result_witness :
    D3D11Only.loadedState.s_UnityGraphics ≠ 0 ∧
    D3D11Only.loadedState.s_UnityGraphicsD3D11 ≠ 0 ∧
    D3D11Only.UnityPluginLoad hostD3D11 1 (D3D11Only.initialState 0) =
      .ok D3D11Only.loadedState ∧
    (UnityRenderingExtQuery (fixedClient .Success 0 true) hostD3D11
        .kUnityRenderingExtQueryOverridePresentFrame initializedState).map Prod.fst =
      .ok true ∧
    (UnityRenderingExtQuery (fixedClient .Success 0 false) hostD3D11
        .kUnityRenderingExtQueryOverridePresentFrame initializedState).map Prod.fst =
      .ok false ∧
    (D3D11Only.UnityRenderingExtQuery (D3D11Only.fixedClient 0 true) hostD3D11
        .kUnityRenderingExtQueryOverridePresentFrame D3D11Only.loadedState).map Prod.fst =
      .ok true ∧
    (∃ b s', UnityRenderingExtQuery (fixedClient .Success 0 true) hostD3D11
        .kUnityRenderingExtQueryOverrideViewport initializedState = .ok (b, s') ∧
      b = false ∧ s' = initializedState) ∧
    (∃ b s', D3D11Only.UnityRenderingExtQuery (D3D11Only.fixedClient 0 true) hostD3D11
        .kUnityRenderingExtQueryOverrideViewport D3D11Only.loadedState = .ok (b, s') ∧
      b = false) :=
  have hw := UnityRenderingExtQuery_result (fixedClient .Success 0 true)
    (D3D11Only.fixedClient 0 true) hostD3D11 .kUnityRenderingExtQueryOverrideViewport
    initializedState D3D11Only.loadedState (by decide) (by decide)
  ⟨by decide, by decide, rfl, rfl, rfl, rfl,
    (let ⟨_, _, b, s', _, hq, hne, _⟩ := hw.1
     ⟨b, s', hq, hne (by decide)⟩),
    (let ⟨_, _, b, s', _, hq, hne, _⟩ := hw.2
     ⟨b, s', hq, hne (by decide)⟩)⟩

/-! ## Calls in a failed or uninitialised state -/

/-- Without the host graphics interface `QuadroSyncInitialize` dereferences a null pointer:
`InitializeGraphicsDevice` calls `s_UnityGraphics->GetRenderer()` unchecked. -/
theorem QuadroSyncInitialize_of_no_graphics {κ : Type} (c : PluginCSwapGroupClient κ)
    (ndebug : Bool) (h : Host) (s : PluginState κ) (hg : s.s_UnityGraphics = 0) :
    QuadroSyncInitialize c ndebug h s = .error .NullDereference := by
  simp [QuadroSyncInitialize, InitializeGraphicsDevice, hg]

/-- Every operation that validates first completes in every state, and so does the
present-override hook. -/
theorem validated_operations_complete {κ : Type} (c : PluginCSwapGroupClient κ) (h : Host)
    (s : PluginState κ) :
    (∀ value, ∃ s', QuadroSyncQueryFrameCount c h value s = .ok s') ∧
    (∃ s', QuadroSyncResetFrameCount c h s = .ok s') ∧
    (∃ s', QuadroSyncDispose c h s = .ok s') ∧
    (∀ value, ∃ s', QuadroSyncEnableSystem c h value s = .ok s') ∧
    (∀ value, ∃ s', QuadroSyncEnableSwapGroup c h value s = .ok s') ∧
    (∀ value, ∃ s', QuadroSyncEnableSwapBarrier c h value s = .ok s') ∧
    (∀ value, ∃ s', QuadroSyncEnableSyncCounter c h value s = .ok s') ∧
    (∃ s', QuadroSyncSkipSyncForNextFrame c h s = .ok s') ∧
    (∀ query, ∃ r, UnityRenderingExtQuery c h query s = .ok r) := by
  obtain ⟨valid, s1, hres⟩ := IsContextValid_total h s
  cases valid
  · refine ⟨fun value => ⟨s1, by simp [QuadroSyncQueryFrameCount, hres]⟩,
      ⟨s1, by simp [QuadroSyncResetFrameCount, hres]⟩,
      ⟨s1, by simp [QuadroSyncDispose, hres]⟩,
      fun value => ⟨s1, by simp [QuadroSyncEnableSystem, hres]⟩,
      fun value => ⟨s1, by simp [QuadroSyncEnableSwapGroup, hres]⟩,
      fun value => ⟨s1, by simp [QuadroSyncEnableSwapBarrier, hres]⟩,
      fun value => ⟨s1, by simp [QuadroSyncEnableSyncCounter, hres]⟩,
      ⟨s1, by simp [QuadroSyncSkipSyncForNextFrame, hres]⟩, fun query => ?_⟩
    by_cases hq : query = .kUnityRenderingExtQueryOverridePresentFrame
    · exact ⟨(false, s1), by simp [UnityRenderingExtQuery, hq, hres]⟩
    · exact ⟨(false, s), by simp [UnityRenderingExtQuery, hq]⟩
  · obtain ⟨g, hgd, -, -, -⟩ := IsContextValid_true_device h s s1 hres
    refine ⟨fun value => ?_, ?_, ⟨_, QuadroSyncDispose_of_valid c h s s1 g hres hgd⟩,
      fun value => ?_, fun value => ?_, fun value => ?_, fun value => ?_, ?_,
      fun query => ?_⟩
    · by_cases hv : value = 0
      · exact ⟨s1, by simp [QuadroSyncQueryFrameCount, hres, hv]⟩
      · simp [QuadroSyncQueryFrameCount, hres, hv, derefGraphicsDevice, hgd]
    · simp [QuadroSyncResetFrameCount, hres, derefGraphicsDevice, hgd]
    · simp [QuadroSyncEnableSystem, hres, derefGraphicsDevice, hgd]
    · simp [QuadroSyncEnableSwapGroup, hres, derefGraphicsDevice, hgd]
    · simp [QuadroSyncEnableSwapBarrier, hres, derefGraphicsDevice, hgd]
    · simp [QuadroSyncEnableSyncCounter, hres]
    · simp [QuadroSyncSkipSyncForNextFrame, hres]
    · by_cases hq : query = .kUnityRenderingExtQueryOverridePresentFrame
      · simp [UnityRenderingExtQuery, hq, hres, derefGraphicsDevice, hgd]
      · exact ⟨(false, s), by simp [UnityRenderingExtQuery, hq]⟩

/-- C13 (the code at the failing inputs): before `UnityPluginLoad`, after `UnityPluginLoad`
was given a null interface table, and after a device-shutdown event on an initialised plugin,
`QuadroSyncInitialize`, also when dispatched as event 0, dereferences the null
`s_UnityGraphics`, whereas `QuadroSyncDispose`, dispatched as event 3, completes as a no-op
in the same states. -/
theorem QuadroSyncInitialize_null_dereference :
    (initialState (0 : Nat)).s_UnityGraphics = 0 ∧
    nullTableState.s_UnityGraphics = 0 ∧
    (OnGraphicsDeviceEvent .kUnityGfxDeviceEventShutdown initializedState).s_UnityGraphics
      = 0 ∧
    QuadroSyncInitialize (fixedClient .Success 0 true) true hostD3D11 (initialState 0) =
      .error .NullDereference ∧
    QuadroSyncInitialize (fixedClient .Success 0 true) true hostD3D11 nullTableState =
      .error .NullDereference ∧
    QuadroSyncInitialize (fixedClient .Success 0 true) true hostD3D11
        (OnGraphicsDeviceEvent .kUnityGfxDeviceEventShutdown initializedState) =
      .error .NullDereference ∧
    OnRenderEvent (fixedClient .Success 0 true) true hostD3D11 0 0 nullTableState =
      .error .NullDereference ∧
    OnRenderEvent (fixedClient .Success 0 true) false hostD3D11 0 0 nullTableState =
      .error .NullDereference ∧
    OnRenderEvent (fixedClient .Success 0 true) true hostD3D11 3 0 nullTableState =
      .ok nullTableState := by
  refine ⟨rfl, rfl, rfl, rfl, rfl, rfl, rfl, rfl, rfl⟩

/-! ## The re-fetch made by `IsContextValid` -/

/-- The re-fetch of the device handle makes at most one query, a device query, and none when
the stored handle is non-null; likewise for the swap chain. -/
theorem refetch_queries {κ : Type} (s : PluginState κ) (g : IGraphicsDevice) :
    ((deviceFetches s g ++ swapChainFetches s g).filter isDeviceQuery = deviceFetches s g) ∧
    ((deviceFetches s g ++ swapChainFetches s g).filter isSwapChainQuery =
      swapChainFetches s g) ∧
    (deviceFetches s g).length ≤ 1 ∧ (swapChainFetches s g).length ≤ 1 ∧
    (g.device ≠ 0 → deviceFetches s g = []) ∧
    (g.swapChain ≠ 0 → swapChainFetches s g = []) ∧
    (g.device = 0 → s.s_UnityGraphicsD3D11 ≠ 0 ∨ s.s_UnityGraphicsD3D12 ≠ 0 →
      (deviceFetches s g).length = 1) ∧
    (g.swapChain = 0 → s.s_UnityGraphicsD3D11 ≠ 0 ∨ s.s_UnityGraphicsD3D12 ≠ 0 →
      (swapChainFetches s g).length = 1) := by
  unfold deviceFetches swapChainFetches
  by_cases h1 : g.device = 0 <;> by_cases h2 : g.swapChain = 0 <;>
    by_cases h3 : s.s_UnityGraphicsD3D11 = 0 <;>
    by_cases h4 : s.s_UnityGraphicsD3D12 = 0 <;>
    simp [h1, h2, h3, h4, isDeviceQuery, isSwapChainQuery]

/-- C16: one call of `IsContextValid` completes and adds to the trace of provider queries at
most one device query and at most one swap-chain query and nothing else; a device query is
made only if the stored device handle is null, a swap-chain query only if the stored
swap-chain handle is null, and a stored non-null handle is kept.  When both stored handles are
non-null no query is made and the graphics device is left as it was.  When the checks pass
with a null stored handle and a D3D interface is cached, exactly one query is made for it. -/
theorem IsContextValid_refetch_once {κ : Type} (h : Host) (s : PluginState κ) :
    ∃ b s' added, IsContextValid h s = .ok (b, s') ∧
      s'.providerCalls = s.providerCalls ++ added ∧
      (added.filter isDeviceQuery).length ≤ 1 ∧
      (added.filter isSwapChainQuery).length ≤ 1 ∧
      (∀ p ∈ added, isDeviceQuery p = true ∨ isSwapChainQuery p = true) ∧
      (s.s_GraphicsDevice = none → added = [] ∧ s' = s) ∧
      (∀ g, s.s_GraphicsDevice = some g →
        (g.device ≠ 0 → added.filter isDeviceQuery = []) ∧
        (g.swapChain ≠ 0 → added.filter isSwapChainQuery = []) ∧
        (g.device ≠ 0 → g.swapChain ≠ 0 → added = [] ∧ s'.s_GraphicsDevice = some g) ∧
        (∃ g', s'.s_GraphicsDevice = some g' ∧ (g.device ≠ 0 → g'.device = g.device) ∧
          (g.swapChain ≠ 0 → g'.swapChain = g.swapChain)) ∧
        (s.s_UnityGraphics ≠ 0 → supportedRenderer h.renderer →
          s.s_UnityGraphicsD3D11 ≠ 0 ∨ s.s_UnityGraphicsD3D12 ≠ 0 →
          (g.device = 0 → (added.filter isDeviceQuery).length = 1) ∧
          (g.swapChain = 0 → (added.filter isSwapChainQuery).length = 1))) := by
  have early : ∀ (hres : IsContextValid h s = .ok (false, s))
      (hfail : s.s_UnityGraphics = 0 ∨ s.s_GraphicsDevice = none ∨
        ¬ supportedRenderer h.renderer),
      ∃ b s' added, IsContextValid h s = .ok (b, s') ∧
      s'.providerCalls = s.providerCalls ++ added ∧
      (added.filter isDeviceQuery).length ≤ 1 ∧
      (added.filter isSwapChainQuery).length ≤ 1 ∧
      (∀ p ∈ added, isDeviceQuery p = true ∨ isSwapChainQuery p = true) ∧
      (s.s_GraphicsDevice = none → added = [] ∧ s' = s) ∧
      (∀ g, s.s_GraphicsDevice = some g →
        (g.device ≠ 0 → added.filter isDeviceQuery = []) ∧
        (g.swapChain ≠ 0 → added.filter isSwapChainQuery = []) ∧
        (g.device ≠ 0 → g.swapChain ≠ 0 → added = [] ∧ s'.s_GraphicsDevice = some g) ∧
        (∃ g', s'.s_GraphicsDevice = some g' ∧ (g.device ≠ 0 → g'.device = g.device) ∧
          (g.swapChain ≠ 0 → g'.swapChain = g.swapChain)) ∧
        (s.s_UnityGraphics ≠ 0 → supportedRenderer h.renderer →
          s.s_UnityGraphicsD3D11 ≠ 0 ∨ s.s_UnityGraphicsD3D12 ≠ 0 →
          (g.device = 0 → (added.filter isDeviceQuery).length = 1) ∧
          (g.swapChain = 0 → (added.filter isSwapChainQuery).length = 1))) := by
    intro hres hfail
    refine ⟨false, s, [], hres, by simp, by simp, by simp, by simp, fun _ => ⟨rfl, rfl⟩,
      fun g hg => ⟨fun _ => rfl, fun _ => rfl, fun _ _ => ⟨rfl, hg⟩,
        ⟨g, hg, fun _ => rfl, fun _ => rfl⟩, fun h1 h2 _ => ?_⟩⟩
    rcases hfail with hf | hf | hf
    · exact absurd hf h1
    · rw [hg] at hf; simp at hf
    · exact absurd h2 hf
  by_cases hg : s.s_UnityGraphics = 0
  · exact early (IsContextValid_of_no_graphics h s hg) (Or.inl hg)
  · by_cases hd : s.s_GraphicsDevice = none
    · exact early (IsContextValid_of_no_device h s hd) (Or.inr (Or.inl hd))
    · by_cases hr : supportedRenderer h.renderer
      · obtain ⟨g, hd⟩ := Option.ne_none_iff_exists'.mp hd
        obtain ⟨q1, q2, q3, q4, q5, q6, q7, q8⟩ := refetch_queries s g
        have hdev : ∀ g0 : IGraphicsDevice, g0.device ≠ 0 →
            deviceAfterRefetch h s g0 = g0.device := by
          intro g0 h0; simp [deviceAfterRefetch, h0]
        have hsc : ∀ g0 : IGraphicsDevice, g0.swapChain ≠ 0 →
            swapChainAfterRefetch h s g0 = g0.swapChain := by
          intro g0 h0; simp [swapChainAfterRefetch, h0]
        have hall : ∀ p ∈ deviceFetches s g ++ swapChainFetches s g,
            isDeviceQuery p = true ∨ isSwapChainQuery p = true := by
          intro p hp
          rcases List.mem_append.mp hp with hp | hp
          · left
            have : p ∈ (deviceFetches s g ++ swapChainFetches s g).filter isDeviceQuery := by
              rw [q1]; exact hp
            exact (List.mem_filter.mp this).2
          · right
            have : p ∈ (deviceFetches s g ++ swapChainFetches s g).filter
                isSwapChainQuery := by
              rw [q2]; exact hp
            exact (List.mem_filter.mp this).2
        have hcv := IsContextValid_of_checks h s g hg hd hr
        have main : ∀ b st, IsContextValid h s =
            .ok (b, { afterRefetch h s g with s_InitializationStatus := st }) →
            ∃ b s' added, IsContextValid h s = .ok (b, s') ∧
            s'.providerCalls = s.providerCalls ++ added ∧
            (added.filter isDeviceQuery).length ≤ 1 ∧
            (added.filter isSwapChainQuery).length ≤ 1 ∧
            (∀ p ∈ added, isDeviceQuery p = true ∨ isSwapChainQuery p = true) ∧
            (s.s_GraphicsDevice = none → added = [] ∧ s' = s) ∧
            (∀ g, s.s_GraphicsDevice = some g →
              (g.device ≠ 0 → added.filter isDeviceQuery = []) ∧
              (g.swapChain ≠ 0 → added.filter isSwapChainQuery = []) ∧
              (g.device ≠ 0 → g.swapChain ≠ 0 → added = [] ∧ s'.s_GraphicsDevice = some g) ∧
              (∃ g', s'.s_GraphicsDevice = some g' ∧ (g.device ≠ 0 → g'.device = g.device) ∧
                (g.swapChain ≠ 0 → g'.swapChain = g.swapChain)) ∧
              (s.s_UnityGraphics ≠ 0 → supportedRenderer h.renderer →
                s.s_UnityGraphicsD3D11 ≠ 0 ∨ s.s_UnityGraphicsD3D12 ≠ 0 →
                (g.device = 0 → (added.filter isDeviceQuery).length = 1) ∧
                (g.swapChain = 0 → (added.filter isSwapChainQuery).length = 1))) := by
          intro b st hres
          refine ⟨b, _, deviceFetches s g ++ swapChainFetches s g, hres, rfl,
            by rw [q1]; exact q3, by rw [q2]; exact q4, hall,
            fun hn => by rw [hd] at hn; simp at hn, ?_⟩
          intro g0 hg0
          rw [hd] at hg0
          simp only [Option.some.injEq] at hg0
          subst hg0
          refine ⟨fun h0 => by rw [q1]; exact q5 h0, fun h0 => by rw [q2]; exact q6 h0,
            fun h0 h0' => ⟨by rw [q5 h0, q6 h0']; rfl, ?_⟩,
            ⟨_, rfl, fun h0 => hdev g h0, fun h0 => hsc g h0⟩,
            fun _ _ hc => ⟨fun h0 => by rw [q1]; exact q7 h0 hc,
              fun h0 => by rw [q2]; exact q8 h0 hc⟩⟩
          show some ({ g with
            device := deviceAfterRefetch h s g
            swapChain := swapChainAfterRefetch h s g } : IGraphicsDevice) = some g
          rw [hdev g h0, hsc g h0']
        by_cases h1 : deviceAfterRefetch h s g = 0
        · rw [if_pos h1] at hcv
          exact main _ _ hcv
        · by_cases h2 : swapChainAfterRefetch h s g = 0
          · rw [if_neg h1, if_pos h2] at hcv
            exact main _ _ hcv
          · rw [if_neg h1, if_neg h2] at hcv
            exact main true s.s_InitializationStatus hcv
      · exact early (IsContextValid_of_unsupported h s hr) (Or.inr (Or.inr hr))

/-! ## `QuadroSyncEnableSwapBarrier` without a swap group -/

/-- The status `IsContextValid` leaves is the one it found unless it recorded
`MissingDevice` or `MissingSwapChain`. -/
theorem IsContextValid_status_cases {κ : Type} (h : Host) (s s' : PluginState κ) (b : Bool)
    (hres : IsContextValid h s = .ok (b, s')) :
    s'.s_InitializationStatus = s.s_InitializationStatus ∨
      s'.s_InitializationStatus = .MissingDevice ∨
      s'.s_InitializationStatus = .MissingSwapChain := by
  by_cases hg : s.s_UnityGraphics = 0
  · rw [IsContextValid_of_no_graphics h s hg] at hres
    simp only [Except.ok.injEq, Prod.mk.injEq] at hres
    left; rw [← hres.2]
  · by_cases hd : s.s_GraphicsDevice = none
    · rw [IsContextValid_of_no_device h s hd] at hres
      simp only [Except.ok.injEq, Prod.mk.injEq] at hres
      left; rw [← hres.2]
    · obtain ⟨g, hd⟩ := Option.ne_none_iff_exists'.mp hd
      by_cases hr : supportedRenderer h.renderer
      · rw [IsContextValid_of_checks h s g hg hd hr] at hres
        split_ifs at hres <;> simp only [Except.ok.injEq, Prod.mk.injEq] at hres
        · right; left; rw [← hres.2]
        · right; right; rw [← hres.2]
        · left; rw [← hres.2]; rfl
      · rw [IsContextValid_of_unsupported h s hr] at hres
        simp only [Except.ok.injEq, Prod.mk.injEq] at hres
        left; rw [← hres.2]

/-- With a snapshot buffer `GetState` returns the status code and the client's getters and
leaves the state as it was. -/
theorem GetState_snapshot_of_buffer {κ : Type} (c : PluginCSwapGroupClient κ) (state : Ptr)
    (s : PluginState κ) (hstate : state ≠ 0) :
    ∃ snapshot s', GetState c state s = .ok (snapshot, s') ∧ s' = s ∧
      snapshot.initializationState = s.s_InitializationStatus.toUInt32 ∧
      snapshot.swapGroupId = c.GetSwapGroupId s.s_SwapGroupClient ∧
      snapshot.swapBarrierId = c.GetSwapBarrierId s.s_SwapGroupClient ∧
      snapshot.presentedFramesSuccess = c.GetPresentSuccessCount s.s_SwapGroupClient := by
  refine ⟨{ initializationState := s.s_InitializationStatus.toUInt32
            swapGroupId := c.GetSwapGroupId s.s_SwapGroupClient
            swapBarrierId := c.GetSwapBarrierId s.s_SwapGroupClient
            presentedFramesSuccess := c.GetPresentSuccessCount s.s_SwapGroupClient
            presentedFramesFailed := c.GetPresentFailureCount s.s_SwapGroupClient }, s,
    by simp [GetState, hstate], rfl, rfl, rfl, rfl, rfl⟩

/-- One `QuadroSyncEnableSwapBarrier(true)` call on the specified client while no group is
joined. -/
theorem QuadroSyncEnableSwapBarrier_without_group (hardware : PluginCSwapGroupClient SyncClient)
    (h : Host) (s : PluginState SyncClient) (hgroup : s.s_SwapGroupClient.groupId = 0)
    (hbarrier : s.s_SwapGroupClient.barrierId = 0) :
    ∃ s1, QuadroSyncEnableSwapBarrier (specClient hardware) h true s = .ok s1 ∧
      s1.s_SwapGroupClient.groupId = 0 ∧ s1.s_SwapGroupClient.barrierId = 0 ∧
      (s1.s_InitializationStatus = s.s_InitializationStatus ∨
        s1.s_InitializationStatus = .MissingDevice ∨
        s1.s_InitializationStatus = .MissingSwapChain) ∧
      ((s1.clientCalls = s.clientCalls ∧ s1.s_SwapGroupClient = s.s_SwapGroupClient) ∨
        s1.s_SwapGroupClient.lastResult = some .FailedToBindSwapBarrier) := by
  obtain ⟨valid, s0, hres⟩ := IsContextValid_total h s
  have hf := IsContextValid_frame h s s0 valid hres
  cases valid
  · exact ⟨s0, by simp [QuadroSyncEnableSwapBarrier, hres], by rw [hf.2.1]; exact hgroup,
      by rw [hf.2.1]; exact hbarrier, IsContextValid_status_cases h s s0 false hres,
      Or.inl ⟨hf.1, hf.2.1⟩⟩
  · obtain ⟨g, hgd, -, -, hst⟩ := IsContextValid_true_device h s s0 hres
    have hk : (specClient hardware).EnableSwapBarrier s0.s_SwapGroupClient g.device true =
        { s0.s_SwapGroupClient with lastResult := some .FailedToBindSwapBarrier } := by
      have h0 : s0.s_SwapGroupClient.groupId = 0 := by rw [hf.2.1]; exact hgroup
      simp [specClient, SyncClient.EnableSwapBarrier, h0]
    refine ⟨{ s0 with
        s_SwapGroupClient :=
          (specClient hardware).EnableSwapBarrier s0.s_SwapGroupClient g.device true
        clientCalls := s0.clientCalls ++ [.EnableSwapBarrier g.device true] },
      by simp [QuadroSyncEnableSwapBarrier, hres, derefGraphicsDevice, hgd], ?_, ?_,
      Or.inl hst, Or.inr ?_⟩
    · show ((specClient hardware).EnableSwapBarrier s0.s_SwapGroupClient g.device
        true).groupId = 0
      rw [hk, ← hgroup, ← hf.2.1]
    · show ((specClient hardware).EnableSwapBarrier s0.s_SwapGroupClient g.device
        true).barrierId = 0
      rw [hk, ← hbarrier, ← hf.2.1]
    · show ((specClient hardware).EnableSwapBarrier s0.s_SwapGroupClient g.device
        true).lastResult = some .FailedToBindSwapBarrier
      rw [hk]

/-- Counterexample to C14 as stated: on a plugin whose `QuadroSyncInitialize` found no swap
group (group id 0, status `NoSwapGroupDetected`), two `QuadroSyncEnableSwapBarrier(true)`
calls with a valid context leave the status `NoSwapGroupDetected`, not
`FailedToBindSwapBarrier`. -/
theorem enableSwapBarrier_without_group_counterexample :
    QuadroSyncInitialize (specClient noSwapGroupHardware) true hostD3D11
        (UnityPluginLoad hostD3D11 1 (initialState (freshSyncClient 10000000))) =
      .ok noGroupState ∧
    noGroupState.s_SwapGroupClient.groupId = 0 ∧
    IsContextValid hostD3D11 noGroupState = .ok (true, noGroupState) ∧
    (enableSwapBarrierCalls (specClient noSwapGroupHardware) [hostD3D11, hostD3D11]
        noGroupState).map (fun s => s.s_InitializationStatus) = .ok .NoSwapGroupDetected ∧
    (enableSwapBarrierCalls (specClient noSwapGroupHardware) [hostD3D11, hostD3D11]
        noGroupState).map (fun s => s.clientCalls) =
      .ok [.SetupWorkStation, .Initialize 7 9, .EnableSwapBarrier 7 true,
        .EnableSwapBarrier 7 true] := by
  refine ⟨rfl, rfl, rfl, rfl, rfl⟩

/-- C14 (amended): for every sequence of `QuadroSyncEnableSwapBarrier(true)` calls issued
while the swap group id is 0, every call completes, the swap group id and the swap barrier id
reported by `GetState` remain 0, and the failure is not surfaced in the status: the status is
the one before the calls unless a context validation recorded `MissingDevice` or
`MissingSwapChain`.  Unless no call reached the client, the client's own last result is
`FailedToBindSwapBarrier`. -/
theorem enableSwapBarrier_without_group (hardware : PluginCSwapGroupClient SyncClient)
    (hs : List Host) (s : PluginState SyncClient) (hgroup : s.s_SwapGroupClient.groupId = 0)
    (hbarrier : s.s_SwapGroupClient.barrierId = 0) :
    ∃ s', enableSwapBarrierCalls (specClient hardware) hs s = .ok s' ∧
      (∀ state, state ≠ 0 → ∃ snapshot,
        GetState (specClient hardware) state s' = .ok (snapshot, s') ∧
          snapshot.swapBarrierId = 0 ∧ snapshot.swapGroupId = 0) ∧
      (s'.s_InitializationStatus = s.s_InitializationStatus ∨
        s'.s_InitializationStatus = .MissingDevice ∨
        s'.s_InitializationStatus = .MissingSwapChain) ∧
      (s'.s_InitializationStatus = .FailedToBindSwapBarrier →
        s.s_InitializationStatus = .FailedToBindSwapBarrier) ∧
      ((s'.clientCalls = s.clientCalls ∧ s'.s_SwapGroupClient = s.s_SwapGroupClient) ∨
        s'.s_SwapGroupClient.lastResult = some .FailedToBindSwapBarrier) := by
  have key : ∀ (hs : List Host) (s : PluginState SyncClient),
      s.s_SwapGroupClient.groupId = 0 → s.s_SwapGroupClient.barrierId = 0 →
      ∃ s', enableSwapBarrierCalls (specClient hardware) hs s = .ok s' ∧
        s'.s_SwapGroupClient.groupId = 0 ∧ s'.s_SwapGroupClient.barrierId = 0 ∧
        (s'.s_InitializationStatus = s.s_InitializationStatus ∨
          s'.s_InitializationStatus = .MissingDevice ∨
          s'.s_InitializationStatus = .MissingSwapChain) ∧
        ((s'.clientCalls = s.clientCalls ∧ s'.s_SwapGroupClient = s.s_SwapGroupClient) ∨
          s'.s_SwapGroupClient.lastResult = some .FailedToBindSwapBarrier) := by
    intro hs
    induction hs with
    | nil => intro s hg hb; exact ⟨s, rfl, hg, hb, Or.inl rfl, Or.inl ⟨rfl, rfl⟩⟩
    | cons h hs ih =>
      intro s hg hb
      obtain ⟨s1, h1, hg1, hb1, hst1, hl1⟩ :=
        QuadroSyncEnableSwapBarrier_without_group hardware h s hg hb
      obtain ⟨s', h2, hg2, hb2, hst2, hl2⟩ := ih s1 hg1 hb1
      refine ⟨s', by simp [enableSwapBarrierCalls, h1, h2], hg2, hb2, ?_, ?_⟩
      · rcases hst2 with e | e | e
        · rw [e]; exact hst1
        · exact Or.inr (Or.inl e)
        · exact Or.inr (Or.inr e)
      · rcases hl2 with ⟨ec, ek⟩ | e
        · rcases hl1 with ⟨ec1, ek1⟩ | e1
          · exact Or.inl ⟨ec.trans ec1, ek.trans ek1⟩
          · right; rw [ek]; exact e1
        · exact Or.inr e
  obtain ⟨s', hrun, hg', hb', hst, hl⟩ := key hs s hgroup hbarrier
  refine ⟨s', hrun, fun state hstate => ?_, hst, fun hf => ?_, hl⟩
  · obtain ⟨snapshot, s'', he, hs'', -, hgid, hbid, -⟩ :=
      GetState_snapshot_of_buffer (specClient hardware) state s' hstate
    subst hs''
    exact ⟨snapshot, he, by rw [hbid]; exact hb', by rw [hgid]; exact hg'⟩
  · rcases hst with e | e | e
    · rw [← e]; exact hf
    · rw [e] at hf; simp at hf
    · rw [e] at hf; simp at hf

/-- Witness of C14 (amended): three calls on the plugin that found no swap group. -/
theorem enableSwapBarrier_without_group_witness :
    noGroupState.s_SwapGroupClient.groupId = 0 ∧
    noGroupState.s_SwapGroupClient.barrierId = 0 ∧
    ∃ s', enableSwapBarrierCalls (specClient noSwapGroupHardware)
        [hostD3D11, hostNoHandles, hostD3D11] noGroupState = .ok s' ∧
      (∀ state, state ≠ 0 → ∃ snapshot,
        GetState (specClient noSwapGroupHardware) state s' = .ok (snapshot, s') ∧
          snapshot.swapBarrierId = 0 ∧ snapshot.swapGroupId = 0) ∧
      (s'.s_InitializationStatus = noGroupState.s_InitializationStatus ∨
        s'.s_InitializationStatus = .MissingDevice ∨
        s'.s_InitializationStatus = .MissingSwapChain) ∧
      (s'.s_InitializationStatus = .FailedToBindSwapBarrier →
        noGroupState.s_InitializationStatus = .FailedToBindSwapBarrier) ∧
      ((s'.clientCalls = noGroupState.clientCalls ∧
          s'.s_SwapGroupClient = noGroupState.s_SwapGroupClient) ∨
        s'.s_SwapGroupClient.lastResult = some .FailedToBindSwapBarrier) :=
  ⟨rfl, rfl,
    enableSwapBarrier_without_group noSwapGroupHardware [hostD3D11, hostNoHandles, hostD3D11]
      noGroupState rfl rfl⟩

/-! ## The frame-count throttle -/

/-- One `QuadroSyncQueryFrameCount` call with a valid context and an out-pointer: the plugin
invokes the client's `QueryFrameCount` and stores what it returns. -/
theorem queryFrameCountAt_of_ready (hardware : PluginCSwapGroupClient SyncClient) (h : Host)
    (value : Ptr) (r : Reading) (s : PluginState SyncClient) (g : IGraphicsDevice)
    (hg : s.s_UnityGraphics ≠ 0) (hd : s.s_GraphicsDevice = some g) (h1 : g.device ≠ 0)
    (h2 : g.swapChain ≠ 0) (hr : supportedRenderer h.renderer) (hv : value ≠ 0) :
    queryFrameCountAt (specClient hardware) h value r s = .ok
      { s with
        s_SwapGroupClient :=
          (SyncClient.QueryFrameCount
            { s.s_SwapGroupClient with
              performanceCounter := r.performanceCounter
              hardwareFrameCount := r.hardwareFrameCount } g.device).2
        clientCalls := s.clientCalls ++ [.QueryFrameCount g.device]
        stores := s.stores ++
          [(value, toInt32 (SyncClient.QueryFrameCount
            { s.s_SwapGroupClient with
              performanceCounter := r.performanceCounter
              hardwareFrameCount := r.hardwareFrameCount } g.device).1)] } := by
  have hval := IsContextValid_of_handles h
    ({ s with
      s_SwapGroupClient :=
        { s.s_SwapGroupClient with
          performanceCounter := r.performanceCounter
          hardwareFrameCount := r.hardwareFrameCount } } : PluginState SyncClient)
    g hg hd hr h1 h2
  unfold queryFrameCountAt QuadroSyncQueryFrameCount
  rw [hval]
  simp [derefGraphicsDevice, hd, hv, specClient]

/-- A call made while the burst window has room issues a frame-counter query. -/
theorem queryFrameCountAt_unthrottled (hardware : PluginCSwapGroupClient SyncClient) (h : Host)
    (value : Ptr) (r : Reading) (s : PluginState SyncClient) (g : IGraphicsDevice)
    (hg : s.s_UnityGraphics ≠ 0) (hd : s.s_GraphicsDevice = some g) (h1 : g.device ≠ 0)
    (h2 : g.swapChain ≠ 0) (hr : supportedRenderer h.renderer) (hv : value ≠ 0)
    (hfreq : 0 < s.s_SwapGroupClient.performanceCounterFrequency)
    (hlt : s.s_SwapGroupClient.queriesSinceReset < NBR_CAN_GET_FRAME_COUNT_BEFORE_THROTTLE) :
    ∃ s1, queryFrameCountAt (specClient hardware) h value r s = .ok s1 ∧
      s1.s_UnityGraphics = s.s_UnityGraphics ∧ s1.s_GraphicsDevice = s.s_GraphicsDevice ∧
      s1.s_SwapGroupClient.performanceCounterFrequency =
        s.s_SwapGroupClient.performanceCounterFrequency ∧
      s1.s_SwapGroupClient.queriesSinceReset = s.s_SwapGroupClient.queriesSinceReset + 1 ∧
      s1.s_SwapGroupClient.hardwareQueries = s.s_SwapGroupClient.hardwareQueries + 1 ∧
      s1.clientCalls = s.clientCalls ++ [.QueryFrameCount g.device] ∧
      s1.s_SwapGroupClient.lastQueryTick = r.tick ∧
      s1.s_SwapGroupClient.cachedFrameCount = r.hardwareFrameCount ∧
      s1.stores = s.stores ++ [(value, toInt32 r.hardwareFrameCount)] := by
  have hstep := queryFrameCountAt_of_ready hardware h value r s g hg hd h1 h2 hr hv
  have hk : SyncClient.QueryFrameCount
      { s.s_SwapGroupClient with
        performanceCounter := r.performanceCounter
        hardwareFrameCount := r.hardwareFrameCount } g.device =
      (r.hardwareFrameCount,
        { s.s_SwapGroupClient with
          performanceCounter := r.performanceCounter
          hardwareFrameCount := r.hardwareFrameCount
          cachedFrameCount := r.hardwareFrameCount
          lastQueryTick := r.tick
          hardwareQueries := s.s_SwapGroupClient.hardwareQueries + 1
          queriesSinceReset := s.s_SwapGroupClient.queriesSinceReset + 1 }) := by
    simp only [SyncClient.QueryFrameCount, Reading.tick]
    rw [if_neg (Nat.pos_iff_ne_zero.mp hfreq), if_pos hlt]
  rw [hk] at hstep
  exact ⟨_, hstep, rfl, rfl, rfl, rfl, rfl, rfl, rfl, rfl, rfl⟩

/-- While the burst window has room, every call of a sequence issues a frame-counter
query. -/
theorem queryFrameCounts_burst (hardware : PluginCSwapGroupClient SyncClient) (h : Host)
    (value : Ptr) (g : IGraphicsDevice) (w : Nat) (h1 : g.device ≠ 0) (h2 : g.swapChain ≠ 0)
    (hr : supportedRenderer h.renderer) (hv : value ≠ 0) :
    ∀ (rs : List Reading) (s : PluginState SyncClient), s.s_UnityGraphics ≠ 0 →
      s.s_GraphicsDevice = some g → 0 < s.s_SwapGroupClient.performanceCounterFrequency →
      s.s_SwapGroupClient.queriesSinceReset + rs.length ≤
        NBR_CAN_GET_FRAME_COUNT_BEFORE_THROTTLE →
      (∀ r ∈ rs, w ≤ r.tick) →
      ∃ s', queryFrameCounts (specClient hardware) h value rs s = .ok s' ∧
        s'.s_UnityGraphics = s.s_UnityGraphics ∧ s'.s_GraphicsDevice = s.s_GraphicsDevice ∧
        s'.s_SwapGroupClient.performanceCounterFrequency =
          s.s_SwapGroupClient.performanceCounterFrequency ∧
        s'.s_SwapGroupClient.queriesSinceReset =
          s.s_SwapGroupClient.queriesSinceReset + rs.length ∧
        s'.s_SwapGroupClient.hardwareQueries =
          s.s_SwapGroupClient.hardwareQueries + rs.length ∧
        s'.clientCalls.length = s.clientCalls.length + rs.length ∧
        (w ≤ s.s_SwapGroupClient.lastQueryTick ∨ rs ≠ [] →
          w ≤ s'.s_SwapGroupClient.lastQueryTick) ∧
        s'.s_SwapGroupClient.cachedFrameCount =
          (rs.getLast?.map Reading.hardwareFrameCount).getD
            s.s_SwapGroupClient.cachedFrameCount := by
  intro rs
  induction rs with
  | nil =>
    intro s _ _ _ _ _
    exact ⟨s, rfl, rfl, rfl, rfl, rfl, rfl, rfl, fun hw => by simpa using hw, rfl⟩
  | cons r rs ih =>
    intro s hg hd hfreq hroom hticks
    simp only [List.length_cons] at hroom
    obtain ⟨s1, hstep, a1, a2, a3, a4, a5, a6, a7, a8, -⟩ :=
      queryFrameCountAt_unthrottled hardware h value r s g hg hd h1 h2 hr hv hfreq
        (by omega)
    obtain ⟨s', hrun, e1, e2, e3, e4, e5, e6, e7, e8⟩ := ih s1 (by rw [a1]; exact hg)
      (by rw [a2]; exact hd) (by rw [a3]; exact hfreq) (by rw [a4]; omega)
      (fun r' hr' => hticks r' (List.mem_cons_of_mem r hr'))
    refine ⟨s', by simp only [queryFrameCounts, hstep, hrun], e1.trans a1, e2.trans a2,
      e3.trans a3, ?_, ?_, ?_, ?_, ?_⟩
    · rw [e4, a4]; simp only [List.length_cons]; omega
    · rw [e5, a5]; simp only [List.length_cons]; omega
    · rw [e6, a6]
      simp only [List.length_cons, List.length_append, List.length_nil]
      omega
    · intro _
      exact e7 (Or.inl (by rw [a7]; exact hticks r (List.mem_cons_self r rs)))
    · rw [e8, a8]
      cases rs with
      | nil => rfl
      | cons r' rs' =>
        simp only [List.getLast?_cons_cons]
        obtain ⟨x, hx⟩ : ∃ x, (r' :: rs').getLast? = some x :=
          ⟨_, List.getLast?_eq_getLast _ (List.cons_ne_nil r' rs')⟩
        rw [hx]
        rfl

/-- C15: with the specified client, a performance-counter frequency above 0, a valid context
and an armed burst window, each of 60 `QuadroSyncQueryFrameCount` calls issues a
frame-counter query; a 61st call in the same one-second window issues none, although the
plugin does call the client, and stores the cached frame count, which is the one the 60th call
obtained; `QuadroSyncResetFrameCount` re-arms the window, after which each of 60 further calls
issues a query again. -/
theorem frame_count_throttle (hardware : PluginCSwapGroupClient SyncClient) (h : Host)
    (value : Ptr) (g : IGraphicsDevice) (s : PluginState SyncClient)
    (rs : List Reading) (r61 : Reading) (rs' : List Reading) (w : Nat)
    (hg : s.s_UnityGraphics ≠ 0) (hd : s.s_GraphicsDevice = some g) (h1 : g.device ≠ 0)
    (h2 : g.swapChain ≠ 0) (hr : supportedRenderer h.renderer) (hv : value ≠ 0)
    (hfreq : 0 < s.s_SwapGroupClient.performanceCounterFrequency)
    (harmed : s.s_SwapGroupClient.queriesSinceReset = 0)
    (hlen : rs.length = NBR_CAN_GET_FRAME_COUNT_BEFORE_THROTTLE)
    (hwindow : ∀ r ∈ rs ++ [r61], w ≤ r.tick ∧
      r.tick < w + NBR_SECONDS_BETWEEN_CAN_GET_FRAME_COUNT *
        s.s_SwapGroupClient.performanceCounterFrequency)
    (hlen' : rs'.length = NBR_CAN_GET_FRAME_COUNT_BEFORE_THROTTLE) :
    ∃ s60 s61 s62 s122,
      queryFrameCounts (specClient hardware) h value rs s = .ok s60 ∧
      s60.s_SwapGroupClient.hardwareQueries = s.s_SwapGroupClient.hardwareQueries + 60 ∧
      queryFrameCountAt (specClient hardware) h value r61 s60 = .ok s61 ∧
      s61.s_SwapGroupClient.hardwareQueries = s60.s_SwapGroupClient.hardwareQueries ∧
      s61.clientCalls = s60.clientCalls ++ [.QueryFrameCount g.device] ∧
      s61.stores = s60.stores ++ [(value, toInt32 s60.s_SwapGroupClient.cachedFrameCount)] ∧
      s60.s_SwapGroupClient.cachedFrameCount =
        (rs.getLast?.map Reading.hardwareFrameCount).getD
          s.s_SwapGroupClient.cachedFrameCount ∧
      QuadroSyncResetFrameCount (specClient hardware) h s61 = .ok s62 ∧
      s62.s_SwapGroupClient.queriesSinceReset = 0 ∧
      queryFrameCounts (specClient hardware) h value rs' s62 = .ok s122 ∧
      s122.s_SwapGroupClient.hardwareQueries =
        s62.s_SwapGroupClient.hardwareQueries + 60 := by
  have hne : rs ≠ [] := by
    intro he; rw [he] at hlen; simp [NBR_CAN_GET_FRAME_COUNT_BEFORE_THROTTLE] at hlen
  obtain ⟨s60, hrun, e1, e2, e3, e4, e5, -, e7, e8⟩ :=
    queryFrameCounts_burst hardware h value g w h1 h2 hr hv rs s hg hd hfreq
      (by rw [harmed, hlen]; omega)
      (fun r hr' => (hwindow r (List.mem_append_left _ hr')).1)
  have hlast := e7 (Or.inr hne)
  have hg60 : s60.s_UnityGraphics ≠ 0 := by rw [e1]; exact hg
  have hd60 : s60.s_GraphicsDevice = some g := by rw [e2]; exact hd
  have hstep := queryFrameCountAt_of_ready hardware h value r61 s60 g hg60 hd60 h1 h2 hr hv
  have h61 := hwindow r61 (List.mem_append_right _ (List.mem_singleton_self r61))
  have hq60 : s60.s_SwapGroupClient.queriesSinceReset =
      NBR_CAN_GET_FRAME_COUNT_BEFORE_THROTTLE := by rw [e4, harmed, hlen]; omega
  have hk : SyncClient.QueryFrameCount
      { s60.s_SwapGroupClient with
        performanceCounter := r61.performanceCounter
        hardwareFrameCount := r61.hardwareFrameCount } g.device =
      (s60.s_SwapGroupClient.cachedFrameCount,
        { s60.s_SwapGroupClient with
          performanceCounter := r61.performanceCounter
          hardwareFrameCount := r61.hardwareFrameCount }) := by
    simp only [SyncClient.QueryFrameCount]
    rw [if_neg (by rw [e3]; exact Nat.pos_iff_ne_zero.mp hfreq),
      if_neg (by rw [hq60]; exact Nat.lt_irrefl _),
      if_neg (by
        have := h61.2
        rw [e3]
        show ¬ (s60.s_SwapGroupClient.lastQueryTick +
          NBR_SECONDS_BETWEEN_CAN_GET_FRAME_COUNT *
            s.s_SwapGroupClient.performanceCounterFrequency ≤ r61.tick)
        omega)]
  rw [hk] at hstep
  have hval61 := IsContextValid_of_handles h
    ({ s60 with
      s_SwapGroupClient :=
        { s60.s_SwapGroupClient with
          performanceCounter := r61.performanceCounter
          hardwareFrameCount := r61.hardwareFrameCount }
      clientCalls := s60.clientCalls ++ [.QueryFrameCount g.device]
      stores := s60.stores ++
        [(value, toInt32 s60.s_SwapGroupClient.cachedFrameCount)] } :
      PluginState SyncClient) g hg60 hd60 hr h1 h2
  have hreset : QuadroSyncResetFrameCount (specClient hardware) h
      ({ s60 with
        s_SwapGroupClient :=
          { s60.s_SwapGroupClient with
            performanceCounter := r61.performanceCounter
            hardwareFrameCount := r61.hardwareFrameCount }
        clientCalls := s60.clientCalls ++ [.QueryFrameCount g.device]
        stores := s60.stores ++
          [(value, toInt32 s60.s_SwapGroupClient.cachedFrameCount)] } :
        PluginState SyncClient) = .ok
      { s60 with
        s_SwapGroupClient :=
          SyncClient.ResetFrameCount
            { s60.s_SwapGroupClient with
              performanceCounter := r61.performanceCounter
              hardwareFrameCount := r61.hardwareFrameCount } g.device
        clientCalls := s60.clientCalls ++ [.QueryFrameCount g.device] ++
          [.ResetFrameCount g.device]
        stores := s60.stores ++
          [(value, toInt32 s60.s_SwapGroupClient.cachedFrameCount)] } := by
    unfold QuadroSyncResetFrameCount
    rw [hval61]
    simp [derefGraphicsDevice, hd60, specClient]
  obtain ⟨s122, hrun', -, -, -, -, f5, -, -, -⟩ :=
    queryFrameCounts_burst hardware h value g 0 h1 h2 hr hv rs'
      ({ s60 with
        s_SwapGroupClient :=
          SyncClient.ResetFrameCount
            { s60.s_SwapGroupClient with
              performanceCounter := r61.performanceCounter
              hardwareFrameCount := r61.hardwareFrameCount } g.device
        clientCalls := s60.clientCalls ++ [.QueryFrameCount g.device] ++
          [.ResetFrameCount g.device]
        stores := s60.stores ++
          [(value, toInt32 s60.s_SwapGroupClient.cachedFrameCount)] } :
        PluginState SyncClient) hg60 hd60
      (by show 0 < s60.s_SwapGroupClient.performanceCounterFrequency
          rw [e3]; exact hfreq)
      (by show 0 + rs'.length ≤ NBR_CAN_GET_FRAME_COUNT_BEFORE_THROTTLE
          rw [hlen']; omega)
      (fun r _ => Nat.zero_le r.tick)
  exact ⟨s60, _, _, s122, hrun, by rw [e5, hlen]; rfl, hstep, rfl, rfl, rfl, e8, hreset, rfl,
    hrun', by rw [f5, hlen']; rfl⟩

/-- The readings of the witness lie in one window of a second that starts at tick 1000. -/
theorem burstReadings_window :
    ∀ r ∈ burstReadings ++ [lateReading], 1000 ≤ r.tick ∧
      r.tick < 1000 + NBR_SECONDS_BETWEEN_CAN_GET_FRAME_COUNT *
        noGroupState.s_SwapGroupClient.performanceCounterFrequency := by
  intro r hr
  have hf : noGroupState.s_SwapGroupClient.performanceCounterFrequency = 10000000 := rfl
  rw [hf]
  rcases List.mem_append.mp hr with hr | hr
  · have := List.eq_of_mem_replicate hr
    subst this
    simp [Reading.tick, GetCurrentPerformanceCounterTick,
      NBR_SECONDS_BETWEEN_CAN_GET_FRAME_COUNT]
  · have := List.mem_singleton.mp hr
    subst this
    simp [Reading.tick, GetCurrentPerformanceCounterTick, lateReading,
      NBR_SECONDS_BETWEEN_CAN_GET_FRAME_COUNT]

/-- Witness of C15: sixty queries at tick 1000, a 61st at tick 2000 with a frequency of
10000000 ticks a second, a reset, and sixty queries more. -/
theorem frame_count_throttle_witness :
    0 < noGroupState.s_SwapGroupClient.performanceCounterFrequency ∧
    noGroupState.s_SwapGroupClient.queriesSinceReset = 0 ∧
    burstReadings.length = NBR_CAN_GET_FRAME_COUNT_BEFORE_THROTTLE ∧
    ∃ s60 s61 s62 s122,
      queryFrameCounts (specClient noSwapGroupHardware) hostD3D11 55 burstReadings
        noGroupState = .ok s60 ∧
      s60.s_SwapGroupClient.hardwareQueries =
        noGroupState.s_SwapGroupClient.hardwareQueries + 60 ∧
      queryFrameCountAt (specClient noSwapGroupHardware) hostD3D11 55 lateReading s60 =
        .ok s61 ∧
      s61.s_SwapGroupClient.hardwareQueries = s60.s_SwapGroupClient.hardwareQueries ∧
      s61.clientCalls = s60.clientCalls ++ [.QueryFrameCount noGroupDevice.device] ∧
      s61.stores = s60.stores ++ [(55, toInt32 s60.s_SwapGroupClient.cachedFrameCount)] ∧
      s60.s_SwapGroupClient.cachedFrameCount =
        (burstReadings.getLast?.map Reading.hardwareFrameCount).getD
          noGroupState.s_SwapGroupClient.cachedFrameCount ∧
      QuadroSyncResetFrameCount (specClient noSwapGroupHardware) hostD3D11 s61 = .ok s62 ∧
      s62.s_SwapGroupClient.queriesSinceReset = 0 ∧
      queryFrameCounts (specClient noSwapGroupHardware) hostD3D11 55 burstReadings s62 =
        .ok s122 ∧
      s122.s_SwapGroupClient.hardwareQueries =
        s62.s_SwapGroupClient.hardwareQueries + 60 :=
  ⟨by decide, rfl, rfl,
    frame_count_throttle noSwapGroupHardware hostD3D11 55 noGroupDevice noGroupState
      burstReadings lateReading burstReadings 1000 (by decide) rfl (by decide) (by decide)
      (Or.inl rfl) (by decide) (by decide) rfl rfl burstReadings_window rfl⟩

set_option maxRecDepth 100000 in
/-- The throttle evaluated: after the sixty queries of `burstReadings` the 61st call, made
while the frame counter shows 43, stores the cached 42 and issues no query. -/
theorem frame_count_throttle_evaluated :
    ((queryFrameCounts (specClient noSwapGroupHardware) hostD3D11 55 burstReadings
        noGroupState >>=
      queryFrameCountAt (specClient noSwapGroupHardware) hostD3D11 55 lateReading).map
        (fun s => (s.s_SwapGroupClient.hardwareQueries, s.stores.getLast?,
          s.clientCalls.length))) = .ok (60, some (55, 42), 63) := by
  rfl

/-! ## The two dispatchers -/

/-- The unified `OnRenderEvent` runs the call `selectedCall` names, and nothing when there
is none. -/
theorem OnRenderEvent_eq_selected {κ : Type} (c : PluginCSwapGroupClient κ) (ndebug : Bool)
    (h : Host) (eventID : Int) (data : Ptr) (s : PluginState κ) :
    OnRenderEvent c ndebug h eventID data s =
      match selectedCall eventID data with
      | some call => call.run c ndebug h s
      | none => .ok s := by
  unfold OnRenderEvent selectedCall
  cases hsel : EQuadroSyncRenderEvent.ofInt eventID with
  | none => rfl
  | some e => cases e <;> rfl

/-- The D3D11-only `OnRenderEvent` runs the call `D3D11Only.selectedCall` names, and nothing
when there is none. -/
theorem D3D11Only.OnRenderEvent_eq_selected_d3d11 {κ : Type}
    (c : D3D11Only.PluginCSwapGroupClient κ) (h : Host) (eventID : Int) (data : Ptr)
    (s : D3D11Only.PluginState κ) :
    D3D11Only.OnRenderEvent c h eventID data s =
      match D3D11Only.selectedCall eventID data with
      | some call => call.run c h s
      | none => .ok s := by
  unfold D3D11Only.OnRenderEvent D3D11Only.selectedCall
  split_ifs <;> rfl

/-- C17: each dispatcher runs exactly the call its `switch` selects, and for every event code
other than 8 the D3D11-only dispatcher selects the operation of the same name with the same
argument as the unified one.  On code 8 the unified dispatcher selects
`QuadroSyncSkipSyncForNextFrame` while the D3D11-only one selects nothing and returns the
state unchanged; on every code outside 0..8 both select nothing and return the state
unchanged. -/
theorem dispatchers_agree_except_skip {κ κd : Type} (c : PluginCSwapGroupClient κ)
    (cd : D3D11Only.PluginCSwapGroupClient κd) (ndebug : Bool) (h : Host) (data : Ptr)
    (s : PluginState κ) (sd : D3D11Only.PluginState κd) :
    (∀ eventID : Int,
      (OnRenderEvent c ndebug h eventID data s =
        match selectedCall eventID data with
        | some call => call.run c ndebug h s
        | none => .ok s) ∧
      (D3D11Only.OnRenderEvent cd h eventID data sd =
        match D3D11Only.selectedCall eventID data with
        | some call => call.run cd h sd
        | none => .ok sd) ∧
      (eventID ≠ 8 →
        (D3D11Only.selectedCall eventID data).map D3D11Only.DispatchedCall.toUnified =
          selectedCall eventID data) ∧
      (eventID < 0 ∨ 8 < eventID →
        selectedCall eventID data = none ∧ D3D11Only.selectedCall eventID data = none ∧
        OnRenderEvent c ndebug h eventID data s = .ok s ∧
        D3D11Only.OnRenderEvent cd h eventID data sd = .ok sd)) ∧
    selectedCall 8 data = some .QuadroSyncSkipSyncForNextFrame ∧
    D3D11Only.selectedCall 8 data = none ∧
    OnRenderEvent c ndebug h 8 data s = QuadroSyncSkipSyncForNextFrame c h s ∧
    D3D11Only.OnRenderEvent cd h 8 data sd = .ok sd := by
  have hout : ∀ eventID : Int, eventID < 0 ∨ 8 < eventID →
      selectedCall eventID data = none ∧ D3D11Only.selectedCall eventID data = none := by
    intro eventID ho
    constructor
    · simp only [selectedCall, EQuadroSyncRenderEvent.ofInt_none eventID ho]
    · simp only [D3D11Only.selectedCall, EQuadroSyncRenderEvent.toInt]
      split_ifs <;> first | omega | rfl
  refine ⟨fun eventID => ⟨OnRenderEvent_eq_selected c ndebug h eventID data s,
    D3D11Only.OnRenderEvent_eq_selected_d3d11 cd h eventID data sd, fun hne => ?_, fun ho => ?_⟩,
    rfl, rfl, rfl, rfl⟩
  · by_cases h0 : eventID = 0
    · subst h0; rfl
    by_cases h1 : eventID = 1
    · subst h1; rfl
    by_cases h2 : eventID = 2
    · subst h2; rfl
    by_cases h3 : eventID = 3
    · subst h3; rfl
    by_cases h4 : eventID = 4
    · subst h4; rfl
    by_cases h5 : eventID = 5
    · subst h5; rfl
    by_cases h6 : eventID = 6
    · subst h6; rfl
    by_cases h7 : eventID = 7
    · subst h7; rfl
    have ho : eventID < 0 ∨ 8 < eventID := by omega
    obtain ⟨e1, e2⟩ := hout eventID ho
    rw [e1, e2]
    rfl
  · obtain ⟨e1, e2⟩ := hout eventID ho
    refine ⟨e1, e2, ?_, ?_⟩
    · rw [OnRenderEvent_eq_selected, e1]
    · rw [D3D11Only.OnRenderEvent_eq_selected_d3d11, e2]

/-- Witness of C17: event codes 8, 9 and 6 dispatched by both plugins. -/
theorem dispatchers_agree_except_skip_witness :
    OnRenderEvent (fixedClient .Success 0 true) true hostD3D11 8 1 initializedState =
      QuadroSyncSkipSyncForNextFrame (fixedClient .Success 0 true) hostD3D11
        initializedState ∧
    D3D11Only.OnRenderEvent (D3D11Only.fixedClient 0 true) hostD3D11 8 1
      D3D11Only.loadedState = .ok D3D11Only.loadedState ∧
    (OnRenderEvent (fixedClient .Success 0 true) true hostD3D11 9 1 initializedState =
        .ok initializedState ∧
      D3D11Only.OnRenderEvent (D3D11Only.fixedClient 0 true) hostD3D11 9 1
        D3D11Only.loadedState = .ok D3D11Only.loadedState) ∧
    (D3D11Only.selectedCall 6 1).map D3D11Only.DispatchedCall.toUnified =
      selectedCall 6 1 ∧
    selectedCall 6 1 = some (.QuadroSyncEnableSwapBarrier true) ∧
    (OnRenderEvent (fixedClient .Success 0 true) true hostD3D11 8 1 initializedState).map
        (fun s => s.clientCalls) =
      .ok [.SetupWorkStation, .Initialize 7 9, .SkipSynchronizedPresentOfNextFrame] :=
  have hw := dispatchers_agree_except_skip (fixedClient .Success 0 true)
    (D3D11Only.fixedClient 0 true) true hostD3D11 1 initializedState D3D11Only.loadedState
  ⟨hw.2.2.2.1, hw.2.2.2.2, ((hw.1 9).2.2.2 (Or.inr (by decide))).2.2,
    (hw.1 6).2.2.1 (by decide), rfl, rfl⟩

end GfxQuadroSync
